import Mathlib

/-!
# Urho3D terrain component (Engine/Graphics/Terrain.cpp, Terrain.h)

A shallow embedding of the `Terrain` component: the heightmap decode, the patch grid,
the shared index buffer, the per-patch vertex data (positions, normals, texture
coordinates, tangents) and patch placement, the raw and interpolated height queries, the
patch-size, spacing, heightmap and per-patch attribute setters with their getters,
followed by theorems about them.

Conventions of the embedding:
* `unsigned` values are natural numbers; every place where the C++ arithmetic can wrap
  carries an explicit reduction modulo `2 ^ 32` (`2 ^ 16` for the `unsigned short` index
  store); `int` values are integers, and the casts between both are `toInt`/`toUnsigned`.
* `float` values are rationals: arithmetic is exact.
* Heap arrays are lists; a null pointer is `none`.
* `Vector3::Normalized` divides a vector by its length, the square root of a rational. Its
  result is kept exactly, as the rational vector together with the square of the length
  it is divided by (`NormalizedVector3`); lengths, signs and dot products of such results
  are stated over the real numbers.
-/

namespace Urho3D

/-! ## Machine integers -/

/-- Conversion of an `int` to `unsigned`: reduction modulo `2 ^ 32`. -/
def toUnsigned (i : Int) : Nat := (i % 4294967296).toNat

/-- Conversion `(int)u` of an `unsigned` to `int`: two-complement reading. -/
def toInt (u : Nat) : Int :=
  if u % 4294967296 < 2147483648 then ((u % 4294967296 : Nat) : Int)
  else ((u % 4294967296 : Nat) : Int) - 4294967296

/-- Conversion `(unsigned)f` of a `float` to `unsigned`: truncation towards zero, wrapped
into the 32-bit range. -/
def floatToUnsigned (f : ℚ) : Nat :=
  toUnsigned (if 0 ≤ f then Int.floor f else Int.ceil f)

/-- Modelled from the spec: `Clamp` of Math/MathDefs.h, which is not among the sources;
the value is forced into `[min, max]` ("clamps (x, z) into [0, width-1] x [0, depth-1]"). -/
def Clamp (value min max : Int) : Int :=
  if value < min then min else if value > max then max else value

/-- Modelled from the spec: `IsPowerOfTwo` of Math/MathDefs.h, which is not among the
sources; true exactly for the 32-bit powers of two. It is only ever applied to a value
already clamped into `[4, 128]`. -/
def IsPowerOfTwo (value : Nat) : Bool :=
  (List.range 32).any (fun k => value == 2 ^ k)

/-! ## Constants of Terrain.cpp -/

def DEFAULT_PATCH_SIZE : Nat := 16
def DEFAULT_LOD_LEVELS : Nat := 3
def MAX_LOD_LEVELS : Nat := 4
def MIN_PATCH_SIZE : Nat := 4
def MAX_PATCH_SIZE : Nat := 128

/-! ## Data model -/

structure Vector2 where
  x_ : ℚ
  y_ : ℚ
  deriving DecidableEq

structure Vector3 where
  x_ : ℚ
  y_ : ℚ
  z_ : ℚ
  deriving DecidableEq

structure IntVector2 where
  x_ : Int
  y_ : Int
  deriving DecidableEq

def DEFAULT_SPACING : Vector3 := ⟨1, 1 / 4, 1⟩

/-- Modelled from the spec: the componentwise sum of Math/Vector3.h, which is not among
the sources. -/
def Vector3.add (a b : Vector3) : Vector3 := ⟨a.x_ + b.x_, a.y_ + b.y_, a.z_ + b.z_⟩

/-- Modelled from the spec: the componentwise difference of Math/Vector3.h. -/
def Vector3.sub (a b : Vector3) : Vector3 := ⟨a.x_ - b.x_, a.y_ - b.y_, a.z_ - b.z_⟩

/-- Modelled from the spec: the product of a vector and a scalar of Math/Vector3.h. -/
def Vector3.scale (a : Vector3) (s : ℚ) : Vector3 := ⟨a.x_ * s, a.y_ * s, a.z_ * s⟩

/-- Modelled from the spec: `Vector3::DotProduct` of Math/Vector3.h. -/
def Vector3.DotProduct (a b : Vector3) : ℚ := a.x_ * b.x_ + a.y_ * b.y_ + a.z_ * b.z_

/-- The constant `Vector3::RIGHT`. -/
def Vector3.RIGHT : Vector3 := ⟨1, 0, 0⟩

/-- The floats of a vector returned by `Vector3::Normalized`, kept exactly: the value is
`direction / sqrt lengthSquared`, a rational vector divided by the square root of a
positive rational. -/
structure NormalizedVector3 where
  direction : Vector3
  lengthSquared : ℚ
  deriving DecidableEq

/-- Modelled from the spec: `Vector3::Normalized` of Math/Vector3.h, which is not among the
sources ("sum them, normalize"; "then normalize"): a vector of non-zero length is divided
by its length, the zero vector is returned as it is. -/
def Vector3.Normalized (v : Vector3) : NormalizedVector3 :=
  if 0 < v.DotProduct v then ⟨v, v.DotProduct v⟩ else ⟨v, 1⟩

/-- Modelled from the spec: the product `n * n.DotProduct(a)` of Math/Vector3.h for a
normalized vector `n` and a rational vector `a` ("the normal's projection onto a fixed
reference horizontal axis"). Both factors are divided by the same square root, so the
product is the rational vector `direction * (direction . a) / lengthSquared`. -/
def NormalizedVector3.scaledByDotProduct (n : NormalizedVector3) (a : Vector3) : Vector3 :=
  n.direction.scale (n.direction.DotProduct a / n.lengthSquared)

/-- Modelled from the spec: the heightmap image resource (Image.h is not among the
sources), as the terrain reads it: `GetWidth`, `GetHeight` (both `int`), `GetComponents`,
`IsCompressed` and the bytes returned by `GetData`. -/
structure Image where
  width : Int
  height : Int
  components : Nat
  compressed : Bool
  data : List Nat
  deriving DecidableEq

/-- An image that can exist in memory: positive dimensions, at least one component per
pixel, `width * height * components` bytes, all within the `int` range. -/
def Image.WF (img : Image) : Prop :=
  1 ≤ img.width ∧ 1 ≤ img.height ∧ 1 ≤ img.components ∧
  img.width * img.height * img.components < 2147483648 ∧
  img.data.length = img.width.toNat * img.height.toNat * img.components ∧
  ∀ b ∈ img.data, b < 256

/-- Modelled from the spec: the scene node owning the terrain (Node.h is not among the
sources), restricted to upright nodes as `GetHeight` assumes: the world transform is a
scale followed by a translation, `GetWorldPosition` and `GetWorldScale` return them. -/
structure Node where
  worldPosition : Vector3
  worldScale : Vector3
  deriving DecidableEq

/-- World transform of an upright node applied to a local point. -/
def Node.worldTransform (n : Node) (p : Vector3) : Vector3 :=
  ⟨n.worldScale.x_ * p.x_ + n.worldPosition.x_,
   n.worldScale.y_ * p.y_ + n.worldPosition.y_,
   n.worldScale.z_ * p.z_ + n.worldPosition.z_⟩

/-- The product `GetWorldTransform().Inverse() * p` for an upright node. -/
def Node.worldTransformInverse (n : Node) (p : Vector3) : Vector3 :=
  ⟨(p.x_ - n.worldPosition.x_) / n.worldScale.x_,
   (p.y_ - n.worldPosition.y_) / n.worldScale.y_,
   (p.z_ - n.worldPosition.z_) / n.worldScale.z_⟩

/-- What a terrain call finds around it: the owning node (`node_`, null when the
component is detached), whether the scene has an octree, whether locking the shared
index buffer succeeds, and whether locking the vertex buffer of the patch at a grid
coordinate succeeds. -/
structure Env where
  node_ : Option Node
  octree : Bool
  indexLock : Bool
  vertexLock : Nat → Nat → Bool

/-- Default masks of Drawable.h, which is not among the sources. -/
structure DrawableDefaults where
  viewMask : Nat
  lightMask : Nat
  shadowMask : Nat
  zoneMask : Nat

/-- One vertex as `UpdatePatchGeometry` writes it: position, normal, texture coordinate
and tangent with its handedness. -/
structure Vertex where
  position : Vector3
  normal : NormalizedVector3
  texCoord : Vector2
  tangent : NormalizedVector3
  tangentW : ℚ
  deriving DecidableEq

/-- Modelled from the spec: a defined bounding box (Math/BoundingBox.h is not among the
sources), its minimum and maximum corner. An undefined box is `none`. -/
structure BoundingBox where
  min_ : Vector3
  max_ : Vector3
  deriving DecidableEq

/-- Modelled from the spec: `BoundingBox::Merge` with a point: an undefined box becomes
the point, a defined one grows to contain it. -/
def BoundingBox.Merge (box : Option BoundingBox) (point : Vector3) : Option BoundingBox :=
  match box with
  | none => some ⟨point, point⟩
  | some b =>
    some ⟨⟨min b.min_.x_ point.x_, min b.min_.y_ point.y_, min b.min_.z_ point.z_⟩,
          ⟨max b.max_.x_ point.x_, max b.max_.y_ point.y_, max b.max_.z_ point.z_⟩⟩

/-- Modelled from the spec: a terrain patch (TerrainPatch.h is not among the sources):
grid coordinate, the drawable parameters copied from the terrain, and what
`UpdatePatchGeometry` touches: the vertex buffer (`vertexCount` vertices, whose content
`vertexData` is `none` until it is written through a lock), the CPU-side copy of the
positions (`none` while no array with written content is held), the bounding box
(`none` while undefined) and the index count of the draw range. -/
structure TerrainPatch where
  x_ : Nat
  z_ : Nat
  vertexCount : Nat
  vertexData : Option (List Vertex)
  cpuVertexData_ : Option (List Vector3)
  boundingBox_ : Option BoundingBox
  drawIndexCount : Nat
  material_ : Option Nat
  drawDistance_ : ℚ
  shadowDistance_ : ℚ
  lodBias_ : ℚ
  viewMask_ : Nat
  lightMask_ : Nat
  shadowMask_ : Nat
  zoneMask_ : Nat
  maxLights_ : Nat
  visible_ : Bool
  castShadows_ : Bool
  occluder_ : Bool
  occludee_ : Bool
  deriving DecidableEq

/-- Modelled from the spec: the scene node of a patch (Node.h is not among the sources):
the translation and scale given by `SetPatchTransform`. -/
structure PatchNode where
  position : Vector3
  scale : Vector3
  deriving DecidableEq

/-- Modelled from the spec: the shared index buffer (IndexBuffer.h is not among the
sources): its index count and, once written through a successful lock, the 16-bit
indices. `data = none` is a buffer whose content was never written. -/
structure IndexBuffer where
  indexCount : Nat
  data : Option (List Nat)
  shadowed : Bool
  deriving DecidableEq

/-- Member variables of `Terrain` (Terrain.h), with `createdEvents` counting the
`E_TERRAINCREATED` events sent so far. -/
structure Terrain where
  indexBuffer_ : IndexBuffer
  heightMap_ : Option Image
  heightData_ : Option (List ℚ)
  material_ : Option Nat
  patches_ : List TerrainPatch
  patchNodes_ : List PatchNode
  patchSize_ : Nat
  numLodLevels_ : Nat
  spacing_ : Vector3
  size_ : IntVector2
  patchWorldOrigin_ : Vector2
  patchWorldSize_ : Vector2
  patchesX_ : Nat
  patchesZ_ : Nat
  visible_ : Bool
  castShadows_ : Bool
  occluder_ : Bool
  occludee_ : Bool
  viewMask_ : Nat
  lightMask_ : Nat
  shadowMask_ : Nat
  zoneMask_ : Nat
  drawDistance_ : ℚ
  shadowDistance_ : ℚ
  lodBias_ : ℚ
  maxLights_ : Nat
  terrainDirty_ : Bool
  createdEvents : Nat
  deriving DecidableEq

/-- The constructor `Terrain::Terrain`. -/
def construct (d : DrawableDefaults) : Terrain where
  indexBuffer_ := { indexCount := 0, data := none, shadowed := true }
  heightMap_ := none
  heightData_ := none
  material_ := none
  patches_ := []
  patchNodes_ := []
  patchSize_ := DEFAULT_PATCH_SIZE
  numLodLevels_ := DEFAULT_LOD_LEVELS
  spacing_ := DEFAULT_SPACING
  size_ := ⟨0, 0⟩
  patchWorldOrigin_ := ⟨0, 0⟩
  patchWorldSize_ := ⟨0, 0⟩
  patchesX_ := 0
  patchesZ_ := 0
  visible_ := true
  castShadows_ := false
  occluder_ := false
  occludee_ := true
  viewMask_ := d.viewMask
  lightMask_ := d.lightMask
  shadowMask_ := d.shadowMask
  zoneMask_ := d.zoneMask
  drawDistance_ := 0
  shadowDistance_ := 0
  lodBias_ := 1
  maxLights_ := 0
  terrainDirty_ := false
  createdEvents := 0

/-! ## Patch grid and geometry -/

/-- Body of the patch loop of `CreateGeometry`: a new patch at `(x, z)` with the
current drawable parameters of the terrain copied into it. -/
def newPatch (t : Terrain) (x z : Nat) : TerrainPatch where
  x_ := x
  z_ := z
  vertexCount := 0
  vertexData := none
  cpuVertexData_ := none
  boundingBox_ := none
  drawIndexCount := 0
  material_ := t.material_
  drawDistance_ := t.drawDistance_
  shadowDistance_ := t.shadowDistance_
  lodBias_ := t.lodBias_
  viewMask_ := t.viewMask_
  lightMask_ := t.lightMask_
  shadowMask_ := t.shadowMask_
  zoneMask_ := t.zoneMask_
  maxLights_ := t.maxLights_
  visible_ := t.visible_
  castShadows_ := t.castShadows_
  occluder_ := t.occluder_
  occludee_ := t.occludee_

/-- The patch loop of `CreateGeometry`: `z` outer, `x` inner, one push per iteration. -/
def createPatches (t : Terrain) (patchesX patchesZ : Nat) : List TerrainPatch :=
  (List.range patchesZ).flatMap (fun z => (List.range patchesX).map (fun x => newPatch t x z))

/-- Source index read by the heightmap copy loop for the sample `(x, z)`:
`imgRow * (size_.y_ - 1 - z) + imgComps * x` in `unsigned` arithmetic. -/
def srcIndex (img : Image) (sizeY : Int) (x z : Nat) : Nat :=
  ((toUnsigned img.width * img.components) % 4294967296 * toUnsigned (sizeY - 1 - z)
    + img.components * x) % 4294967296

/-- The heightmap copy loop of `CreateGeometry`: `size.y_` rows of `size.x_` samples, each
the first component byte of a texel times `spacing_.y_`. -/
def decodeHeights (img : Image) (size : IntVector2) (spacingY : ℚ) : List ℚ :=
  (List.range size.y_.toNat).flatMap (fun z =>
    (List.range size.x_.toNat).map (fun x =>
      ((img.data.getD (srcIndex img size.y_ x z) 0 : Nat) : ℚ) * spacingY))

/-- The six indices written for the quad `(x, z)`, each stored as `unsigned short`. -/
def quadIndices (vertexDataRow x z : Nat) : List Nat :=
  [ (x + (z + 1) * vertexDataRow) % 65536,
    (x + z * vertexDataRow + 1) % 65536,
    (x + z * vertexDataRow) % 65536,
    (x + (z + 1) * vertexDataRow) % 65536,
    (x + (z + 1) * vertexDataRow + 1) % 65536,
    (x + z * vertexDataRow + 1) % 65536 ]

/-- The index loop of `CreateGeometry`: `z` outer, `x` inner. -/
def createIndexData (patchSize : Nat) : List Nat :=
  (List.range patchSize).flatMap (fun z =>
    (List.range patchSize).flatMap (fun x => quadIndices ((patchSize + 1) % 4294967296) x z))

/-- Array index computed by `GetRawHeight`: both arguments are read as `int`, clamped
into the field and stored back as `unsigned`; the index is `z * size_.x_ + x`. -/
def rawHeightIndex (t : Terrain) (x z : Nat) : Nat :=
  (toUnsigned (Clamp (toInt z) 0 (t.size_.y_ - 1)) * toUnsigned t.size_.x_
    + toUnsigned (Clamp (toInt x) 0 (t.size_.x_ - 1))) % 4294967296

/-- The method `Terrain::GetRawHeight`: zero without height data, else the sample at
`rawHeightIndex`. -/
def GetRawHeight (t : Terrain) (x z : Nat) : ℚ :=
  match t.heightData_ with
  | none => 0
  | some heightData => heightData.getD (rawHeightIndex t x z) 0

/-- The sum of the eight slope vectors of `GetNormal`, before it is normalized. The
neighbour coordinates `x - 1`, `x + 1`, `z - 1`, `z + 1` are computed in `unsigned`
arithmetic. -/
def normalSum (t : Terrain) (x z : Nat) : Vector3 :=
  let xm := (x + 4294967295) % 4294967296
  let xp := (x + 1) % 4294967296
  let zm := (z + 4294967295) % 4294967296
  let zp := (z + 1) % 4294967296
  let baseHeight := GetRawHeight t x z
  let nSlope := GetRawHeight t x zm - baseHeight
  let neSlope := GetRawHeight t xp zm - baseHeight
  let eSlope := GetRawHeight t xp z - baseHeight
  let seSlope := GetRawHeight t xp zp - baseHeight
  let sSlope := GetRawHeight t x zp - baseHeight
  let swSlope := GetRawHeight t xm zp - baseHeight
  let wSlope := GetRawHeight t xm z - baseHeight
  let nwSlope := GetRawHeight t xm zm - baseHeight
  (((((((Vector3.mk 0 1 nSlope).add ⟨-neSlope, 1, neSlope⟩).add ⟨-eSlope, 1, 0⟩).add
    ⟨-seSlope, 1, -seSlope⟩).add ⟨0, 1, -sSlope⟩).add ⟨swSlope, 1, -swSlope⟩).add
    ⟨wSlope, 1, 0⟩).add ⟨nwSlope, 1, nwSlope⟩

/-- The method `Terrain::GetNormal`. -/
def GetNormal (t : Terrain) (x z : Nat) : NormalizedVector3 :=
  (normalSum t x z).Normalized

/-- Body of the vertex loop of `UpdatePatchGeometry` for the vertex `(x1, z1)` of a patch:
`xPos` and `zPos` are the `int` field coordinates. -/
def patchVertex (t : Terrain) (patch : TerrainPatch) (x1 z1 : Nat) : Vertex :=
  let xPos : Int := toInt ((patch.x_ * t.patchSize_ + x1) % 4294967296)
  let zPos : Int := toInt ((patch.z_ * t.patchSize_ + z1) % 4294967296)
  let normal := GetNormal t (toUnsigned xPos) (toUnsigned zPos)
  { position :=
      ⟨(x1 : ℚ) * t.spacing_.x_, GetRawHeight t (toUnsigned xPos) (toUnsigned zPos),
       (z1 : ℚ) * t.spacing_.z_⟩
    normal := normal
    texCoord := ⟨(xPos : ℚ) / (t.size_.x_ : ℚ), 1 - (zPos : ℚ) / (t.size_.y_ : ℚ)⟩
    tangent := (Vector3.RIGHT.sub (normal.scaledByDotProduct Vector3.RIGHT)).Normalized
    tangentW := 1 }

/-- The vertex loop of `UpdatePatchGeometry`: `z1` outer, `x1` inner, both from 0 to
`patchSize_` inclusive. -/
def patchVertices (t : Terrain) (patch : TerrainPatch) : List Vertex :=
  (List.range (t.patchSize_ + 1)).flatMap (fun z1 =>
    (List.range (t.patchSize_ + 1)).map (fun x1 => patchVertex t patch x1 z1))

/-- The method `Terrain::UpdatePatchGeometry`. The vertex buffer is resized when its
vertex count differs from `(patchSize_ + 1) ^ 2`, which loses its content; a new array is
assigned to `cpuVertexData_`; when the lock of the vertex buffer succeeds the vertices
are written to both and merged into a fresh bounding box; in either case the box is
assigned to the patch and the draw range is set to the index count of the terrain. -/
def UpdatePatchGeometry (env : Env) (t : Terrain) (patch : TerrainPatch) : TerrainPatch :=
  let vertexDataRow := (t.patchSize_ + 1) % 4294967296
  let count := (vertexDataRow * vertexDataRow) % 4294967296
  let resized : TerrainPatch :=
    if patch.vertexCount ≠ count then { patch with vertexCount := count, vertexData := none }
    else patch
  if env.vertexLock patch.x_ patch.z_ = true then
    let vertices := patchVertices t patch
    { resized with
      vertexData := some vertices
      cpuVertexData_ := some (vertices.map (fun v => v.position))
      boundingBox_ := vertices.foldl (fun box v => BoundingBox.Merge box v.position) none
      drawIndexCount := t.indexBuffer_.indexCount }
  else
    { resized with
      cpuVertexData_ := none
      boundingBox_ := none
      drawIndexCount := t.indexBuffer_.indexCount }

/-- The transform `SetPatchTransform` gives to the node of a patch: the patch offset
`(origin.x + x * worldSize.x, 0, origin.y + z * worldSize.y)` with identity rotation and
unit scale, composed with the world transform of the terrain node. -/
def SetPatchTransform (node : Node) (origin worldSize : Vector2) (patch : TerrainPatch) :
    PatchNode where
  position := node.worldTransform
    ⟨origin.x_ + (patch.x_ : ℚ) * worldSize.x_, 0, origin.y_ + (patch.z_ : ℚ) * worldSize.y_⟩
  scale := node.worldScale

/-- The statements of `CreateGeometry` from clearing the patch lists to unlocking the
index buffer: the patch counts, the size, the patch world size and origin, the decoded
heightmap, one new patch and one new patch node per grid cell, and the shared index
buffer, written when its lock succeeds. -/
def prepareGeometry (env : Env) (t : Terrain) (img : Image) : Terrain :=
  let patchesX := toUnsigned (img.width - 1) / t.patchSize_
  let patchesZ := toUnsigned (img.height - 1) / t.patchSize_
  let size : IntVector2 :=
    ⟨toInt ((patchesX * t.patchSize_ + 1) % 4294967296),
     toInt ((patchesZ * t.patchSize_ + 1) % 4294967296)⟩
  let worldSize : Vector2 :=
    ⟨t.spacing_.x_ * (t.patchSize_ : ℚ), t.spacing_.z_ * (t.patchSize_ : ℚ)⟩
  let origin : Vector2 :=
    ⟨-(1 / 2) * (patchesX : ℚ) * worldSize.x_, -(1 / 2) * (patchesZ : ℚ) * worldSize.y_⟩
  let patches := createPatches t patchesX patchesZ
  { t with
    patchesX_ := patchesX
    patchesZ_ := patchesZ
    size_ := size
    patchWorldSize_ := worldSize
    patchWorldOrigin_ := origin
    heightData_ := some (decodeHeights img size t.spacing_.y_)
    patches_ := patches
    patchNodes_ := patches.map (fun _ => ⟨⟨0, 0, 0⟩, ⟨1, 1, 1⟩⟩)
    indexBuffer_ :=
      { t.indexBuffer_ with
        indexCount := (t.patchSize_ * t.patchSize_ * 6) % 4294967296
        data := if env.indexLock then some (createIndexData t.patchSize_) else none } }

/-- The method `Terrain::CreateGeometry`. Without a heightmap, a node or an octree it
returns at once. Otherwise it clears the patches, recomputes the patch counts, the size,
the patch world size and origin, decodes the heightmap, creates one patch per grid cell,
writes the shared index buffer when its lock succeeds (`prepareGeometry`), then places
every patch node, fills the vertex data of every patch and sends `E_TERRAINCREATED`. -/
def CreateGeometry (env : Env) (t : Terrain) : Terrain :=
  match t.heightMap_, env.node_, env.octree with
  | some img, some node, true =>
    let prepared := prepareGeometry env t img
    { prepared with
      patches_ := prepared.patches_.map (UpdatePatchGeometry env prepared)
      patchNodes_ := prepared.patches_.map
        (SetPatchTransform node prepared.patchWorldOrigin_ prepared.patchWorldSize_)
      createdEvents := prepared.createdEvents + 1 }
  | _, _, _ => t

/-! ## Height queries -/

/-- The method `Terrain::GetHeight`. -/
def GetHeight (env : Env) (t : Terrain) (worldPosition : Vector3) : ℚ :=
  match env.node_ with
  | some node =>
    let position := node.worldTransformInverse worldPosition
    let xPos := (position.x_ - t.patchWorldOrigin_.x_) / t.spacing_.x_
    let zPos := (position.z_ - t.patchWorldOrigin_.y_) / t.spacing_.z_
    let xFrac := xPos - (Int.floor xPos : ℚ)
    let zFrac := zPos - (Int.floor zPos : ℚ)
    let ux := floatToUnsigned xPos
    let uz := floatToUnsigned zPos
    let ux1 := (ux + 1) % 4294967296
    let uz1 := (uz + 1) % 4294967296
    let h :=
      if xFrac + zFrac ≥ 1 then
        GetRawHeight t ux1 uz1 * (1 - (1 - xFrac) - (1 - zFrac))
          + GetRawHeight t ux uz1 * (1 - xFrac) + GetRawHeight t ux1 uz * (1 - zFrac)
      else
        GetRawHeight t ux uz * (1 - xFrac - zFrac)
          + GetRawHeight t ux1 uz * xFrac + GetRawHeight t ux uz1 * zFrac
    node.worldScale.y_ * h + node.worldPosition.y_
  | none => 0

/-! ## Setters -/

/-- The loop of `SetPatchSize` counting LOD levels: halve while the size stays above
`MIN_PATCH_SIZE` and fewer than `MAX_LOD_LEVELS` levels are counted. -/
def lodLevelLoop (lodSize numLodLevels : Nat) : Nat :=
  if lodSize > MIN_PATCH_SIZE ∧ numLodLevels < MAX_LOD_LEVELS then
    lodLevelLoop (lodSize >>> 1) (numLodLevels + 1)
  else numLodLevels
termination_by MAX_LOD_LEVELS - numLodLevels
decreasing_by omega

/-- The LOD-level count in the words of the specification: the number of sizes in the
halving sequence `patchSize, patchSize / 2, ...` that are not below `MIN_PATCH_SIZE`, capped
at `MAX_LOD_LEVELS`. A 32-bit size has at most 32 halvings. -/
def halvingLevelCount (patchSize : Nat) : Nat :=
  min MAX_LOD_LEVELS
    ((List.range 32).filter (fun k => decide (MIN_PATCH_SIZE ≤ patchSize >>> k))).length

/-- The value of `size` after the first statement of `SetPatchSize`:
`Clamp((int)size, (int)MIN_PATCH_SIZE, (int)MAX_PATCH_SIZE)` stored back as `unsigned`. -/
def clampPatchSize (size : Nat) : Nat :=
  toUnsigned (Clamp (toInt size) (MIN_PATCH_SIZE : Int) (MAX_PATCH_SIZE : Int))

/-- The method `Terrain::SetPatchSize`. -/
def SetPatchSize (env : Env) (t : Terrain) (size : Nat) : Terrain :=
  let size := clampPatchSize size
  if size ≠ t.patchSize_ ∧ IsPowerOfTwo size = true then
    CreateGeometry env { t with patchSize_ := size, numLodLevels_ := lodLevelLoop size 1 }
  else t

/-- The method `Terrain::SetSpacing`. -/
def SetSpacing (env : Env) (t : Terrain) (spacing : Vector3) : Terrain :=
  if spacing ≠ t.spacing_ then CreateGeometry env { t with spacing_ := spacing } else t

/-- The method `Terrain::SetHeightMap`: the returned flag and the new state. -/
def SetHeightMap (env : Env) (t : Terrain) (image : Option Image) : Bool × Terrain :=
  match image with
  | none => (false, t)
  | some img =>
    if img.compressed then (false, t)
    else (true, CreateGeometry env { t with heightMap_ := some img })

/-- The handler `Terrain::HandleHeightMapReloadFinished`: the subscribed image has
finished reloading with the content `reloaded`, and the geometry is created again. -/
def HandleHeightMapReloadFinished (env : Env) (t : Terrain) (reloaded : Image) : Terrain :=
  match t.heightMap_ with
  | some _ => CreateGeometry env { t with heightMap_ := some reloaded }
  | none => t

/-- The method `Terrain::SetMaterial`. -/
def SetMaterial (t : Terrain) (material : Option Nat) : Terrain :=
  { t with
    material_ := material
    patches_ := t.patches_.map (fun patch => { patch with material_ := material }) }

/-- The method `Terrain::SetDrawDistance`. -/
def SetDrawDistance (t : Terrain) (distance : ℚ) : Terrain :=
  { t with
    drawDistance_ := distance
    patches_ := t.patches_.map (fun patch => { patch with drawDistance_ := distance }) }

/-- The method `Terrain::SetShadowDistance`. -/
def SetShadowDistance (t : Terrain) (distance : ℚ) : Terrain :=
  { t with
    shadowDistance_ := distance
    patches_ := t.patches_.map (fun patch => { patch with shadowDistance_ := distance }) }

/-- The method `Terrain::SetLodBias`. -/
def SetLodBias (t : Terrain) (bias : ℚ) : Terrain :=
  { t with
    lodBias_ := bias
    patches_ := t.patches_.map (fun patch => { patch with lodBias_ := bias }) }

/-- The method `Terrain::SetViewMask`. -/
def SetViewMask (t : Terrain) (mask : Nat) : Terrain :=
  { t with
    viewMask_ := mask
    patches_ := t.patches_.map (fun patch => { patch with viewMask_ := mask }) }

/-- The method `Terrain::SetLightMask`. -/
def SetLightMask (t : Terrain) (mask : Nat) : Terrain :=
  { t with
    lightMask_ := mask
    patches_ := t.patches_.map (fun patch => { patch with lightMask_ := mask }) }

/-- The method `Terrain::SetShadowMask`. -/
def SetShadowMask (t : Terrain) (mask : Nat) : Terrain :=
  { t with
    shadowMask_ := mask
    patches_ := t.patches_.map (fun patch => { patch with shadowMask_ := mask }) }

/-- The method `Terrain::SetZoneMask`. -/
def SetZoneMask (t : Terrain) (mask : Nat) : Terrain :=
  { t with
    zoneMask_ := mask
    patches_ := t.patches_.map (fun patch => { patch with zoneMask_ := mask }) }

/-- The method `Terrain::SetMaxLights`. -/
def SetMaxLights (t : Terrain) (num : Nat) : Terrain :=
  { t with
    maxLights_ := num
    patches_ := t.patches_.map (fun patch => { patch with maxLights_ := num }) }

/-- The method `Terrain::SetVisible`. -/
def SetVisible (t : Terrain) (enable : Bool) : Terrain :=
  { t with
    visible_ := enable
    patches_ := t.patches_.map (fun patch => { patch with visible_ := enable }) }

/-- The method `Terrain::SetCastShadows`. -/
def SetCastShadows (t : Terrain) (enable : Bool) : Terrain :=
  { t with
    castShadows_ := enable
    patches_ := t.patches_.map (fun patch => { patch with castShadows_ := enable }) }

/-- The method `Terrain::SetOccluder`. -/
def SetOccluder (t : Terrain) (enable : Bool) : Terrain :=
  { t with
    occluder_ := enable
    patches_ := t.patches_.map (fun patch => { patch with occluder_ := enable }) }

/-- The method `Terrain::SetOccludee`. It assigns `occluder_`, as the source does. -/
def SetOccludee (t : Terrain) (enable : Bool) : Terrain :=
  { t with
    occluder_ := enable
    patches_ := t.patches_.map (fun patch => { patch with occludee_ := enable }) }

/-! ## Getters of Terrain.h -/

/-- The getter `Terrain::GetPatchSize`. -/
def GetPatchSize (t : Terrain) : Nat := t.patchSize_

/-- The getter `Terrain::GetSpacing`. -/
def GetSpacing (t : Terrain) : Vector3 := t.spacing_

/-- The getter `Terrain::GetSize`. -/
def GetSize (t : Terrain) : IntVector2 := t.size_

/-- The getter `Terrain::GetHeightMap`. -/
def GetHeightMap (t : Terrain) : Option Image := t.heightMap_

/-- The getter `Terrain::GetMaterial`. -/
def GetMaterial (t : Terrain) : Option Nat := t.material_

/-- The getter `Terrain::GetHeightData`. -/
def GetHeightData (t : Terrain) : Option (List ℚ) := t.heightData_

/-- The getter `Terrain::GetDrawDistance`. -/
def GetDrawDistance (t : Terrain) : ℚ := t.drawDistance_

/-- The getter `Terrain::GetShadowDistance`. -/
def GetShadowDistance (t : Terrain) : ℚ := t.shadowDistance_

/-- The getter `Terrain::GetLodBias`. -/
def GetLodBias (t : Terrain) : ℚ := t.lodBias_

/-- The getter `Terrain::GetViewMask`. -/
def GetViewMask (t : Terrain) : Nat := t.viewMask_

/-- The getter `Terrain::GetLightMask`. -/
def GetLightMask (t : Terrain) : Nat := t.lightMask_

/-- The getter `Terrain::GetShadowMask`. -/
def GetShadowMask (t : Terrain) : Nat := t.shadowMask_

/-- The getter `Terrain::GetZoneMask`. -/
def GetZoneMask (t : Terrain) : Nat := t.zoneMask_

/-- The getter `Terrain::GetMaxLights`. -/
def GetMaxLights (t : Terrain) : Nat := t.maxLights_

/-- The getter `Terrain::IsVisible`. -/
def IsVisible (t : Terrain) : Bool := t.visible_

/-- The getter `Terrain::GetCastShadows`. -/
def GetCastShadows (t : Terrain) : Bool := t.castShadows_

/-- The getter `Terrain::IsOccluder`. -/
def IsOccluder (t : Terrain) : Bool := t.occluder_

/-- The getter `Terrain::IsOccludee`. -/
def IsOccludee (t : Terrain) : Bool := t.occludee_

/-- The getter `Terrain::GetNumPatches`. -/
def GetNumPatches (t : Terrain) : Nat := t.patches_.length

/-! ## Geometry of a state -/

/-- What a patch holds besides its drawable parameters. -/
structure PatchGeometry where
  x_ : Nat
  z_ : Nat
  vertexCount : Nat
  vertexData : Option (List Vertex)
  cpuVertexData_ : Option (List Vector3)
  boundingBox_ : Option BoundingBox
  drawIndexCount : Nat
  deriving DecidableEq

/-- The geometry of a patch: its coordinate, vertex buffer, CPU-side positions, bounding
box and draw range. -/
def TerrainPatch.geometry (patch : TerrainPatch) : PatchGeometry where
  x_ := patch.x_
  z_ := patch.z_
  vertexCount := patch.vertexCount
  vertexData := patch.vertexData
  cpuVertexData_ := patch.cpuVertexData_
  boundingBox_ := patch.boundingBox_
  drawIndexCount := patch.drawIndexCount

/-- What a rebuild computes: height data, size, patch counts, patch world size and
origin, index count and index data, the geometry of every patch and the patch nodes. -/
structure TerrainGeometry where
  heightData_ : Option (List ℚ)
  size_ : IntVector2
  patchesX_ : Nat
  patchesZ_ : Nat
  patchWorldOrigin_ : Vector2
  patchWorldSize_ : Vector2
  indexCount : Nat
  indexData : Option (List Nat)
  patches : List PatchGeometry
  patchNodes_ : List PatchNode
  deriving DecidableEq

/-- The geometry held by a terrain state. -/
def Terrain.geometry (t : Terrain) : TerrainGeometry where
  heightData_ := t.heightData_
  size_ := t.size_
  patchesX_ := t.patchesX_
  patchesZ_ := t.patchesZ_
  patchWorldOrigin_ := t.patchWorldOrigin_
  patchWorldSize_ := t.patchWorldSize_
  indexCount := t.indexBuffer_.indexCount
  indexData := t.indexBuffer_.data
  patches := t.patches_.map TerrainPatch.geometry
  patchNodes_ := t.patchNodes_

/-! ## The rendered mesh -/

/-- Modelled from the spec: where the node of a patch places a patch-local point (Node.h
is not among the sources): the point is scaled, then translated. -/
def PatchNode.transform (n : PatchNode) (p : Vector3) : Vector3 :=
  ⟨n.scale.x_ * p.x_ + n.position.x_, n.scale.y_ * p.y_ + n.position.y_,
   n.scale.z_ * p.z_ + n.position.z_⟩

/-- The vertex number `n` in the vertex buffer of the patch at list index `k`, if the
buffer has been written. -/
def patchVertexAt (t : Terrain) (k n : Nat) : Option Vertex :=
  match t.patches_[k]? with
  | some patch =>
    match patch.vertexData with
    | some vertices => vertices[n]?
    | none => none
  | none => none

/-- The placed position of vertex number `n` of the patch at list index `k`: the position
written by `UpdatePatchGeometry`, moved by the node of the patch. -/
def meshVertex (t : Terrain) (k n : Nat) : Option Vector3 :=
  match t.patches_[k]?, t.patchNodes_[k]? with
  | some patch, some patchNode =>
    match patch.vertexData with
    | some vertices =>
      match vertices[n]? with
      | some v => some (patchNode.transform v.position)
      | none => none
    | none => none
  | _, _ => none

/-- The corners of triangle number `tri` of the patch at list index `k`: the vertices named
by the entries `3 * tri`, `3 * tri + 1`, `3 * tri + 2` of the shared index buffer, which is
drawn as a triangle list. -/
def meshTriangle (t : Terrain) (k tri : Nat) : Option (Vector3 × Vector3 × Vector3) :=
  match t.indexBuffer_.data with
  | some indices =>
    match indices[3 * tri]?, indices[3 * tri + 1]?, indices[3 * tri + 2]? with
    | some a, some b, some c =>
      match meshVertex t k a, meshVertex t k b, meshVertex t k c with
      | some A, some B, some C => some (A, B, C)
      | _, _, _ => none
    | _, _, _ => none
  | none => none

/-- The terrain-local point of the grid coordinate `(i, j)`: the horizontal position
`patchWorldOrigin_ + (i, j) * spacing_` at the raw height of `(i, j)`. -/
def gridVertex (t : Terrain) (i j : Nat) : Vector3 :=
  ⟨t.patchWorldOrigin_.x_ + (i : ℚ) * t.spacing_.x_, GetRawHeight t i j,
   t.patchWorldOrigin_.y_ + (j : ℚ) * t.spacing_.z_⟩

/-- Twice the signed area of the horizontal projection of the triangle `A B C`. -/
def triangleDet (A B C : Vector3) : ℚ :=
  (B.x_ - A.x_) * (C.z_ - A.z_) - (C.x_ - A.x_) * (B.z_ - A.z_)

/-- The barycentric weight of the corner `B` at the horizontal position `(x, z)`. -/
def baryB (A B C : Vector3) (x z : ℚ) : ℚ :=
  ((x - A.x_) * (C.z_ - A.z_) - (C.x_ - A.x_) * (z - A.z_)) / triangleDet A B C

/-- The barycentric weight of the corner `C` at the horizontal position `(x, z)`. -/
def baryC (A B C : Vector3) (x z : ℚ) : ℚ :=
  ((B.x_ - A.x_) * (z - A.z_) - (x - A.x_) * (B.z_ - A.z_)) / triangleDet A B C

/-- The horizontal position `(x, z)` lies over the closed, non-degenerate triangle `A B C`. -/
def overTriangle (A B C : Vector3) (x z : ℚ) : Prop :=
  triangleDet A B C ≠ 0 ∧ 0 ≤ baryB A B C x z ∧ 0 ≤ baryC A B C x z ∧
    baryB A B C x z + baryC A B C x z ≤ 1

instance (A B C : Vector3) (x z : ℚ) : Decidable (overTriangle A B C x z) := by
  unfold overTriangle
  infer_instance

/-- The height over `(x, z)` of the plane through the triangle `A B C`. -/
def triangleHeight (A B C : Vector3) (x z : ℚ) : ℚ :=
  A.y_ + baryB A B C x z * (B.y_ - A.y_) + baryC A B C x z * (C.y_ - A.y_)

/-! ## Operation sequences -/

/-- A call made on the terrain from outside, with its argument. -/
inductive Op where
  | setPatchSize (size : Nat)
  | setSpacing (spacing : Vector3)
  | setHeightMap (image : Option Image)
  | reloadFinished (reloaded : Image)
  | setMaterial (material : Option Nat)
  | setDrawDistance (distance : ℚ)
  | setShadowDistance (distance : ℚ)
  | setLodBias (bias : ℚ)
  | setViewMask (mask : Nat)
  | setLightMask (mask : Nat)
  | setShadowMask (mask : Nat)
  | setZoneMask (mask : Nat)
  | setMaxLights (num : Nat)
  | setVisible (enable : Bool)
  | setCastShadows (enable : Bool)
  | setOccluder (enable : Bool)
  | setOccludee (enable : Bool)

/-- Arguments the callee can receive: `unsigned` arguments are below `2 ^ 32` and images
are well formed. -/
def Op.WF : Op → Prop
  | .setPatchSize size => size < 4294967296
  | .setHeightMap (some img) => img.WF
  | .reloadFinished img => img.WF
  | .setViewMask mask => mask < 4294967296
  | .setLightMask mask => mask < 4294967296
  | .setShadowMask mask => mask < 4294967296
  | .setZoneMask mask => mask < 4294967296
  | .setMaxLights num => num < 4294967296
  | _ => True

/-- The state after one call, made in the surroundings `env`. -/
def Op.run (env : Env) (t : Terrain) : Op → Terrain
  | .setPatchSize size => SetPatchSize env t size
  | .setSpacing spacing => SetSpacing env t spacing
  | .setHeightMap image => (SetHeightMap env t image).2
  | .reloadFinished reloaded => HandleHeightMapReloadFinished env t reloaded
  | .setMaterial material => SetMaterial t material
  | .setDrawDistance distance => SetDrawDistance t distance
  | .setShadowDistance distance => SetShadowDistance t distance
  | .setLodBias bias => SetLodBias t bias
  | .setViewMask mask => SetViewMask t mask
  | .setLightMask mask => SetLightMask t mask
  | .setShadowMask mask => SetShadowMask t mask
  | .setZoneMask mask => SetZoneMask t mask
  | .setMaxLights num => SetMaxLights t num
  | .setVisible enable => SetVisible t enable
  | .setCastShadows enable => SetCastShadows t enable
  | .setOccluder enable => SetOccluder t enable
  | .setOccludee enable => SetOccludee t enable

/-- The states a terrain can be in: the constructed one, and every state obtained from a
reachable one by one call, whatever node and octree are available at that call. -/
inductive Reachable (d : DrawableDefaults) : Terrain → Prop where
  | construct : Reachable d (construct d)
  | run (env : Env) (t : Terrain) (op : Op) : Reachable d t → op.WF → Reachable d (op.run env t)

/-- The states reached when every call finds a node and an octree. -/
inductive ReachableAttached (d : DrawableDefaults) : Terrain → Prop where
  | construct : ReachableAttached d (construct d)
  | run (env : Env) (t : Terrain) (op : Op) : ReachableAttached d t → op.WF →
      env.node_.isSome = true → env.octree = true → ReachableAttached d (op.run env t)

/-- A built height field: height data is present, the size is positive on both axes and
the data holds `size_.x_ * size_.y_` samples, a count within the `int` range. -/
def Built (t : Terrain) : Prop :=
  ∃ heightData, t.heightData_ = some heightData ∧ 1 ≤ t.size_.x_ ∧ 1 ≤ t.size_.y_ ∧
    t.size_.x_ * t.size_.y_ < 2147483648 ∧
    heightData.length = t.size_.x_.toNat * t.size_.y_.toNat

/-! ## Example inputs -/

def exampleDefaults : DrawableDefaults := ⟨4294967295, 4294967295, 4294967295, 4294967295⟩

def identityNode : Node := ⟨⟨0, 0, 0⟩, ⟨1, 1, 1⟩⟩

def uprightNode : Node := ⟨⟨10, 20, 30⟩, ⟨2, 3, 5⟩⟩

def attachedEnv : Env :=
  { node_ := some identityNode, octree := true, indexLock := true,
    vertexLock := fun _ _ => true }

def uprightEnv : Env :=
  { node_ := some uprightNode, octree := true, indexLock := true,
    vertexLock := fun _ _ => true }

def detachedEnv : Env :=
  { node_ := none, octree := false, indexLock := true,
    vertexLock := fun _ _ => true }

/-- A 9 x 5 greyscale image whose byte at position `i` is `i`. -/
def exampleImage : Image :=
  { width := 9, height := 5, components := 1, compressed := false, data := List.range 45 }

/-- A terrain with patch size 4 holding `exampleImage`, before any rebuild. -/
def exampleTerrain : Terrain :=
  { construct exampleDefaults with heightMap_ := some exampleImage, patchSize_ := 4 }

def builtTerrain : Terrain := CreateGeometry attachedEnv exampleTerrain

/-- A terrain with patch size 2 holding `exampleImage`, before any rebuild. -/
def smallPatchTerrain : Terrain :=
  { construct exampleDefaults with heightMap_ := some exampleImage, patchSize_ := 2 }

/-- The state after `SetPatchSize(4)` and `SetHeightMap(exampleImage)` on a fresh attached
terrain. -/
def attachedRun : Terrain :=
  Op.run attachedEnv (Op.run attachedEnv (construct exampleDefaults) (.setPatchSize 4))
    (.setHeightMap (some exampleImage))

/-- The state `attachedRun` after a further `SetPatchSize(8)` made while detached. -/
def staleRun : Terrain := Op.run detachedEnv attachedRun (.setPatchSize 8)

/-- Attached surroundings in which every vertex buffer lock fails. -/
def lockFailEnv : Env :=
  { node_ := some identityNode, octree := true, indexLock := true,
    vertexLock := fun _ _ => false }

/-- The patch `(0, 0)` of `builtTerrain`, as the rebuild leaves it. -/
def builtPatch : TerrainPatch :=
  UpdatePatchGeometry attachedEnv (prepareGeometry attachedEnv exampleTerrain exampleImage)
    (newPatch exampleTerrain 0 0)

/-- The state `attachedRun` after `SetOccluder(true)` and then `SetOccludee(false)`. -/
def occlusionRun : Terrain :=
  Op.run attachedEnv (Op.run attachedEnv attachedRun (.setOccluder true)) (.setOccludee false)

/-- The vertex `(1, 1)` of the patch `(0, 0)` as the rebuild of `exampleTerrain` writes it. -/
def builtVertex : Vertex :=
  patchVertex (prepareGeometry attachedEnv exampleTerrain exampleImage) (newPatch exampleTerrain 0 0)
    1 1

/-! ## Machine integers -/

theorem toUnsigned_of_nonneg (i : Int) (h0 : 0 ≤ i) (h1 : i < 4294967296) :
    toUnsigned i = i.toNat := by
  unfold toUnsigned
  rw [Int.emod_eq_of_lt h0 h1]

theorem toUnsigned_natCast (n : Nat) (h : n < 4294967296) : toUnsigned (n : Int) = n := by
  rw [toUnsigned_of_nonneg _ (by omega) (by omega)]
  simp

theorem toInt_of_lt (u : Nat) (h : u < 2147483648) : toInt u = (u : Int) := by
  unfold toInt
  have : u % 4294967296 = u := Nat.mod_eq_of_lt (by omega)
  rw [this, if_pos h]

theorem toUnsigned_pred (w : Int) (h1 : 1 ≤ w) (h2 : w < 2147483648) :
    toUnsigned (w - 1) = w.toNat - 1 := by
  rw [toUnsigned_of_nonneg _ (by omega) (by omega)]
  omega

theorem Clamp_mem (v lo hi : Int) (h : lo ≤ hi) : lo ≤ Clamp v lo hi ∧ Clamp v lo hi ≤ hi := by
  unfold Clamp
  split_ifs <;> omega

theorem Clamp_of_mem (v lo hi : Int) (h1 : lo ≤ v) (h2 : v ≤ hi) : Clamp v lo hi = v := by
  unfold Clamp
  split_ifs <;> omega

/-- Clamping an already clamped coordinate changes nothing. -/
theorem Clamp_toInt_toUnsigned (v hi : Int) (h0 : 0 ≤ hi) (h1 : hi < 2147483648) :
    Clamp (toInt (toUnsigned (Clamp v 0 hi))) 0 hi = Clamp v 0 hi := by
  obtain ⟨ha, hb⟩ := Clamp_mem v 0 hi h0
  have h2 : toUnsigned (Clamp v 0 hi) = (Clamp v 0 hi).toNat :=
    toUnsigned_of_nonneg _ ha (by omega)
  rw [h2, toInt_of_lt _ (by omega), Int.toNat_of_nonneg ha]
  exact Clamp_of_mem _ _ _ ha hb

/-! ## Loops over grids -/

/-- A doubly nested loop over a grid, `z` outer and `x` inner, visits the cell
`(i % m, i / m)` at step `i`. -/
theorem flatMap_range_grid {α : Type} (n m : Nat) (g : Nat → Nat → List α) :
    (List.range n).flatMap (fun z => (List.range m).flatMap (fun x => g x z))
      = (List.range (n * m)).flatMap (fun i => g (i % m) (i / m)) := by
  induction n with
  | zero => simp
  | succ n ih =>
    rw [List.range_succ, List.flatMap_append, ih, List.flatMap_singleton, Nat.succ_mul,
      List.range_add, List.flatMap_append]
    congr 1
    rw [List.flatMap_map]
    apply List.flatMap_congr
    intro j hj
    have hj' : j < m := List.mem_range.mp hj
    have hm : 0 < m := by omega
    have h1 : (n * m + j) % m = j := by
      rw [Nat.add_comm, Nat.add_mul_mod_self_right, Nat.mod_eq_of_lt hj']
    have h2 : (n * m + j) / m = n := by
      rw [Nat.add_comm, Nat.add_mul_div_right _ _ hm, Nat.div_eq_of_lt hj', Nat.zero_add]
    rw [h1, h2]

theorem map_range_grid {α : Type} (n m : Nat) (f : Nat → Nat → α) :
    (List.range n).flatMap (fun z => (List.range m).map (fun x => f x z))
      = (List.range (n * m)).map (fun i => f (i % m) (i / m)) := by
  simp only [List.map_eq_flatMap]
  exact flatMap_range_grid n m (fun x z => [f x z])

theorem grid_getElem_opt {α : Type} (px pz : Nat) (f : Nat → Nat → α) (x z : Nat)
    (hx : x < px) (hz : z < pz) :
    ((List.range (pz * px)).map (fun i => f (i % px) (i / px)))[z * px + x]? = some (f x z) := by
  have hlt : z * px + x < pz * px := by
    calc z * px + x < z * px + px := by omega
      _ = (z + 1) * px := by ring
      _ ≤ pz * px := Nat.mul_le_mul_right _ hz
  rw [List.getElem?_map, List.getElem?_range hlt]
  have h1 : (z * px + x) % px = x := by
    rw [Nat.add_comm, Nat.add_mul_mod_self_right, Nat.mod_eq_of_lt hx]
  have h2 : (z * px + x) / px = z := by
    rw [Nat.add_comm, Nat.add_mul_div_right _ _ (by omega), Nat.div_eq_of_lt hx, Nat.zero_add]
  simp [h1, h2]

theorem grid_of_getElem_opt {α : Type} (px pz : Nat) (f : Nat → Nat → α) (i : Nat) (a : α)
    (h : ((List.range (pz * px)).map (fun i => f (i % px) (i / px)))[i]? = some a) :
    a = f (i % px) (i / px) ∧ i % px < px ∧ i / px < pz ∧ i = i / px * px + i % px := by
  rw [List.getElem?_map] at h
  have hlt : i < pz * px := by
    by_contra hcon
    rw [List.getElem?_eq_none (by simpa using Nat.le_of_not_lt hcon)] at h
    simp at h
  rw [List.getElem?_range hlt] at h
  simp at h
  have hpx : 0 < px := by
    rcases Nat.eq_zero_or_pos px with h0 | h0
    · subst h0; simp at hlt
    · exact h0
  exact ⟨h.symm, Nat.mod_lt _ hpx, (Nat.div_lt_iff_lt_mul hpx).mpr hlt,
    (Nat.div_add_mod' i px).symm⟩

/-- A loop appending a block of `k` entries per step: the length after `n` steps, and
the block found at offset `k * i`. -/
theorem flatMap_range_block {α : Type} (f : Nat → List α) (k : Nat)
    (hlen : ∀ i, (f i).length = k) (n : Nat) :
    ((List.range n).flatMap f).length = n * k ∧
    ∀ i, i < n → (((List.range n).flatMap f).drop (k * i)).take k = f i := by
  induction n with
  | zero => simp
  | succ n ih =>
    obtain ⟨ihl, ihb⟩ := ih
    rw [List.range_succ, List.flatMap_append, List.flatMap_singleton]
    constructor
    · rw [List.length_append, ihl, hlen]; ring
    · intro i hi
      rcases Nat.lt_succ_iff_lt_or_eq.mp hi with h | h
      · have h1 : k * i + k ≤ n * k := by
          calc k * i + k = (i + 1) * k := by ring
            _ ≤ n * k := Nat.mul_le_mul_right _ h
        rw [List.drop_append_of_le_length (by omega),
          List.take_append_of_le_length (by rw [List.length_drop]; omega)]
        exact ihb i h
      · subst h
        have h2 : k * i = ((List.range i).flatMap f).length := by rw [ihl, Nat.mul_comm]
        rw [h2, List.drop_left, List.take_of_length_le (by rw [hlen])]

/-! ## Unfolding `CreateGeometry` -/

theorem CreateGeometry_eq (env : Env) (t : Terrain) (img : Image) (node : Node)
    (hImg : t.heightMap_ = some img) (hNode : env.node_ = some node)
    (hOct : env.octree = true) :
    CreateGeometry env t =
      { t with
        patchesX_ := toUnsigned (img.width - 1) / t.patchSize_
        patchesZ_ := toUnsigned (img.height - 1) / t.patchSize_
        size_ :=
          ⟨toInt ((toUnsigned (img.width - 1) / t.patchSize_ * t.patchSize_ + 1) % 4294967296),
           toInt ((toUnsigned (img.height - 1) / t.patchSize_ * t.patchSize_ + 1) % 4294967296)⟩
        patchWorldSize_ :=
          ⟨t.spacing_.x_ * (t.patchSize_ : ℚ), t.spacing_.z_ * (t.patchSize_ : ℚ)⟩
        patchWorldOrigin_ :=
          ⟨-(1 / 2) * ((toUnsigned (img.width - 1) / t.patchSize_ : Nat) : ℚ)
              * (t.spacing_.x_ * (t.patchSize_ : ℚ)),
           -(1 / 2) * ((toUnsigned (img.height - 1) / t.patchSize_ : Nat) : ℚ)
              * (t.spacing_.z_ * (t.patchSize_ : ℚ))⟩
        heightData_ := some (decodeHeights img
          ⟨toInt ((toUnsigned (img.width - 1) / t.patchSize_ * t.patchSize_ + 1) % 4294967296),
           toInt ((toUnsigned (img.height - 1) / t.patchSize_ * t.patchSize_ + 1) % 4294967296)⟩
          t.spacing_.y_)
        patches_ := (createPatches t (toUnsigned (img.width - 1) / t.patchSize_)
          (toUnsigned (img.height - 1) / t.patchSize_)).map
            (UpdatePatchGeometry env (prepareGeometry env t img))
        patchNodes_ := (createPatches t (toUnsigned (img.width - 1) / t.patchSize_)
          (toUnsigned (img.height - 1) / t.patchSize_)).map
            (SetPatchTransform node
              ⟨-(1 / 2) * ((toUnsigned (img.width - 1) / t.patchSize_ : Nat) : ℚ)
                  * (t.spacing_.x_ * (t.patchSize_ : ℚ)),
               -(1 / 2) * ((toUnsigned (img.height - 1) / t.patchSize_ : Nat) : ℚ)
                  * (t.spacing_.z_ * (t.patchSize_ : ℚ))⟩
              ⟨t.spacing_.x_ * (t.patchSize_ : ℚ), t.spacing_.z_ * (t.patchSize_ : ℚ)⟩)
        indexBuffer_ :=
          { t.indexBuffer_ with
            indexCount := (t.patchSize_ * t.patchSize_ * 6) % 4294967296
            data := if env.indexLock then some (createIndexData t.patchSize_) else none }
        createdEvents := t.createdEvents + 1 } := by
  unfold CreateGeometry prepareGeometry
  rw [hImg, hNode, hOct]

theorem CreateGeometry_not_run (env : Env) (t : Terrain)
    (h : t.heightMap_ = none ∨ env.node_ = none ∨ env.octree = false) :
    CreateGeometry env t = t := by
  unfold CreateGeometry
  split
  · rename_i img node h1 h2 h3
    rcases h with h | h | h
    · rw [h] at h1; exact Option.noConfusion h1
    · rw [h] at h2; exact Option.noConfusion h2
    · rw [h] at h3; exact Bool.noConfusion h3
  · rfl

theorem CreateGeometry_cases (env : Env) (t : Terrain) :
    (∃ img node, t.heightMap_ = some img ∧ env.node_ = some node ∧ env.octree = true) ∨
    CreateGeometry env t = t := by
  cases h1 : t.heightMap_ with
  | none => exact Or.inr (CreateGeometry_not_run env t (Or.inl h1))
  | some img =>
    cases h2 : env.node_ with
    | none => exact Or.inr (CreateGeometry_not_run env t (Or.inr (Or.inl h2)))
    | some node =>
      cases h3 : env.octree with
      | false => exact Or.inr (CreateGeometry_not_run env t (Or.inr (Or.inr h3)))
      | true => exact Or.inl ⟨img, node, rfl, rfl, rfl⟩

/-- Fields that `CreateGeometry` never writes. -/
theorem CreateGeometry_frame (env : Env) (t : Terrain) :
    (CreateGeometry env t).patchSize_ = t.patchSize_ ∧
    (CreateGeometry env t).numLodLevels_ = t.numLodLevels_ ∧
    (CreateGeometry env t).heightMap_ = t.heightMap_ ∧
    (CreateGeometry env t).spacing_ = t.spacing_ := by
  unfold CreateGeometry
  split <;> exact ⟨rfl, rfl, rfl, rfl⟩

/-- The fields of a patch that `UpdatePatchGeometry` never writes: the grid coordinate and
the drawable parameters. -/
theorem UpdatePatchGeometry_frame (env : Env) (t : Terrain) (patch : TerrainPatch) :
    (UpdatePatchGeometry env t patch).x_ = patch.x_ ∧
    (UpdatePatchGeometry env t patch).z_ = patch.z_ ∧
    (UpdatePatchGeometry env t patch).material_ = patch.material_ ∧
    (UpdatePatchGeometry env t patch).drawDistance_ = patch.drawDistance_ ∧
    (UpdatePatchGeometry env t patch).shadowDistance_ = patch.shadowDistance_ ∧
    (UpdatePatchGeometry env t patch).lodBias_ = patch.lodBias_ ∧
    (UpdatePatchGeometry env t patch).viewMask_ = patch.viewMask_ ∧
    (UpdatePatchGeometry env t patch).lightMask_ = patch.lightMask_ ∧
    (UpdatePatchGeometry env t patch).shadowMask_ = patch.shadowMask_ ∧
    (UpdatePatchGeometry env t patch).zoneMask_ = patch.zoneMask_ ∧
    (UpdatePatchGeometry env t patch).maxLights_ = patch.maxLights_ ∧
    (UpdatePatchGeometry env t patch).visible_ = patch.visible_ ∧
    (UpdatePatchGeometry env t patch).castShadows_ = patch.castShadows_ ∧
    (UpdatePatchGeometry env t patch).occluder_ = patch.occluder_ ∧
    (UpdatePatchGeometry env t patch).occludee_ = patch.occludee_ := by
  unfold UpdatePatchGeometry
  simp only
  split_ifs <;> exact ⟨rfl, rfl, rfl, rfl, rfl, rfl, rfl, rfl, rfl, rfl, rfl, rfl, rfl, rfl, rfl⟩

theorem createPatches_eq (t : Terrain) (px pz : Nat) :
    createPatches t px pz = (List.range (pz * px)).map (fun i => newPatch t (i % px) (i / px)) :=
  map_range_grid pz px (fun x z => newPatch t x z)

theorem div_mul_succ_le (w p : Nat) (hw : 1 ≤ w) : (w - 1) / p * p + 1 ≤ w := by
  have := Nat.div_mul_le_self (w - 1) p
  omega

/-- The size computed by `CreateGeometry` from a well-formed image, without wrap-around. -/
theorem CreateGeometry_size (env : Env) (t : Terrain) (img : Image) (node : Node)
    (hImg : t.heightMap_ = some img) (hNode : env.node_ = some node)
    (hOct : env.octree = true) (hwf : img.WF) :
    (CreateGeometry env t).size_ =
      ⟨(((img.width.toNat - 1) / t.patchSize_ * t.patchSize_ + 1 : Nat) : Int),
       (((img.height.toNat - 1) / t.patchSize_ * t.patchSize_ + 1 : Nat) : Int)⟩ := by
  obtain ⟨hW, hH, hc, hlt, -, -⟩ := hwf
  have hWH : img.width * img.height < 2147483648 := by
    have hc' : (1 : Int) ≤ (img.components : Int) := by exact_mod_cast hc
    nlinarith [mul_pos (by omega : (0 : Int) < img.width) (by omega : (0 : Int) < img.height)]
  have hW2 : img.width < 2147483648 := by nlinarith
  have hH2 : img.height < 2147483648 := by nlinarith
  have h1 := div_mul_succ_le img.width.toNat t.patchSize_ (by omega)
  have h2 := div_mul_succ_le img.height.toNat t.patchSize_ (by omega)
  rw [CreateGeometry_eq env t img node hImg hNode hOct, toUnsigned_pred _ hW hW2,
    toUnsigned_pred _ hH hH2]
  show IntVector2.mk _ _ = _
  rw [Nat.mod_eq_of_lt (by omega), Nat.mod_eq_of_lt (by omega), toInt_of_lt _ (by omega),
    toInt_of_lt _ (by omega)]

theorem decodeHeights_eq (img : Image) (sx sz : Nat) (spacingY : ℚ) :
    decodeHeights img ⟨(sx : Int), (sz : Int)⟩ spacingY
      = (List.range (sz * sx)).map (fun i =>
          ((img.data.getD (srcIndex img (sz : Int) (i % sx) (i / sx)) 0 : Nat) : ℚ) * spacingY) := by
  unfold decodeHeights
  simp only [Int.toNat_natCast]
  exact map_range_grid sz sx
    (fun x z => ((img.data.getD (srcIndex img (sz : Int) x z) 0 : Nat) : ℚ) * spacingY)

/-- The source index of the heightmap copy, without wrap-around, and its bound. -/
theorem srcIndex_eq (img : Image) (hwf : img.WF) (sx sz x z : Nat)
    (hsx : sx ≤ img.width.toNat) (hsz : sz ≤ img.height.toNat) (hx : x < sx) (hz : z < sz) :
    srcIndex img (sz : Int) x z
      = img.width.toNat * img.components * (sz - 1 - z) + img.components * x ∧
    img.width.toNat * img.components * (sz - 1 - z) + img.components * x < img.data.length := by
  obtain ⟨hW, hH, hc, hlt, hlen, -⟩ := hwf
  have hbound : img.width.toNat * img.components * (sz - 1 - z) + img.components * x
      < img.width.toNat * img.height.toNat * img.components := by
    have h1 : img.components * x < img.components * img.width.toNat :=
      Nat.mul_lt_mul_of_pos_left (by omega) (by omega)
    have h2 : sz - 1 - z + 1 ≤ img.height.toNat := by omega
    calc img.width.toNat * img.components * (sz - 1 - z) + img.components * x
        < img.width.toNat * img.components * (sz - 1 - z) + img.components * img.width.toNat := by
          omega
      _ = img.width.toNat * img.components * (sz - 1 - z + 1) := by ring
      _ ≤ img.width.toNat * img.components * img.height.toNat := Nat.mul_le_mul_left _ h2
      _ = img.width.toNat * img.height.toNat * img.components := by ring
  have htot : img.width.toNat * img.height.toNat * img.components < 2147483648 := by
    have h3 : ((img.width.toNat * img.height.toNat * img.components : Nat) : Int)
        = img.width * img.height * img.components := by
      push_cast
      rw [Int.toNat_of_nonneg (by omega), Int.toNat_of_nonneg (by omega)]
    omega
  have hrow : img.width.toNat * img.components ≤ img.width.toNat * img.components * (sz - 1 - z)
      + img.components * x ∨ sz - 1 - z = 0 := by
    rcases Nat.eq_zero_or_pos (sz - 1 - z) with h | h
    · exact Or.inr h
    · left
      calc img.width.toNat * img.components = img.width.toNat * img.components * 1 := by ring
        _ ≤ img.width.toNat * img.components * (sz - 1 - z) := Nat.mul_le_mul_left _ h
        _ ≤ _ := Nat.le_add_right _ _
  have hWc : img.width.toNat * img.components < 4294967296 := by
    have h4 : img.width.toNat * img.components * 1
        ≤ img.width.toNat * img.components * img.height.toNat :=
      Nat.mul_le_mul_left _ (by omega)
    have h5 : img.width.toNat * img.components * img.height.toNat
        = img.width.toNat * img.height.toNat * img.components := by ring
    omega
  refine ⟨?_, hlen ▸ hbound⟩
  unfold srcIndex
  have hw : toUnsigned img.width = img.width.toNat := by
    apply toUnsigned_of_nonneg _ (by omega)
    have : ((img.width.toNat : Nat) : Int) = img.width := Int.toNat_of_nonneg (by omega)
    have h6 : img.width.toNat ≤ img.width.toNat * img.components :=
      Nat.le_mul_of_pos_right _ (by omega)
    omega
  have hHn : img.height.toNat ≤ img.width.toNat * img.height.toNat * img.components :=
    Nat.le_trans (Nat.le_mul_of_pos_left _ (by omega)) (Nat.le_mul_of_pos_right _ (by omega))
  have hr : toUnsigned ((sz : Int) - 1 - (z : Int)) = sz - 1 - z := by
    rw [toUnsigned_of_nonneg _ (by omega) (by omega)]
    omega
  rw [hw, hr, Nat.mod_eq_of_lt hWc, Nat.mod_eq_of_lt (by omega)]

theorem CreateGeometry_heightData (env : Env) (t : Terrain) (img : Image) (node : Node)
    (hImg : t.heightMap_ = some img) (hNode : env.node_ = some node)
    (hOct : env.octree = true) :
    (CreateGeometry env t).heightData_
      = some (decodeHeights img (CreateGeometry env t).size_ t.spacing_.y_) ∧
    (CreateGeometry env t).spacing_ = t.spacing_ := by
  rw [CreateGeometry_eq env t img node hImg hNode hOct]
  exact ⟨rfl, rfl⟩

/-- A rebuild from a well-formed image leaves a built height field. -/
theorem CreateGeometry_built (env : Env) (t : Terrain) (img : Image) (node : Node)
    (hImg : t.heightMap_ = some img) (hNode : env.node_ = some node)
    (hOct : env.octree = true) (hwf : img.WF) :
    Built (CreateGeometry env t) := by
  obtain ⟨hd, -⟩ := CreateGeometry_heightData env t img node hImg hNode hOct
  have hs := CreateGeometry_size env t img node hImg hNode hOct hwf
  obtain ⟨hW, hH, hc, hlt, -, -⟩ := hwf
  have h1 := div_mul_succ_le img.width.toNat t.patchSize_ (by omega)
  have h2 := div_mul_succ_le img.height.toNat t.patchSize_ (by omega)
  refine ⟨_, hd, ?_, ?_, ?_, ?_⟩
  · rw [hs]; show (1 : Int) ≤ ((_ : Nat) : Int); omega
  · rw [hs]; show (1 : Int) ≤ ((_ : Nat) : Int); omega
  · rw [hs]
    show (((_ : Nat) : Int)) * (((_ : Nat) : Int)) < 2147483648
    have hc' : (1 : Int) ≤ (img.components : Int) := by exact_mod_cast hc
    have hWH : img.width * img.height < 2147483648 := by
      nlinarith [mul_pos (by omega : (0 : Int) < img.width) (by omega : (0 : Int) < img.height)]
    have ha : (((img.width.toNat - 1) / t.patchSize_ * t.patchSize_ + 1 : Nat) : Int)
        ≤ img.width := by omega
    have hb : (((img.height.toNat - 1) / t.patchSize_ * t.patchSize_ + 1 : Nat) : Int)
        ≤ img.height := by omega
    have := mul_le_mul ha hb (by omega) (by omega)
    omega
  · rw [hs, decodeHeights_eq, List.length_map, List.length_range]
    show _ = Int.toNat ((_ : Nat) : Int) * Int.toNat ((_ : Nat) : Int)
    rw [Int.toNat_natCast, Int.toNat_natCast, Nat.mul_comm]

/-- After a rebuild that runs on a well-formed image, the size is one more than the patch
count times the patch size, on both axes. -/
theorem CreateGeometry_run_size (env : Env) (t : Terrain) (img : Image) (node : Node)
    (hImg : t.heightMap_ = some img) (hNode : env.node_ = some node)
    (hOct : env.octree = true) (hwf : img.WF) :
    (CreateGeometry env t).size_ =
      ⟨1 + ((CreateGeometry env t).patchesX_ : Int) * ((CreateGeometry env t).patchSize_ : Int),
       1 + ((CreateGeometry env t).patchesZ_ : Int) * ((CreateGeometry env t).patchSize_ : Int)⟩ := by
  have hs := CreateGeometry_size env t img node hImg hNode hOct hwf
  obtain ⟨hW, hH, hc, hlt, -, -⟩ := hwf
  have hWH : img.width * img.height < 2147483648 := by
    have hc' : (1 : Int) ≤ (img.components : Int) := by exact_mod_cast hc
    nlinarith [mul_pos (by omega : (0 : Int) < img.width) (by omega : (0 : Int) < img.height)]
  have hW2 : img.width < 2147483648 := by nlinarith
  have hH2 : img.height < 2147483648 := by nlinarith
  have hx : (CreateGeometry env t).patchesX_ = (img.width.toNat - 1) / t.patchSize_ := by
    rw [CreateGeometry_eq env t img node hImg hNode hOct, toUnsigned_pred _ hW hW2]
  have hz : (CreateGeometry env t).patchesZ_ = (img.height.toNat - 1) / t.patchSize_ := by
    rw [CreateGeometry_eq env t img node hImg hNode hOct, toUnsigned_pred _ hH hH2]
  have hp : (CreateGeometry env t).patchSize_ = t.patchSize_ := by
    rw [CreateGeometry_eq env t img node hImg hNode hOct]
  rw [hs, hx, hz, hp]
  congr 1 <;> (push_cast; ring)

/-- The index computed by `GetRawHeight` on a field of positive size, without wrap-around. -/
theorem rawHeightIndex_eq (t : Terrain) (hx1 : 1 ≤ t.size_.x_) (hz1 : 1 ≤ t.size_.y_)
    (hsz : t.size_.x_ * t.size_.y_ < 2147483648) (x z : Nat) :
    rawHeightIndex t x z
      = (Clamp (toInt z) 0 (t.size_.y_ - 1)).toNat * t.size_.x_.toNat
        + (Clamp (toInt x) 0 (t.size_.x_ - 1)).toNat ∧
    rawHeightIndex t x z < t.size_.x_.toNat * t.size_.y_.toNat := by
  have hX : t.size_.x_ < 2147483648 := by nlinarith
  have hZ : t.size_.y_ < 2147483648 := by nlinarith
  obtain ⟨hx0, hxm⟩ := Clamp_mem (toInt x) 0 (t.size_.x_ - 1) (by omega)
  obtain ⟨hz0, hzm⟩ := Clamp_mem (toInt z) 0 (t.size_.y_ - 1) (by omega)
  have hlt : (Clamp (toInt z) 0 (t.size_.y_ - 1)).toNat * t.size_.x_.toNat
        + (Clamp (toInt x) 0 (t.size_.x_ - 1)).toNat < t.size_.x_.toNat * t.size_.y_.toNat := by
    have h1 : (Clamp (toInt x) 0 (t.size_.x_ - 1)).toNat < t.size_.x_.toNat := by omega
    have h2 : (Clamp (toInt z) 0 (t.size_.y_ - 1)).toNat + 1 ≤ t.size_.y_.toNat := by omega
    calc (Clamp (toInt z) 0 (t.size_.y_ - 1)).toNat * t.size_.x_.toNat
          + (Clamp (toInt x) 0 (t.size_.x_ - 1)).toNat
        < (Clamp (toInt z) 0 (t.size_.y_ - 1)).toNat * t.size_.x_.toNat + t.size_.x_.toNat := by
          omega
      _ = ((Clamp (toInt z) 0 (t.size_.y_ - 1)).toNat + 1) * t.size_.x_.toNat := by ring
      _ ≤ t.size_.y_.toNat * t.size_.x_.toNat := Nat.mul_le_mul_right _ h2
      _ = t.size_.x_.toNat * t.size_.y_.toNat := Nat.mul_comm _ _
  have hprod : t.size_.x_.toNat * t.size_.y_.toNat < 2147483648 := by
    have h3 : ((t.size_.x_.toNat * t.size_.y_.toNat : Nat) : Int) = t.size_.x_ * t.size_.y_ := by
      push_cast
      rw [Int.toNat_of_nonneg (by omega), Int.toNat_of_nonneg (by omega)]
    omega
  have hidx : rawHeightIndex t x z
      = (Clamp (toInt z) 0 (t.size_.y_ - 1)).toNat * t.size_.x_.toNat
        + (Clamp (toInt x) 0 (t.size_.x_ - 1)).toNat := by
    unfold rawHeightIndex
    rw [toUnsigned_of_nonneg _ hz0 (by omega), toUnsigned_of_nonneg _ hx0 (by omega),
      toUnsigned_of_nonneg _ (by omega) (by omega), Nat.mod_eq_of_lt (by omega)]
  exact ⟨hidx, hidx ▸ hlt⟩

/-! ## The example inputs -/

theorem exampleImage_wf : exampleImage.WF := by
  unfold Image.WF
  decide

theorem builtTerrain_origin : builtTerrain.patchWorldOrigin_ = ⟨-4, -2⟩ := by
  unfold builtTerrain
  rw [CreateGeometry_eq attachedEnv exampleTerrain exampleImage identityNode rfl rfl rfl]
  have h1 : toUnsigned (exampleImage.width - 1) / 4 = 2 := by decide
  have h2 : toUnsigned (exampleImage.height - 1) / 4 = 1 := by decide
  have h3 : exampleTerrain.patchSize_ = 4 := rfl
  have h4 : exampleTerrain.spacing_ = ⟨1, 1 / 4, 1⟩ := rfl
  simp only [h3, h4, h1, h2]
  norm_num

theorem builtTerrain_spacing : builtTerrain.spacing_ = ⟨1, 1 / 4, 1⟩ :=
  (CreateGeometry_frame attachedEnv exampleTerrain).2.2.2

/-! ## The patch grid -/

/-- C1: for an attached terrain (node and octree present) with patch size `p > 0` and a
heightmap of width `W` and height `H`, both at least 1 (and within the `int` range),
`CreateGeometry` sets `patchesX_ = (W - 1) / p` and `patchesZ_ = (H - 1) / p` and leaves
exactly `patchesX_ * patchesZ_` patches, whatever patches were there before; the patch of
every grid coordinate `(x, z)` with `x < patchesX_`, `z < patchesZ_` is at index
`z * patchesX_ + x` of the list, and every entry of the list sits at the index given by
its own coordinate, so each coordinate occurs exactly once. In particular an image of
side `k * p + 1` gives a `k` by `k` grid of `k * k` patches. -/
theorem CreateGeometry_patch_grid (env : Env) (t : Terrain) (img : Image) (node : Node)
    (hImg : t.heightMap_ = some img) (hNode : env.node_ = some node)
    (hOct : env.octree = true)
    (hW : 1 ≤ img.width) (hW2 : img.width < 2147483648)
    (hH : 1 ≤ img.height) (hH2 : img.height < 2147483648)
    (hp : 0 < t.patchSize_) :
    (CreateGeometry env t).patchesX_ = (img.width.toNat - 1) / t.patchSize_ ∧
    (CreateGeometry env t).patchesZ_ = (img.height.toNat - 1) / t.patchSize_ ∧
    (CreateGeometry env t).patches_.length
      = (img.width.toNat - 1) / t.patchSize_ * ((img.height.toNat - 1) / t.patchSize_) ∧
    (∀ x z, x < (img.width.toNat - 1) / t.patchSize_ →
      z < (img.height.toNat - 1) / t.patchSize_ →
      ∃ p, (CreateGeometry env t).patches_[z * (CreateGeometry env t).patchesX_ + x]? = some p
        ∧ p.x_ = x ∧ p.z_ = z) ∧
    (∀ i p, (CreateGeometry env t).patches_[i]? = some p →
      p.x_ < (img.width.toNat - 1) / t.patchSize_ ∧
      p.z_ < (img.height.toNat - 1) / t.patchSize_ ∧
      i = p.z_ * (CreateGeometry env t).patchesX_ + p.x_) ∧
    (∀ k : Nat, img.width = k * t.patchSize_ + 1 → img.height = k * t.patchSize_ + 1 →
      (CreateGeometry env t).patchesX_ = k ∧ (CreateGeometry env t).patchesZ_ = k ∧
      (CreateGeometry env t).patches_.length = k * k) := by
  have hx : (CreateGeometry env t).patchesX_ = (img.width.toNat - 1) / t.patchSize_ := by
    rw [CreateGeometry_eq env t img node hImg hNode hOct, toUnsigned_pred _ hW hW2]
  have hz : (CreateGeometry env t).patchesZ_ = (img.height.toNat - 1) / t.patchSize_ := by
    rw [CreateGeometry_eq env t img node hImg hNode hOct, toUnsigned_pred _ hH hH2]
  have hps : (CreateGeometry env t).patches_
      = (List.range ((img.height.toNat - 1) / t.patchSize_
            * ((img.width.toNat - 1) / t.patchSize_))).map
          (fun i => UpdatePatchGeometry env (prepareGeometry env t img)
            (newPatch t (i % ((img.width.toNat - 1) / t.patchSize_))
              (i / ((img.width.toNat - 1) / t.patchSize_)))) := by
    rw [CreateGeometry_eq env t img node hImg hNode hOct, toUnsigned_pred _ hW hW2,
      toUnsigned_pred _ hH hH2]
    show List.map _ (createPatches t _ _) = _
    rw [createPatches_eq, List.map_map]
    rfl
  have hlen : (CreateGeometry env t).patches_.length
      = (img.width.toNat - 1) / t.patchSize_ * ((img.height.toNat - 1) / t.patchSize_) := by
    rw [hps]; simp [Nat.mul_comm]
  refine ⟨hx, hz, hlen, ?_, ?_, ?_⟩
  · intro x z hx' hz'
    refine ⟨UpdatePatchGeometry env (prepareGeometry env t img) (newPatch t x z), ?_,
      (UpdatePatchGeometry_frame _ _ _).1, (UpdatePatchGeometry_frame _ _ _).2.1⟩
    rw [hx, hps]
    exact grid_getElem_opt _ _
      (fun x z => UpdatePatchGeometry env (prepareGeometry env t img) (newPatch t x z))
      x z hx' hz'
  · intro i p hi
    rw [hps] at hi
    obtain ⟨h1, h2, h3, h4⟩ := grid_of_getElem_opt _ _
      (fun x z => UpdatePatchGeometry env (prepareGeometry env t img) (newPatch t x z)) i p hi
    subst h1
    rw [hx, (UpdatePatchGeometry_frame _ _ _).1, (UpdatePatchGeometry_frame _ _ _).2.1]
    exact ⟨h2, h3, h4⟩
  · intro k hk1 hk2
    have hk : (img.width.toNat - 1) / t.patchSize_ = k := by
      rw [hk1]
      have : ((k : Int) * (t.patchSize_ : Int) + 1).toNat - 1 = k * t.patchSize_ := by
        have h0 : ((k : Int) * (t.patchSize_ : Int) + 1) = ((k * t.patchSize_ + 1 : Nat) : Int) := by
          push_cast; ring
        rw [h0, Int.toNat_natCast]; rfl
      rw [this, Nat.mul_div_cancel _ hp]
    have hk' : (img.height.toNat - 1) / t.patchSize_ = k := by
      rw [hk2]
      have : ((k : Int) * (t.patchSize_ : Int) + 1).toNat - 1 = k * t.patchSize_ := by
        have h0 : ((k : Int) * (t.patchSize_ : Int) + 1) = ((k * t.patchSize_ + 1 : Nat) : Int) := by
          push_cast; ring
        rw [h0, Int.toNat_natCast]; rfl
      rw [this, Nat.mul_div_cancel _ hp]
    rw [hx, hz, hlen, hk, hk']
    exact ⟨rfl, rfl, rfl⟩

/-- The patch grid of the 9 x 5 example image with patch size 4: two patches in one row. -/
theorem CreateGeometry_patch_grid_witness :
    (CreateGeometry attachedEnv exampleTerrain).patches_.length = 2 ∧
    (CreateGeometry attachedEnv exampleTerrain).patchesX_ = 2 ∧
    (CreateGeometry attachedEnv exampleTerrain).patchesZ_ = 1 := by
  have h := CreateGeometry_patch_grid attachedEnv exampleTerrain exampleImage identityNode
    rfl rfl rfl (by decide) (by decide) (by decide) (by decide) (by decide)
  exact ⟨h.2.2.1, h.1, h.2.1⟩

/-! ## Raw heights -/

/-- The raw height at a grid coordinate inside the field after a rebuild from a well-formed
image: the source index stays inside the image data and the height is the byte found
there times `spacing_.y_`. -/
theorem rawHeight_after_CreateGeometry (env : Env) (t : Terrain) (img : Image) (node : Node)
    (hImg : t.heightMap_ = some img) (hNode : env.node_ = some node)
    (hOct : env.octree = true) (hwf : img.WF) (x z : Nat)
    (hx : (x : Int) < (CreateGeometry env t).size_.x_)
    (hz : (z : Int) < (CreateGeometry env t).size_.y_) :
    img.width.toNat * img.components * ((CreateGeometry env t).size_.y_ - 1 - z).toNat
        + img.components * x < img.data.length ∧
    GetRawHeight (CreateGeometry env t) x z
      = ((img.data.getD
          (img.width.toNat * img.components * ((CreateGeometry env t).size_.y_ - 1 - z).toNat
            + img.components * x) 0 : Nat) : ℚ) * (CreateGeometry env t).spacing_.y_ := by
  obtain ⟨hd, hsp⟩ := CreateGeometry_heightData env t img node hImg hNode hOct
  have hs := CreateGeometry_size env t img node hImg hNode hOct hwf
  have hb := CreateGeometry_built env t img node hImg hNode hOct hwf
  have h1 := div_mul_succ_le img.width.toNat t.patchSize_ (by have := hwf.1; omega)
  have h2 := div_mul_succ_le img.height.toNat t.patchSize_ (by have := hwf.2.1; omega)
  rw [hs] at hd
  rw [decodeHeights_eq] at hd
  obtain ⟨hd', -, hbx, hbz, hbs, -⟩ := hb
  obtain ⟨hidx, -⟩ := rawHeightIndex_eq (CreateGeometry env t) hbx hbz hbs x z
  have hX : (CreateGeometry env t).size_.x_ < 2147483648 := by nlinarith
  have hZ : (CreateGeometry env t).size_.y_ < 2147483648 := by nlinarith
  rw [toInt_of_lt x (by omega), toInt_of_lt z (by omega),
    Clamp_of_mem _ _ _ (by omega) (by omega), Clamp_of_mem _ _ _ (by omega) (by omega)]
    at hidx
  rw [hs] at hidx hx hz
  simp only [Int.toNat_natCast] at hidx hx hz
  have hx' : x < (img.width.toNat - 1) / t.patchSize_ * t.patchSize_ + 1 := by omega
  have hz' : z < (img.height.toNat - 1) / t.patchSize_ * t.patchSize_ + 1 := by omega
  obtain ⟨hsrc, hsrcb⟩ := srcIndex_eq img hwf _ _ x z h1 h2 hx' hz'
  have hrow : ((CreateGeometry env t).size_.y_ - 1 - (z : Int)).toNat
      = (img.height.toNat - 1) / t.patchSize_ * t.patchSize_ + 1 - 1 - z := by
    rw [hs]
    show ((((_ : Nat) : Int)) - 1 - (z : Int)).toNat = _
    omega
  rw [hrow]
  refine ⟨hsrcb, ?_⟩
  unfold GetRawHeight
  rw [hd]
  simp only
  have hg := grid_getElem_opt _ _
    (fun x z => ((img.data.getD (srcIndex img
      (((img.height.toNat - 1) / t.patchSize_ * t.patchSize_ + 1 : Nat) : Int) x z) 0 : Nat) : ℚ)
        * t.spacing_.y_) x z hx' hz'
  beta_reduce at hg
  rw [hidx, List.getD_eq_getElem?_getD, hg, hsp, hsrc]
  rfl

/-- C2: after `CreateGeometry` has run on a well-formed image of width `W` with `c`
components per texel, for every grid coordinate `(x, z)` inside the field the source index
`W * c * (size.y - 1 - z) + c * x` lies inside the image data and `GetRawHeight x z` is the
byte found there times `spacing_.y_`; in particular the last field row `z = size.y - 1` is
read from image row 0, so the rows are flipped vertically. -/
theorem CreateGeometry_raw_heights (env : Env) (t : Terrain) (img : Image) (node : Node)
    (hImg : t.heightMap_ = some img) (hNode : env.node_ = some node)
    (hOct : env.octree = true) (hwf : img.WF) (hp : 0 < t.patchSize_) :
    (∀ x z : Nat, (x : Int) < (CreateGeometry env t).size_.x_ →
      (z : Int) < (CreateGeometry env t).size_.y_ →
      img.width.toNat * img.components * ((CreateGeometry env t).size_.y_ - 1 - z).toNat
          + img.components * x < img.data.length ∧
      GetRawHeight (CreateGeometry env t) x z
        = ((img.data.getD
            (img.width.toNat * img.components * ((CreateGeometry env t).size_.y_ - 1 - z).toNat
              + img.components * x) 0 : Nat) : ℚ) * (CreateGeometry env t).spacing_.y_) ∧
    (∀ x : Nat, (x : Int) < (CreateGeometry env t).size_.x_ →
      GetRawHeight (CreateGeometry env t) x ((CreateGeometry env t).size_.y_ - 1).toNat
        = ((img.data.getD (img.components * x) 0 : Nat) : ℚ)
            * (CreateGeometry env t).spacing_.y_) := by
  have _ := hp
  obtain ⟨-, -, -, hbz, -, -⟩ := CreateGeometry_built env t img node hImg hNode hOct hwf
  have main : ∀ x z : Nat, (x : Int) < (CreateGeometry env t).size_.x_ →
      (z : Int) < (CreateGeometry env t).size_.y_ →
      img.width.toNat * img.components * ((CreateGeometry env t).size_.y_ - 1 - z).toNat
          + img.components * x < img.data.length ∧
      GetRawHeight (CreateGeometry env t) x z
        = ((img.data.getD
            (img.width.toNat * img.components * ((CreateGeometry env t).size_.y_ - 1 - z).toNat
              + img.components * x) 0 : Nat) : ℚ) * (CreateGeometry env t).spacing_.y_ :=
    fun x z hx hz => rawHeight_after_CreateGeometry env t img node hImg hNode hOct hwf x z hx hz
  refine ⟨main, ?_⟩
  intro x hx
  have hz : (((CreateGeometry env t).size_.y_ - 1).toNat : Int)
      < (CreateGeometry env t).size_.y_ := by omega
  obtain ⟨-, h⟩ := main x _ hx hz
  rw [h]
  have : ((CreateGeometry env t).size_.y_ - 1
      - (((CreateGeometry env t).size_.y_ - 1).toNat : Int)).toNat = 0 := by omega
  rw [this]
  simp

/-- Two samples of the example terrain: field row 1 comes from image row 3, and the last
field row 4 from image row 0. -/
theorem CreateGeometry_raw_heights_witness :
    exampleImage.WF ∧
    GetRawHeight (CreateGeometry attachedEnv exampleTerrain) 3 1
      = ((exampleImage.data.getD 30 0 : Nat) : ℚ) * (1 / 4) ∧
    GetRawHeight (CreateGeometry attachedEnv exampleTerrain) 3 4
      = ((exampleImage.data.getD 3 0 : Nat) : ℚ) * (1 / 4) := by
  have h := CreateGeometry_raw_heights attachedEnv exampleTerrain exampleImage identityNode
    rfl rfl rfl exampleImage_wf (by decide)
  exact ⟨exampleImage_wf, (h.1 3 1 (by decide) (by decide)).2, h.2 3 (by decide)⟩

/-- C3: on a built field of size `(W, D)`, for all arguments `x`, `z` (read as 32-bit
signed integers by `toInt`), the clamped coordinates lie in `[0, W - 1]` and `[0, D - 1]`,
the array index computed by `GetRawHeight` is `clamp z * W + clamp x` and lies below
`W * D`, the value returned is the sample stored there, and clamping the arguments first
does not change the result; the argument `-5`, passed as `4294967291`, gives the same
value as the argument `0`. -/
theorem GetRawHeight_clamps (t : Terrain) (heightData : List ℚ)
    (hData : t.heightData_ = some heightData)
    (hx1 : 1 ≤ t.size_.x_) (hz1 : 1 ≤ t.size_.y_)
    (hsz : t.size_.x_ * t.size_.y_ < 2147483648)
    (hlen : heightData.length = t.size_.x_.toNat * t.size_.y_.toNat) :
    (∀ x z : Nat,
      0 ≤ Clamp (toInt x) 0 (t.size_.x_ - 1) ∧ Clamp (toInt x) 0 (t.size_.x_ - 1) ≤ t.size_.x_ - 1 ∧
      0 ≤ Clamp (toInt z) 0 (t.size_.y_ - 1) ∧ Clamp (toInt z) 0 (t.size_.y_ - 1) ≤ t.size_.y_ - 1 ∧
      rawHeightIndex t x z
        = (Clamp (toInt z) 0 (t.size_.y_ - 1)).toNat * t.size_.x_.toNat
          + (Clamp (toInt x) 0 (t.size_.x_ - 1)).toNat ∧
      rawHeightIndex t x z < t.size_.x_.toNat * t.size_.y_.toNat ∧
      heightData[(Clamp (toInt z) 0 (t.size_.y_ - 1)).toNat * t.size_.x_.toNat
          + (Clamp (toInt x) 0 (t.size_.x_ - 1)).toNat]? = some (GetRawHeight t x z) ∧
      GetRawHeight t (toUnsigned (Clamp (toInt x) 0 (t.size_.x_ - 1)))
          (toUnsigned (Clamp (toInt z) 0 (t.size_.y_ - 1))) = GetRawHeight t x z) ∧
    (∀ z : Nat, toInt 4294967291 = -5 ∧
      GetRawHeight t 4294967291 z = GetRawHeight t 0 z) := by
  have hX : t.size_.x_ < 2147483648 := by nlinarith
  have hZ : t.size_.y_ < 2147483648 := by nlinarith
  have hget : ∀ x z : Nat, GetRawHeight t x z = heightData.getD (rawHeightIndex t x z) 0 := by
    intro x z
    unfold GetRawHeight
    rw [hData]
  constructor
  · intro x z
    obtain ⟨hx0, hxm⟩ := Clamp_mem (toInt x) 0 (t.size_.x_ - 1) (by omega)
    obtain ⟨hz0, hzm⟩ := Clamp_mem (toInt z) 0 (t.size_.y_ - 1) (by omega)
    obtain ⟨hidx, hlt⟩ := rawHeightIndex_eq t hx1 hz1 hsz x z
    refine ⟨hx0, hxm, hz0, hzm, hidx, hlt, ?_, ?_⟩
    · rw [hget, ← hidx, List.getD_eq_getElem?_getD]
      rw [List.getElem?_eq_getElem (by omega)]
      rfl
    · rw [hget, hget]
      congr 1
      unfold rawHeightIndex
      rw [Clamp_toInt_toUnsigned _ _ (by omega) (by omega),
        Clamp_toInt_toUnsigned _ _ (by omega) (by omega)]
  · intro z
    refine ⟨by decide, ?_⟩
    rw [hget, hget]
    congr 1
    unfold rawHeightIndex
    have h5 : toInt 4294967291 = -5 := by decide
    have h0 : toInt 0 = 0 := by decide
    rw [h5, h0]
    have : Clamp (-5) 0 (t.size_.x_ - 1) = Clamp 0 0 (t.size_.x_ - 1) := by
      unfold Clamp
      split_ifs <;> omega
    rw [this]

/-- On the example terrain the query `(-5, 7)` stays inside the 45 samples and equals the
queries `(0, 7)` and `(0, 4)`. -/
theorem GetRawHeight_clamps_witness :
    builtTerrain.heightData_ = some (decodeHeights exampleImage ⟨9, 5⟩ (1 / 4)) ∧
    rawHeightIndex builtTerrain 4294967291 7 < 45 ∧
    GetRawHeight builtTerrain 4294967291 7 = GetRawHeight builtTerrain 0 7 ∧
    GetRawHeight builtTerrain 0 4 = GetRawHeight builtTerrain 4294967291 7 := by
  have h := GetRawHeight_clamps builtTerrain (decodeHeights exampleImage ⟨9, 5⟩ (1 / 4)) rfl
    (by decide) (by decide) (by decide) (by decide)
  exact ⟨rfl, (h.1 4294967291 7).2.2.2.2.2.1, (h.2 7).2, (h.1 4294967291 7).2.2.2.2.2.2.2⟩

/-! ## Interpolated heights -/

theorem floor_cell (i : Nat) (f : ℚ) (h0 : 0 ≤ f) (h1 : f < 1) :
    Int.floor ((i : ℚ) + f) = (i : Int) := by
  rw [Int.floor_eq_iff]
  constructor
  · push_cast; linarith
  · push_cast; linarith

theorem floatToUnsigned_cell (i : Nat) (hi : i < 4294967296) (f : ℚ) (h0 : 0 ≤ f)
    (h1 : f < 1) : floatToUnsigned ((i : ℚ) + f) = i := by
  unfold floatToUnsigned
  have hpos : (0 : ℚ) ≤ (i : ℚ) + f := by positivity
  rw [if_pos hpos, floor_cell i f h0 h1, toUnsigned_of_nonneg _ (by omega) (by omega)]
  simp

/-- Value of `GetHeight` for a query whose local grid coordinates are `i + xFrac` and
`j + zFrac`: the blend of the three raw heights of the selected triangle, scaled and
offset by the node. -/
theorem GetHeight_in_cell (env : Env) (t : Terrain) (node : Node) (hNode : env.node_ = some node)
    (w : Vector3) (i j : Nat) (hi : i + 1 < 4294967296) (hj : j + 1 < 4294967296)
    (xFrac zFrac : ℚ) (hx0 : 0 ≤ xFrac) (hx1 : xFrac < 1) (hz0 : 0 ≤ zFrac) (hz1 : zFrac < 1)
    (hx : ((node.worldTransformInverse w).x_ - t.patchWorldOrigin_.x_) / t.spacing_.x_
      = (i : ℚ) + xFrac)
    (hz : ((node.worldTransformInverse w).z_ - t.patchWorldOrigin_.y_) / t.spacing_.z_
      = (j : ℚ) + zFrac) :
    GetHeight env t w
      = node.worldScale.y_ *
          (if xFrac + zFrac ≥ 1 then
            GetRawHeight t (i + 1) (j + 1) * (xFrac + zFrac - 1)
              + GetRawHeight t i (j + 1) * (1 - xFrac) + GetRawHeight t (i + 1) j * (1 - zFrac)
          else
            GetRawHeight t i j * (1 - xFrac - zFrac)
              + GetRawHeight t (i + 1) j * xFrac + GetRawHeight t i (j + 1) * zFrac)
        + node.worldPosition.y_ := by
  unfold GetHeight
  rw [hNode]
  simp only
  rw [hx, hz, floor_cell i xFrac hx0 hx1,
    floor_cell j zFrac hz0 hz1, floatToUnsigned_cell i (by omega) xFrac hx0 hx1,
    floatToUnsigned_cell j (by omega) zFrac hz0 hz1, Nat.mod_eq_of_lt hi, Nat.mod_eq_of_lt hj]
  have f1 : (i : ℚ) + xFrac - ((i : Int) : ℚ) = xFrac := by push_cast; ring
  have f2 : (j : ℚ) + zFrac - ((j : Int) : ℚ) = zFrac := by push_cast; ring
  rw [f1, f2]
  congr 2
  split_ifs
  · ring
  · rfl

/-- C4: for a built terrain on an upright node with translation `worldPosition` and
non-zero scale `worldScale`, and with non-zero `spacing_.x_` and `spacing_.z_`, `GetHeight`
at the world position of the local point
`(patchWorldOrigin_.x_ + i * spacing_.x_, y, patchWorldOrigin_.y_ + j * spacing_.z_)` of an
in-bounds grid coordinate `(i, j)` is exactly `worldScale.y_ * GetRawHeight i j +
worldPosition.y_`, in exact arithmetic. -/
theorem GetHeight_grid_vertex (env : Env) (t : Terrain) (node : Node)
    (hNode : env.node_ = some node) (hBuilt : Built t)
    (hnx : node.worldScale.x_ ≠ 0) (hny : node.worldScale.y_ ≠ 0) (hnz : node.worldScale.z_ ≠ 0)
    (hsx : t.spacing_.x_ ≠ 0) (hsz : t.spacing_.z_ ≠ 0)
    (i j : Nat) (hi : (i : Int) < t.size_.x_) (hj : (j : Int) < t.size_.y_) (y : ℚ) :
    GetHeight env t (node.worldTransform
        ⟨t.patchWorldOrigin_.x_ + (i : ℚ) * t.spacing_.x_, y,
         t.patchWorldOrigin_.y_ + (j : ℚ) * t.spacing_.z_⟩)
      = node.worldScale.y_ * GetRawHeight t i j + node.worldPosition.y_ := by
  have _ := hny
  obtain ⟨hd, -, hx1, hz1, hs, -⟩ := hBuilt
  have hX : t.size_.x_ < 2147483648 := by nlinarith
  have hZ : t.size_.y_ < 2147483648 := by nlinarith
  have h := GetHeight_in_cell env t node hNode
    (node.worldTransform
        ⟨t.patchWorldOrigin_.x_ + (i : ℚ) * t.spacing_.x_, y,
         t.patchWorldOrigin_.y_ + (j : ℚ) * t.spacing_.z_⟩)
    i j (by omega) (by omega) 0 0
    (le_refl 0) (by norm_num) (le_refl 0) (by norm_num)
    (by simp only [Node.worldTransform, Node.worldTransformInverse]; field_simp)
    (by simp only [Node.worldTransform, Node.worldTransformInverse]; field_simp)
  rw [h, if_neg (by norm_num)]
  ring

/-- The grid vertex `(3, 2)` of the example terrain seen through a node with translation
`(10, 20, 30)` and scale `(2, 3, 5)`. -/
theorem GetHeight_grid_vertex_witness :
    Built builtTerrain ∧
    GetHeight uprightEnv builtTerrain (uprightNode.worldTransform
        ⟨builtTerrain.patchWorldOrigin_.x_ + ((3 : Nat) : ℚ) * builtTerrain.spacing_.x_, 7,
         builtTerrain.patchWorldOrigin_.y_ + ((2 : Nat) : ℚ) * builtTerrain.spacing_.z_⟩)
      = uprightNode.worldScale.y_ * GetRawHeight builtTerrain 3 2
        + uprightNode.worldPosition.y_ := by
  have hb : Built builtTerrain := by
    refine ⟨decodeHeights exampleImage ⟨9, 5⟩ (1 / 4), rfl, by decide, by decide, by decide, ?_⟩
    decide
  exact ⟨hb, GetHeight_grid_vertex uprightEnv builtTerrain uprightNode rfl hb (by decide)
    (by decide) (by decide) (by decide) (by decide) 3 2 (by decide) (by decide) 7⟩

theorem quadIndices_eq (p x z : Nat) (hp : p ≤ 255) (hx : x < p) (hz : z < p) :
    quadIndices ((p + 1) % 4294967296) x z
      = [x + (z + 1) * (p + 1), x + 1 + z * (p + 1), x + z * (p + 1),
         x + (z + 1) * (p + 1), x + 1 + (z + 1) * (p + 1), x + 1 + z * (p + 1)] := by
  have h1 : (z + 1) * (p + 1) ≤ 255 * 256 := Nat.mul_le_mul (by omega) (by omega)
  have h2 : z * (p + 1) ≤ (z + 1) * (p + 1) := Nat.mul_le_mul_right _ (by omega)
  unfold quadIndices
  rw [Nat.mod_eq_of_lt (by omega : p + 1 < 4294967296)]
  rw [Nat.mod_eq_of_lt (by omega : x + (z + 1) * (p + 1) < 65536),
    Nat.mod_eq_of_lt (by omega : x + z * (p + 1) + 1 < 65536),
    Nat.mod_eq_of_lt (by omega : x + z * (p + 1) < 65536),
    Nat.mod_eq_of_lt (by omega : x + (z + 1) * (p + 1) + 1 < 65536)]
  have e1 : x + z * (p + 1) + 1 = x + 1 + z * (p + 1) := by ring
  have e2 : x + (z + 1) * (p + 1) + 1 = x + 1 + (z + 1) * (p + 1) := by ring
  rw [e1, e2]

theorem createIndexData_spec (p : Nat) (hp : p ≤ 255) :
    (createIndexData p).length = 6 * p * p ∧
    ∀ x z, x < p → z < p →
      ((createIndexData p).drop (6 * (z * p + x))).take 6
        = [x + (z + 1) * (p + 1), x + 1 + z * (p + 1), x + z * (p + 1),
           x + (z + 1) * (p + 1), x + 1 + (z + 1) * (p + 1), x + 1 + z * (p + 1)] := by
  have hgrid : createIndexData p = (List.range (p * p)).flatMap
      (fun i => quadIndices ((p + 1) % 4294967296) (i % p) (i / p)) :=
    flatMap_range_grid p p (fun x z => quadIndices ((p + 1) % 4294967296) x z)
  obtain ⟨hl, hb⟩ := flatMap_range_block
    (fun i => quadIndices ((p + 1) % 4294967296) (i % p) (i / p)) 6 (fun _ => rfl) (p * p)
  rw [hgrid]
  constructor
  · rw [hl]; ring
  · intro x z hx hz
    have hlt : z * p + x < p * p := by
      calc z * p + x < z * p + p := by omega
        _ = (z + 1) * p := by ring
        _ ≤ p * p := Nat.mul_le_mul_right _ hz
    rw [hb _ hlt]
    have h1 : (z * p + x) % p = x := by
      rw [Nat.add_comm, Nat.add_mul_mod_self_right, Nat.mod_eq_of_lt hx]
    have h2 : (z * p + x) / p = z := by
      rw [Nat.add_comm, Nat.add_mul_div_right _ _ (by omega), Nat.div_eq_of_lt hx, Nat.zero_add]
    rw [h1, h2]
    exact quadIndices_eq p x z hp hx hz

/-- C6: when `CreateGeometry` runs with patch size `p` (at most 255, which covers every
patch size `SetPatchSize` can set) and the lock of the index buffer succeeds, the shared
index buffer has `6 * p * p` entries, and for every quad `(x, z)` with `x, z < p` the six
entries from offset `6 * (z * p + x)` are `x + (z+1) * r`, `x + 1 + z * r`, `x + z * r`,
`x + (z+1) * r`, `x + 1 + (z+1) * r`, `x + 1 + z * r` with `r = p + 1`. For `p = 2` the
quad `(0, 0)` is `3, 1, 0, 3, 4, 1`. -/
theorem CreateGeometry_index_buffer (env : Env) (t : Terrain) (img : Image) (node : Node)
    (hImg : t.heightMap_ = some img) (hNode : env.node_ = some node)
    (hOct : env.octree = true) (hLock : env.indexLock = true) (hp : t.patchSize_ ≤ 255) :
    (CreateGeometry env t).indexBuffer_.indexCount = 6 * t.patchSize_ * t.patchSize_ ∧
    ∃ indices, (CreateGeometry env t).indexBuffer_.data = some indices ∧
      indices.length = 6 * t.patchSize_ * t.patchSize_ ∧
      (∀ x z, x < t.patchSize_ → z < t.patchSize_ →
        (indices.drop (6 * (z * t.patchSize_ + x))).take 6
          = [x + (z + 1) * (t.patchSize_ + 1), x + 1 + z * (t.patchSize_ + 1),
             x + z * (t.patchSize_ + 1), x + (z + 1) * (t.patchSize_ + 1),
             x + 1 + (z + 1) * (t.patchSize_ + 1), x + 1 + z * (t.patchSize_ + 1)]) ∧
      (t.patchSize_ = 2 → indices.take 6 = [3, 1, 0, 3, 4, 1]) := by
  obtain ⟨hl, hb⟩ := createIndexData_spec t.patchSize_ hp
  have hdata : (CreateGeometry env t).indexBuffer_.data = some (createIndexData t.patchSize_) := by
    rw [CreateGeometry_eq env t img node hImg hNode hOct]
    simp [hLock]
  have hcount : (CreateGeometry env t).indexBuffer_.indexCount
      = 6 * t.patchSize_ * t.patchSize_ := by
    rw [CreateGeometry_eq env t img node hImg hNode hOct]
    have h1 : t.patchSize_ * t.patchSize_ ≤ 255 * 255 := Nat.mul_le_mul hp hp
    show t.patchSize_ * t.patchSize_ * 6 % 4294967296 = _
    rw [Nat.mod_eq_of_lt (by omega)]
    ring
  refine ⟨hcount, createIndexData t.patchSize_, hdata, hl, hb, ?_⟩
  intro h2
  have := hb 0 0 (by omega) (by omega)
  rw [h2] at this
  rw [h2]
  simpa using this

/-- The index buffer of a terrain with patch size 2: 24 indices starting with
`3, 1, 0, 3, 4, 1`. -/
theorem CreateGeometry_index_buffer_witness :
    smallPatchTerrain.patchSize_ = 2 ∧
    (CreateGeometry attachedEnv smallPatchTerrain).indexBuffer_.indexCount = 24 ∧
    ∃ indices, (CreateGeometry attachedEnv smallPatchTerrain).indexBuffer_.data = some indices ∧
      indices.length = 24 ∧ indices.take 6 = [3, 1, 0, 3, 4, 1] := by
  obtain ⟨h1, indices, h2, h3, -, h4⟩ := CreateGeometry_index_buffer attachedEnv
    smallPatchTerrain exampleImage identityNode rfl rfl rfl rfl (by decide)
  exact ⟨rfl, h1, indices, h2, h3, h4 rfl⟩

/-! ## Patch size requests -/

/-- The clamped patch size lies in `[MIN_PATCH_SIZE, MAX_PATCH_SIZE]`. -/
theorem clampPatchSize_mem (size : Nat) : 4 ≤ clampPatchSize size ∧ clampPatchSize size ≤ 128 := by
  unfold clampPatchSize MIN_PATCH_SIZE MAX_PATCH_SIZE
  obtain ⟨h1, h2⟩ := Clamp_mem (toInt size) ((4 : Nat) : Int) ((128 : Nat) : Int) (by decide)
  rw [toUnsigned_of_nonneg _ (by omega) (by omega)]
  omega

theorem clampPatchSize_of_mem (size : Nat) (h1 : 4 ≤ size) (h2 : size ≤ 128) :
    clampPatchSize size = size := by
  unfold clampPatchSize MIN_PATCH_SIZE MAX_PATCH_SIZE
  rw [toInt_of_lt _ (by omega), Clamp_of_mem _ _ _ (by omega) (by omega),
    toUnsigned_natCast _ (by omega)]

theorem clampPatchSize_below (size : Nat) (h : toInt size < 4) : clampPatchSize size = 4 := by
  unfold clampPatchSize MIN_PATCH_SIZE MAX_PATCH_SIZE Clamp
  rw [if_pos (by omega)]
  decide

theorem clampPatchSize_above (size : Nat) (h : 128 < toInt size) : clampPatchSize size = 128 := by
  unfold clampPatchSize MIN_PATCH_SIZE MAX_PATCH_SIZE Clamp
  rw [if_neg (by omega), if_pos (by omega)]
  decide

theorem IsPowerOfTwo_mem (v : Nat) (h1 : 4 ≤ v) (h2 : v ≤ 128) (h : IsPowerOfTwo v = true) :
    v ∈ [4, 8, 16, 32, 64, 128] := by
  interval_cases v <;> first | decide | (exfalso; revert h; decide)

theorem SetPatchSize_accept (env : Env) (t : Terrain) (size : Nat)
    (h1 : clampPatchSize size ≠ t.patchSize_) (h2 : IsPowerOfTwo (clampPatchSize size) = true) :
    SetPatchSize env t size = CreateGeometry env
      { t with patchSize_ := clampPatchSize size
               numLodLevels_ := lodLevelLoop (clampPatchSize size) 1 } := by
  unfold SetPatchSize
  simp only
  rw [if_pos ⟨h1, h2⟩]

theorem SetPatchSize_reject (env : Env) (t : Terrain) (size : Nat)
    (h : clampPatchSize size = t.patchSize_ ∨ IsPowerOfTwo (clampPatchSize size) = false) :
    SetPatchSize env t size = t := by
  unfold SetPatchSize
  simp only
  rw [if_neg]
  rintro ⟨h1, h2⟩
  rcases h with h | h
  · exact h1 h
  · rw [h2] at h; exact Bool.noConfusion h

theorem lodLevelLoop_four : lodLevelLoop 4 1 = 1 := by
  rw [lodLevelLoop]; simp [MIN_PATCH_SIZE]

/-- C7, counterexample: on a freshly constructed terrain (patch size 16, 3 LOD levels) the
request `SetPatchSize(3)`, not a power of two, is clamped to 4 and accepted: the patch size
becomes 4 and the LOD level count 1. -/
theorem non_power_of_two_request_accepted :
    IsPowerOfTwo 3 = false ∧
    (construct exampleDefaults).patchSize_ = 16 ∧
    (construct exampleDefaults).numLodLevels_ = 3 ∧
    (SetPatchSize attachedEnv (construct exampleDefaults) 3).patchSize_ = 4 ∧
    (SetPatchSize attachedEnv (construct exampleDefaults) 3).numLodLevels_ = 1 ∧
    SetPatchSize attachedEnv (construct exampleDefaults) 3 ≠ construct exampleDefaults := by
  have hacc := SetPatchSize_accept attachedEnv (construct exampleDefaults) 3 (by decide)
    (by decide)
  refine ⟨by decide, rfl, rfl, by decide, ?_, ?_⟩
  · rw [hacc, (CreateGeometry_frame _ _).2.1]
    exact lodLevelLoop_four
  · intro h
    have h4 := congrArg Terrain.patchSize_ h
    revert h4
    decide

/-- C7, amended: for every requested size in `[4, 128]` that is not a power of two,
`SetPatchSize` returns the state unchanged. -/
theorem SetPatchSize_non_power_of_two_in_range (env : Env) (t : Terrain) (size : Nat)
    (h1 : 4 ≤ size) (h2 : size ≤ 128) (hnp : IsPowerOfTwo size = false) :
    SetPatchSize env t size = t := by
  apply SetPatchSize_reject
  right
  rw [clampPatchSize_of_mem size h1 h2]
  exact hnp

/-- The request `SetPatchSize(5)` leaves the built example terrain as it is. -/
theorem SetPatchSize_non_power_of_two_in_range_witness :
    (4 ≤ 5 ∧ 5 ≤ 128 ∧ IsPowerOfTwo 5 = false) ∧
    SetPatchSize attachedEnv builtTerrain 5 = builtTerrain :=
  ⟨by decide, SetPatchSize_non_power_of_two_in_range attachedEnv builtTerrain 5 (by decide)
    (by decide) (by decide)⟩

/-- C8, counterexample: on a freshly constructed terrain (patch size 16) the out-of-range
requests 2 and 0 set the patch size to 4 and the request 256 sets it to 128. -/
theorem out_of_range_request_accepted :
    (construct exampleDefaults).patchSize_ = 16 ∧
    (SetPatchSize attachedEnv (construct exampleDefaults) 2).patchSize_ = 4 ∧
    (SetPatchSize attachedEnv (construct exampleDefaults) 2).numLodLevels_ = 1 ∧
    (SetPatchSize attachedEnv (construct exampleDefaults) 256).patchSize_ = 128 ∧
    (SetPatchSize attachedEnv (construct exampleDefaults) 0).patchSize_ = 4 ∧
    SetPatchSize attachedEnv (construct exampleDefaults) 2 ≠ construct exampleDefaults := by
  have hacc := SetPatchSize_accept attachedEnv (construct exampleDefaults) 2 (by decide)
    (by decide)
  refine ⟨rfl, by decide, ?_, by decide, by decide, ?_⟩
  · rw [hacc, (CreateGeometry_frame _ _).2.1]
    exact lodLevelLoop_four
  · intro h
    have h4 := congrArg Terrain.patchSize_ h
    revert h4
    decide

/-- C8, amended: a requested size outside `[4, 128]` (read as a signed integer) acts
exactly as a request for the nearer bound, 4 below the range and 128 above it: the state
is unchanged when the patch size already equals that bound, and otherwise the patch size
becomes that bound. -/
theorem SetPatchSize_out_of_range (env : Env) (t : Terrain) (size : Nat)
    (hout : toInt size < 4 ∨ 128 < toInt size) :
    SetPatchSize env t size = SetPatchSize env t (if toInt size < 4 then 4 else 128) ∧
    (t.patchSize_ = (if toInt size < 4 then 4 else 128) → SetPatchSize env t size = t) ∧
    (t.patchSize_ ≠ (if toInt size < 4 then 4 else 128) →
      (SetPatchSize env t size).patchSize_ = (if toInt size < 4 then 4 else 128)) := by
  have hc : clampPatchSize size = (if toInt size < 4 then 4 else 128) := by
    rcases hout with h | h
    · rw [if_pos h]; exact clampPatchSize_below size h
    · rw [if_neg (by omega)]; exact clampPatchSize_above size h
  have hc2 : clampPatchSize (if toInt size < 4 then 4 else 128)
      = (if toInt size < 4 then 4 else 128) := by
    split_ifs <;> decide
  have hpow : IsPowerOfTwo (if toInt size < 4 then 4 else 128) = true := by
    split_ifs <;> decide
  refine ⟨?_, ?_, ?_⟩
  · unfold SetPatchSize
    simp only [hc, hc2]
  · intro h
    apply SetPatchSize_reject
    left
    rw [hc, h]
  · intro h
    rw [SetPatchSize_accept env t size (by rw [hc]; exact fun e => h e.symm) (by rw [hc]; exact hpow),
      (CreateGeometry_frame _ _).1]
    exact hc

/-- The request `4294967295`, which reads as `-1`, acts as `SetPatchSize(4)` and leaves the
example terrain of patch size 4 unchanged. -/
theorem SetPatchSize_out_of_range_witness :
    (toInt 4294967295 < 4 ∨ 128 < toInt 4294967295) ∧
    (SetPatchSize attachedEnv builtTerrain 4294967295 = SetPatchSize attachedEnv builtTerrain 4 ∧
    SetPatchSize attachedEnv builtTerrain 4294967295 = builtTerrain) := by
  have h := SetPatchSize_out_of_range attachedEnv builtTerrain 4294967295 (by decide)
  exact ⟨by decide, h.1, h.2.1 (by decide)⟩

/-! ## Invariants of the reachable states -/

/-- The patch size after `SetPatchSize` is the old one or the clamped request, and in the
second case a power of two. -/
theorem patchSize_after_SetPatchSize (env : Env) (t : Terrain) (size : Nat) :
    (SetPatchSize env t size).patchSize_ = t.patchSize_ ∨
    ((SetPatchSize env t size).patchSize_ = clampPatchSize size ∧
      IsPowerOfTwo (clampPatchSize size) = true) := by
  by_cases h : clampPatchSize size ≠ t.patchSize_ ∧ IsPowerOfTwo (clampPatchSize size) = true
  · right
    rw [SetPatchSize_accept env t size h.1 h.2, (CreateGeometry_frame _ _).1]
    exact ⟨rfl, h.2⟩
  · left
    rw [SetPatchSize_reject env t size]
    by_cases h1 : clampPatchSize size = t.patchSize_
    · exact Or.inl h1
    · right
      by_contra h2
      exact h ⟨h1, by simpa using h2⟩

/-- No call other than `SetPatchSize` writes `patchSize_`. -/
theorem Op.run_patchSize (env : Env) (t : Terrain) (op : Op) :
    (op.run env t).patchSize_ = t.patchSize_ ∨
    ∃ size, op = .setPatchSize size ∧ (op.run env t).patchSize_ = clampPatchSize size ∧
      IsPowerOfTwo (clampPatchSize size) = true := by
  cases op with
  | setPatchSize size =>
    rcases patchSize_after_SetPatchSize env t size with h | h
    · exact Or.inl h
    · exact Or.inr ⟨size, rfl, h⟩
  | setSpacing spacing =>
    left
    show (SetSpacing env t spacing).patchSize_ = _
    unfold SetSpacing
    split_ifs
    · exact (CreateGeometry_frame _ _).1
    · rfl
  | setHeightMap image =>
    left
    show (SetHeightMap env t image).2.patchSize_ = _
    unfold SetHeightMap
    split
    · rfl
    · split_ifs
      · rfl
      · exact (CreateGeometry_frame _ _).1
  | reloadFinished reloaded =>
    left
    show (HandleHeightMapReloadFinished env t reloaded).patchSize_ = _
    unfold HandleHeightMapReloadFinished
    split
    · exact (CreateGeometry_frame _ _).1
    · rfl
  | _ => exact Or.inl rfl

/-- In every reachable state the patch size is one of the six legal values. -/
theorem patchSize_mem_of_reachable (d : DrawableDefaults) (t : Terrain) (h : Reachable d t) :
    t.patchSize_ ∈ [4, 8, 16, 32, 64, 128] := by
  induction h with
  | construct => show (16 : Nat) ∈ [4, 8, 16, 32, 64, 128]; decide
  | run env t op _ _ ih =>
    rcases Op.run_patchSize env t op with h | ⟨size, -, h1, h2⟩
    · rw [h]; exact ih
    · rw [h1]
      obtain ⟨ha, hb⟩ := clampPatchSize_mem size
      exact IsPowerOfTwo_mem _ ha hb h2

/-- C9: in every state reachable from construction by any sequence of calls, with any
32-bit arguments to `SetPatchSize`, `patchSize_` is one of 4, 8, 16, 32, 64, 128: a power of
two within `[MIN_PATCH_SIZE, MAX_PATCH_SIZE]`. -/
theorem Reachable_patchSize (d : DrawableDefaults) (t : Terrain) (h : Reachable d t) :
    t.patchSize_ ∈ [4, 8, 16, 32, 64, 128] ∧
    IsPowerOfTwo t.patchSize_ = true ∧
    MIN_PATCH_SIZE ≤ t.patchSize_ ∧ t.patchSize_ ≤ MAX_PATCH_SIZE ∧
    ∃ k : Nat, t.patchSize_ = 2 ^ k := by
  have key := patchSize_mem_of_reachable d t h
  refine ⟨key, ?_⟩
  simp only [List.mem_cons, List.mem_singleton, List.not_mem_nil, or_false] at key
  rcases key with h | h | h | h | h | h <;> rw [h] <;>
    refine ⟨by decide, by decide, by decide, ?_⟩
  · exact ⟨2, rfl⟩
  · exact ⟨3, rfl⟩
  · exact ⟨4, rfl⟩
  · exact ⟨5, rfl⟩
  · exact ⟨6, rfl⟩
  · exact ⟨7, rfl⟩

/-- After `SetPatchSize(1000)` and a detached `SetPatchSize(9)` the patch size is legal. -/
theorem Reachable_patchSize_witness :
    Reachable exampleDefaults
      (Op.run detachedEnv (Op.run attachedEnv (construct exampleDefaults) (.setPatchSize 1000))
        (.setPatchSize 9)) ∧
    (Op.run detachedEnv (Op.run attachedEnv (construct exampleDefaults) (.setPatchSize 1000))
        (.setPatchSize 9)).patchSize_ ∈ [4, 8, 16, 32, 64, 128] := by
  have hr : Reachable exampleDefaults
      (Op.run detachedEnv (Op.run attachedEnv (construct exampleDefaults) (.setPatchSize 1000))
        (.setPatchSize 9)) :=
    Reachable.run _ _ _ (Reachable.run _ _ _ Reachable.construct
      (by show (1000 : Nat) < 4294967296; decide)) (by show (9 : Nat) < 4294967296; decide)
  exact ⟨hr, (Reachable_patchSize _ _ hr).1⟩

theorem ReachableAttached.reachable (d : DrawableDefaults) (t : Terrain)
    (h : ReachableAttached d t) : Reachable d t := by
  induction h with
  | construct => exact Reachable.construct
  | run env t op _ hop _ _ ih => exact Reachable.run env t op ih hop

/-- Every call either ends in a rebuild of a state that has the old size and patch counts,
or leaves size, patch counts, heightmap and patch size as they were. -/
theorem Op.run_shape (env : Env) (t : Terrain) (op : Op) (hop : op.WF)
    (hwf : ∀ img, t.heightMap_ = some img → img.WF) :
    (∃ t1, op.run env t = CreateGeometry env t1 ∧ t1.size_ = t.size_ ∧
      t1.patchesX_ = t.patchesX_ ∧ t1.patchesZ_ = t.patchesZ_ ∧
      (∀ img, t1.heightMap_ = some img → img.WF) ∧
      (t1.heightMap_ = none → t.heightMap_ = none)) ∨
    ((op.run env t).size_ = t.size_ ∧ (op.run env t).patchesX_ = t.patchesX_ ∧
      (op.run env t).patchesZ_ = t.patchesZ_ ∧ (op.run env t).heightMap_ = t.heightMap_ ∧
      (op.run env t).patchSize_ = t.patchSize_) := by
  cases op with
  | setPatchSize size =>
    by_cases h : clampPatchSize size ≠ t.patchSize_ ∧ IsPowerOfTwo (clampPatchSize size) = true
    · left
      exact ⟨_, SetPatchSize_accept env t size h.1 h.2, rfl, rfl, rfl, hwf, fun h => h⟩
    · right
      have : SetPatchSize env t size = t := by
        unfold SetPatchSize
        simp only
        rw [if_neg h]
      show (SetPatchSize env t size).size_ = _ ∧ (SetPatchSize env t size).patchesX_ = _ ∧
        (SetPatchSize env t size).patchesZ_ = _ ∧ (SetPatchSize env t size).heightMap_ = _ ∧
        (SetPatchSize env t size).patchSize_ = _
      rw [this]
      exact ⟨rfl, rfl, rfl, rfl, rfl⟩
  | setSpacing spacing =>
    by_cases h : spacing ≠ t.spacing_
    · left
      refine ⟨{ t with spacing_ := spacing }, ?_, rfl, rfl, rfl, hwf, fun h => h⟩
      show SetSpacing env t spacing = _
      unfold SetSpacing
      rw [if_pos h]
    · right
      have : SetSpacing env t spacing = t := by
        unfold SetSpacing
        rw [if_neg h]
      show (SetSpacing env t spacing).size_ = _ ∧ (SetSpacing env t spacing).patchesX_ = _ ∧
        (SetSpacing env t spacing).patchesZ_ = _ ∧ (SetSpacing env t spacing).heightMap_ = _ ∧
        (SetSpacing env t spacing).patchSize_ = _
      rw [this]
      exact ⟨rfl, rfl, rfl, rfl, rfl⟩
  | setHeightMap image =>
    cases image with
    | none => exact Or.inr ⟨rfl, rfl, rfl, rfl, rfl⟩
    | some img0 =>
      by_cases hcomp : img0.compressed = true
      · right
        have : (SetHeightMap env t (some img0)).2 = t := by
          unfold SetHeightMap
          simp only
          rw [if_pos hcomp]
        show (SetHeightMap env t (some img0)).2.size_ = _ ∧
          (SetHeightMap env t (some img0)).2.patchesX_ = _ ∧
          (SetHeightMap env t (some img0)).2.patchesZ_ = _ ∧
          (SetHeightMap env t (some img0)).2.heightMap_ = _ ∧
          (SetHeightMap env t (some img0)).2.patchSize_ = _
        rw [this]
        exact ⟨rfl, rfl, rfl, rfl, rfl⟩
      · left
        refine ⟨{ t with heightMap_ := some img0 }, ?_, rfl, rfl, rfl, ?_, ?_⟩
        · show (SetHeightMap env t (some img0)).2 = _
          unfold SetHeightMap
          simp only
          rw [if_neg hcomp]
        · intro img himg
          have : img0 = img := Option.some.inj himg
          subst this
          exact hop
        · intro h; exact Option.noConfusion h
  | reloadFinished reloaded =>
    cases hm : t.heightMap_ with
    | none =>
      right
      have : HandleHeightMapReloadFinished env t reloaded = t := by
        unfold HandleHeightMapReloadFinished
        rw [hm]
      show (HandleHeightMapReloadFinished env t reloaded).size_ = _ ∧
        (HandleHeightMapReloadFinished env t reloaded).patchesX_ = _ ∧
        (HandleHeightMapReloadFinished env t reloaded).patchesZ_ = _ ∧
        (HandleHeightMapReloadFinished env t reloaded).heightMap_ = _ ∧
        (HandleHeightMapReloadFinished env t reloaded).patchSize_ = _
      rw [this]
      exact ⟨rfl, rfl, rfl, hm, rfl⟩
    | some old =>
      left
      refine ⟨{ t with heightMap_ := some reloaded }, ?_, rfl, rfl, rfl, ?_, ?_⟩
      · show HandleHeightMapReloadFinished env t reloaded = _
        unfold HandleHeightMapReloadFinished
        rw [hm]
      · intro img himg
        have : reloaded = img := Option.some.inj himg
        subst this
        exact hop
      · intro h; exact Option.noConfusion h
  | _ => exact Or.inr ⟨rfl, rfl, rfl, rfl, rfl⟩

theorem heightMap_wf_of_reachable (d : DrawableDefaults) (t : Terrain) (h : Reachable d t) :
    ∀ img, t.heightMap_ = some img → img.WF := by
  induction h with
  | construct => intro img himg; exact Option.noConfusion himg
  | run env t op _ hop ih =>
    rcases Op.run_shape env t op hop ih with ⟨t1, h1, -, -, -, h5, -⟩ | ⟨-, -, -, h4, -⟩
    · rw [h1, (CreateGeometry_frame _ _).2.2.1]; exact h5
    · rw [h4]; exact ih

/-- In every reachable state nothing has been built yet, or the size is one more than the
patch counts times one of the six legal patch sizes. -/
theorem size_general_of_reachable (d : DrawableDefaults) (t : Terrain) (h : Reachable d t) :
    (t.size_ = ⟨0, 0⟩ ∧ t.patchesX_ = 0 ∧ t.patchesZ_ = 0) ∨
      ∃ q : Nat, q ∈ [4, 8, 16, 32, 64, 128] ∧
        t.size_ = ⟨1 + (t.patchesX_ : Int) * (q : Int), 1 + (t.patchesZ_ : Int) * (q : Int)⟩ := by
  induction h with
  | construct => exact Or.inl ⟨rfl, rfl, rfl⟩
  | run env t op hr hop ih =>
    have hps := patchSize_mem_of_reachable d _ (Reachable.run env t op hr hop)
    rcases Op.run_shape env t op hop (heightMap_wf_of_reachable d t hr) with
      ⟨t1, h1, h2, h3, h4, h5, -⟩ | ⟨h1, h2, h3, -, -⟩
    · rw [h1] at hps ⊢
      rcases CreateGeometry_cases env t1 with ⟨img, node, g1, g2, g3⟩ | g
      · right
        exact ⟨_, hps, CreateGeometry_run_size env t1 img node g1 g2 g3 (h5 img g1)⟩
      · rw [g, h2, h3, h4]; exact ih
    · rw [h1, h2, h3]; exact ih

/-- When every call finds a node and an octree: without a heightmap nothing is built, and
with one the size is one more than the patch counts times the current patch size. -/
theorem size_of_reachableAttached (d : DrawableDefaults) (t : Terrain)
    (h : ReachableAttached d t) :
    (t.heightMap_ = none ∧ t.size_ = ⟨0, 0⟩ ∧ t.patchesX_ = 0 ∧ t.patchesZ_ = 0) ∨
    (t.heightMap_ ≠ none ∧
      t.size_ = ⟨1 + (t.patchesX_ : Int) * (t.patchSize_ : Int),
                 1 + (t.patchesZ_ : Int) * (t.patchSize_ : Int)⟩) := by
  induction h with
  | construct => exact Or.inl ⟨rfl, rfl, rfl, rfl⟩
  | run env t op hr hop hnode hoct ih =>
    rcases Op.run_shape env t op hop
        (heightMap_wf_of_reachable d t (ReachableAttached.reachable d t hr)) with
      ⟨t1, h1, h2, h3, h4, h5, h6⟩ | ⟨h1, h2, h3, h4, h5⟩
    · rw [h1]
      cases g1 : t1.heightMap_ with
      | none =>
        rw [CreateGeometry_not_run env t1 (Or.inl g1), h2, h3, h4]
        rcases ih with ih | ih
        · exact Or.inl ⟨g1, ih.2⟩
        · exact absurd (h6 g1) ih.1
      | some img =>
        obtain ⟨node, g2⟩ := Option.isSome_iff_exists.mp hnode
        right
        refine ⟨?_, CreateGeometry_run_size env t1 img node g1 g2 hoct (h5 img g1)⟩
        rw [(CreateGeometry_frame _ _).2.2.1, g1]
        exact fun h => Option.noConfusion h
    · rw [h1, h2, h3, h4, h5]; exact ih

theorem attachedRun_reachable : ReachableAttached exampleDefaults attachedRun :=
  ReachableAttached.run _ _ _
    (ReachableAttached.run _ _ _ ReachableAttached.construct
      (by show (4 : Nat) < 4294967296; decide) rfl rfl)
    exampleImage_wf rfl rfl

theorem staleRun_reachable : Reachable exampleDefaults staleRun :=
  Reachable.run _ _ _ (ReachableAttached.reachable _ _ attachedRun_reachable)
    (by show (8 : Nat) < 4294967296; decide)

/-- C10, counterexample: the freshly constructed terrain is reachable and has size
`(0, 0)`, not `(1 + patchesX_ * patchSize_, 1 + patchesZ_ * patchSize_) = (1, 1)`; and
after `SetPatchSize(4)`, `SetHeightMap` of a 9 x 5 image and a `SetPatchSize(8)` made
without node and octree, the size is still `(9, 5)` with 2 x 1 patches while
`patchSize_` is 8. -/
theorem size_formula_fails :
    Reachable exampleDefaults (construct exampleDefaults) ∧
    (construct exampleDefaults).size_ = ⟨0, 0⟩ ∧
    (construct exampleDefaults).size_ ≠
      ⟨1 + ((construct exampleDefaults).patchesX_ : Int)
            * ((construct exampleDefaults).patchSize_ : Int),
       1 + ((construct exampleDefaults).patchesZ_ : Int)
            * ((construct exampleDefaults).patchSize_ : Int)⟩ ∧
    Reachable exampleDefaults staleRun ∧
    staleRun.size_ = ⟨9, 5⟩ ∧ staleRun.patchesX_ = 2 ∧ staleRun.patchesZ_ = 1 ∧
    staleRun.patchSize_ = 8 ∧
    staleRun.size_ ≠
      ⟨1 + (staleRun.patchesX_ : Int) * (staleRun.patchSize_ : Int),
       1 + (staleRun.patchesZ_ : Int) * (staleRun.patchSize_ : Int)⟩ :=
  ⟨Reachable.construct, rfl, by decide, staleRun_reachable, by decide, by decide, by decide,
    by decide, by decide⟩

/-- C10, amended: in every reachable state either nothing has been built (size `(0, 0)`,
no patches on either axis) or `size_ = (1 + patchesX_ * q, 1 + patchesZ_ * q)` for one of
the six legal patch sizes `q`; right after every `CreateGeometry` that runs (heightmap,
node and octree present) `q` is `patchSize_`; and if every call finds a node and an
octree, then in every reachable state with a heightmap
`size_ = (1 + patchesX_ * patchSize_, 1 + patchesZ_ * patchSize_)`, and without one the
size is `(0, 0)`. -/
theorem Reachable_size (d : DrawableDefaults) (t : Terrain) (h : Reachable d t) :
    ((t.size_ = ⟨0, 0⟩ ∧ t.patchesX_ = 0 ∧ t.patchesZ_ = 0) ∨
      ∃ q : Nat, q ∈ [4, 8, 16, 32, 64, 128] ∧
        t.size_ = ⟨1 + (t.patchesX_ : Int) * (q : Int), 1 + (t.patchesZ_ : Int) * (q : Int)⟩) ∧
    (∀ env img node, t.heightMap_ = some img → env.node_ = some node → env.octree = true →
      (CreateGeometry env t).size_ =
        ⟨1 + ((CreateGeometry env t).patchesX_ : Int) * ((CreateGeometry env t).patchSize_ : Int),
         1 + ((CreateGeometry env t).patchesZ_ : Int)
              * ((CreateGeometry env t).patchSize_ : Int)⟩) ∧
    (ReachableAttached d t →
      (t.heightMap_ = none ∧ t.size_ = ⟨0, 0⟩ ∧ t.patchesX_ = 0 ∧ t.patchesZ_ = 0) ∨
      (t.heightMap_ ≠ none ∧
        t.size_ = ⟨1 + (t.patchesX_ : Int) * (t.patchSize_ : Int),
                   1 + (t.patchesZ_ : Int) * (t.patchSize_ : Int)⟩)) := by
  refine ⟨size_general_of_reachable d t h, ?_, size_of_reachableAttached d t⟩
  intro env img node h1 h2 h3
  exact CreateGeometry_run_size env t img node h1 h2 h3 (heightMap_wf_of_reachable d t h img h1)

/-- The attached run `SetPatchSize(4)`, `SetHeightMap(exampleImage)` ends with size
`(1 + 2 * 4, 1 + 1 * 4)`. -/
theorem Reachable_size_witness :
    Reachable exampleDefaults attachedRun ∧
    ReachableAttached exampleDefaults attachedRun ∧
    attachedRun.size_ = ⟨1 + (attachedRun.patchesX_ : Int) * (attachedRun.patchSize_ : Int),
                         1 + (attachedRun.patchesZ_ : Int) * (attachedRun.patchSize_ : Int)⟩ := by
  have hr := ReachableAttached.reachable _ _ attachedRun_reachable
  rcases (Reachable_size exampleDefaults attachedRun hr).2.2 attachedRun_reachable with h | h
  · exact absurd h.1 (by decide)
  · exact ⟨hr, attachedRun_reachable, h.2⟩

/-! ## C11: a rebuild is idempotent -/

/-- `UpdatePatchGeometry` reads only the patch size, the spacing, the size, the height
data and the index count of the terrain. -/
theorem UpdatePatchGeometry_congr (env : Env) (t t2 : Terrain)
    (h1 : t2.patchSize_ = t.patchSize_) (h2 : t2.spacing_ = t.spacing_)
    (h3 : t2.size_ = t.size_) (h4 : t2.heightData_ = t.heightData_)
    (h5 : t2.indexBuffer_.indexCount = t.indexBuffer_.indexCount) (patch : TerrainPatch) :
    UpdatePatchGeometry env t2 patch = UpdatePatchGeometry env t patch := by
  unfold UpdatePatchGeometry patchVertices patchVertex GetNormal normalSum GetRawHeight
    rawHeightIndex
  rw [h1, h2, h3, h4, h5]

/-- A new patch depends on the terrain only through the drawable parameters it copies. -/
theorem newPatch_congr (t t2 : Terrain)
    (h : newPatch t2 0 0 = newPatch t 0 0) (x z : Nat) : newPatch t2 x z = newPatch t x z := by
  unfold newPatch at h ⊢
  simp only [TerrainPatch.mk.injEq, true_and] at h ⊢
  exact h

/-- The patch list depends on the terrain only through the copied drawable parameters. -/
theorem createPatches_congr (t t2 : Terrain)
    (h : newPatch t2 0 0 = newPatch t 0 0) (px pz : Nat) :
    createPatches t2 px pz = createPatches t px pz := by
  unfold createPatches
  simp only [newPatch_congr t t2 h]

/-- A second rebuild right after a rebuild that ran changes nothing but the count of
`E_TERRAINCREATED` events. -/
theorem CreateGeometry_twice (env : Env) (t : Terrain) :
    CreateGeometry env (CreateGeometry env t) =
      { CreateGeometry env t with
        createdEvents := (CreateGeometry env (CreateGeometry env t)).createdEvents } := by
  rcases CreateGeometry_cases env t with ⟨img, node, hImg, hNode, hOct⟩ | h
  · have hImg2 : (CreateGeometry env t).heightMap_ = some img := by
      rw [(CreateGeometry_frame env t).2.2.1, hImg]
    rw [CreateGeometry_eq env (CreateGeometry env t) img node hImg2 hNode hOct]
    rw [CreateGeometry_eq env t img node hImg hNode hOct]
    congr 1
  · rw [h, h]

/-- The geometry that `UpdatePatchGeometry` leaves in a patch depends on the patch only
through its geometry. -/
theorem UpdatePatchGeometry_geometry_congr (env : Env) (t : Terrain) (p p2 : TerrainPatch)
    (h : p2.geometry = p.geometry) :
    (UpdatePatchGeometry env t p2).geometry = (UpdatePatchGeometry env t p).geometry := by
  cases p
  cases p2
  simp only [TerrainPatch.geometry, PatchGeometry.mk.injEq] at h
  obtain ⟨rfl, rfl, rfl, rfl, rfl, rfl, rfl⟩ := h
  unfold UpdatePatchGeometry
  simp only
  split_ifs <;> rfl

/-- The fields that `UpdatePatchGeometry` reads are prepared from the image, the patch
size and the spacing alone. -/
theorem prepareGeometry_congr (env : Env) (t t2 : Terrain) (img : Image)
    (h2 : t2.patchSize_ = t.patchSize_) (h3 : t2.spacing_ = t.spacing_) :
    (prepareGeometry env t2 img).patchSize_ = (prepareGeometry env t img).patchSize_ ∧
    (prepareGeometry env t2 img).spacing_ = (prepareGeometry env t img).spacing_ ∧
    (prepareGeometry env t2 img).size_ = (prepareGeometry env t img).size_ ∧
    (prepareGeometry env t2 img).heightData_ = (prepareGeometry env t img).heightData_ ∧
    (prepareGeometry env t2 img).indexBuffer_.indexCount
      = (prepareGeometry env t img).indexBuffer_.indexCount := by
  unfold prepareGeometry
  simp only [h2, h3]
  exact ⟨trivial, trivial, trivial, trivial, trivial⟩

/-- The geometry that a rebuild leaves depends on the state only through the heightmap,
the patch size and the spacing. -/
theorem CreateGeometry_geometry_congr (env : Env) (t t2 : Terrain) (img : Image) (node : Node)
    (hImg : t.heightMap_ = some img) (hNode : env.node_ = some node)
    (hOct : env.octree = true) (h1 : t2.heightMap_ = t.heightMap_)
    (h2 : t2.patchSize_ = t.patchSize_) (h3 : t2.spacing_ = t.spacing_) :
    (CreateGeometry env t2).geometry = (CreateGeometry env t).geometry := by
  obtain ⟨g1, g2, g3, g4, g5⟩ := prepareGeometry_congr env t t2 img h2 h3
  rw [CreateGeometry_eq env t2 img node (h1.trans hImg) hNode hOct,
    CreateGeometry_eq env t img node hImg hNode hOct]
  unfold Terrain.geometry
  simp only [h2, h3, createPatches_eq, List.map_map]
  congr 1
  apply List.map_congr_left
  intro i _
  show (UpdatePatchGeometry env _ _).geometry = (UpdatePatchGeometry env _ _).geometry
  rw [UpdatePatchGeometry_congr env _ _ g1 g2 g3 g4 g5]
  exact UpdatePatchGeometry_geometry_congr env _ _ _ rfl

/-- C11: a rebuild is idempotent. Running `CreateGeometry` a second time right after a
first run, in the same surroundings, gives the same state except for the count of
`E_TERRAINCREATED` events sent: the same size, patch counts and coordinates, origin, height
samples, index data and per-patch vertex data (positions, normals, texture coordinates,
tangents), CPU-side positions, bounding boxes and patch node transforms. And the geometry
left by a rebuild that runs depends on the prior state only through the heightmap, the
patch size and the spacing: two states that agree on these three are rebuilt to the same
geometry. -/
theorem CreateGeometry_idempotent (env : Env) (t : Terrain) :
    CreateGeometry env (CreateGeometry env t) =
      { CreateGeometry env t with
        createdEvents := (CreateGeometry env (CreateGeometry env t)).createdEvents } ∧
    (CreateGeometry env (CreateGeometry env t)).geometry = (CreateGeometry env t).geometry ∧
    (∀ t2 : Terrain, t2.heightMap_ = t.heightMap_ → t2.patchSize_ = t.patchSize_ →
      t2.spacing_ = t.spacing_ → t.heightMap_ ≠ none → env.node_ ≠ none → env.octree = true →
      (CreateGeometry env t2).geometry = (CreateGeometry env t).geometry) := by
  have h1 := CreateGeometry_twice env t
  refine ⟨h1, ?_, ?_⟩
  · rw [h1]
    rfl
  · intro t2 e1 e2 e3 hm hn ho
    obtain ⟨img, hImg⟩ := Option.ne_none_iff_exists'.mp hm
    obtain ⟨node, hNode⟩ := Option.ne_none_iff_exists'.mp hn
    exact CreateGeometry_geometry_congr env t t2 img node hImg hNode ho e1 e2 e3

/-- Rebuilding the built example terrain gives the geometry of the first rebuild. -/
theorem CreateGeometry_idempotent_witness :
    builtTerrain.heightMap_ = exampleTerrain.heightMap_ ∧
    exampleTerrain.heightMap_ ≠ none ∧
    (CreateGeometry attachedEnv builtTerrain).geometry
      = (CreateGeometry attachedEnv exampleTerrain).geometry :=
  ⟨rfl, fun h => Option.noConfusion h,
    (CreateGeometry_idempotent attachedEnv exampleTerrain).2.2 builtTerrain rfl rfl rfl
      (fun h => Option.noConfusion h) (fun h => Option.noConfusion h) rfl⟩

/-! ## C12: attribute setters fan out without a rebuild -/

/-- Mapping over the patches a function that keeps the geometry of every patch keeps the
list of patch geometries. -/
theorem map_geometry_of_frame (f : TerrainPatch → TerrainPatch)
    (hf : ∀ p, (f p).geometry = p.geometry) (l : List TerrainPatch) :
    (l.map f).map TerrainPatch.geometry = l.map TerrainPatch.geometry := by
  rw [List.map_map]
  apply List.map_congr_left
  intro p _
  exact hf p

/-- C12: each of the twelve per-patch attribute setters, called with a value `v` on any
terrain state, leaves every existing patch holding `v` for that attribute, leaves the
geometry (height data, size, patch counts, origin, index data, and per patch the coordinate,
vertex data, CPU-side positions and bounding box) unchanged, and sends no
`E_TERRAINCREATED` event, so no rebuild is performed. -/
theorem setters_fan_out (t : Terrain) :
    (∀ v : ℚ, (∀ p ∈ (SetDrawDistance t v).patches_, p.drawDistance_ = v) ∧
      (SetDrawDistance t v).geometry = t.geometry ∧ (SetDrawDistance t v).createdEvents = t.createdEvents) ∧
    (∀ v : ℚ, (∀ p ∈ (SetShadowDistance t v).patches_, p.shadowDistance_ = v) ∧
      (SetShadowDistance t v).geometry = t.geometry ∧ (SetShadowDistance t v).createdEvents = t.createdEvents) ∧
    (∀ v : ℚ, (∀ p ∈ (SetLodBias t v).patches_, p.lodBias_ = v) ∧
      (SetLodBias t v).geometry = t.geometry ∧ (SetLodBias t v).createdEvents = t.createdEvents) ∧
    (∀ v : Nat, (∀ p ∈ (SetViewMask t v).patches_, p.viewMask_ = v) ∧
      (SetViewMask t v).geometry = t.geometry ∧ (SetViewMask t v).createdEvents = t.createdEvents) ∧
    (∀ v : Nat, (∀ p ∈ (SetLightMask t v).patches_, p.lightMask_ = v) ∧
      (SetLightMask t v).geometry = t.geometry ∧ (SetLightMask t v).createdEvents = t.createdEvents) ∧
    (∀ v : Nat, (∀ p ∈ (SetShadowMask t v).patches_, p.shadowMask_ = v) ∧
      (SetShadowMask t v).geometry = t.geometry ∧ (SetShadowMask t v).createdEvents = t.createdEvents) ∧
    (∀ v : Nat, (∀ p ∈ (SetZoneMask t v).patches_, p.zoneMask_ = v) ∧
      (SetZoneMask t v).geometry = t.geometry ∧ (SetZoneMask t v).createdEvents = t.createdEvents) ∧
    (∀ v : Nat, (∀ p ∈ (SetMaxLights t v).patches_, p.maxLights_ = v) ∧
      (SetMaxLights t v).geometry = t.geometry ∧ (SetMaxLights t v).createdEvents = t.createdEvents) ∧
    (∀ v : Bool, (∀ p ∈ (SetVisible t v).patches_, p.visible_ = v) ∧
      (SetVisible t v).geometry = t.geometry ∧ (SetVisible t v).createdEvents = t.createdEvents) ∧
    (∀ v : Bool, (∀ p ∈ (SetCastShadows t v).patches_, p.castShadows_ = v) ∧
      (SetCastShadows t v).geometry = t.geometry ∧ (SetCastShadows t v).createdEvents = t.createdEvents) ∧
    (∀ v : Bool, (∀ p ∈ (SetOccluder t v).patches_, p.occluder_ = v) ∧
      (SetOccluder t v).geometry = t.geometry ∧ (SetOccluder t v).createdEvents = t.createdEvents) ∧
    (∀ v : Bool, (∀ p ∈ (SetOccludee t v).patches_, p.occludee_ = v) ∧
      (SetOccludee t v).geometry = t.geometry ∧ (SetOccludee t v).createdEvents = t.createdEvents) := by
  refine ⟨?_, ?_, ?_, ?_, ?_, ?_, ?_, ?_, ?_, ?_, ?_, ?_⟩
  · intro v
    refine ⟨?_, ?_, rfl⟩
    · intro p hp
      obtain ⟨q, -, rfl⟩ := List.mem_map.mp hp
      rfl
    · exact congrArg (fun l => { t.geometry with patches := l })
        (map_geometry_of_frame (fun patch => { patch with drawDistance_ := v }) (fun _ => rfl)
          t.patches_)
  · intro v
    refine ⟨?_, ?_, rfl⟩
    · intro p hp
      obtain ⟨q, -, rfl⟩ := List.mem_map.mp hp
      rfl
    · exact congrArg (fun l => { t.geometry with patches := l })
        (map_geometry_of_frame (fun patch => { patch with shadowDistance_ := v }) (fun _ => rfl)
          t.patches_)
  · intro v
    refine ⟨?_, ?_, rfl⟩
    · intro p hp
      obtain ⟨q, -, rfl⟩ := List.mem_map.mp hp
      rfl
    · exact congrArg (fun l => { t.geometry with patches := l })
        (map_geometry_of_frame (fun patch => { patch with lodBias_ := v }) (fun _ => rfl)
          t.patches_)
  · intro v
    refine ⟨?_, ?_, rfl⟩
    · intro p hp
      obtain ⟨q, -, rfl⟩ := List.mem_map.mp hp
      rfl
    · exact congrArg (fun l => { t.geometry with patches := l })
        (map_geometry_of_frame (fun patch => { patch with viewMask_ := v }) (fun _ => rfl)
          t.patches_)
  · intro v
    refine ⟨?_, ?_, rfl⟩
    · intro p hp
      obtain ⟨q, -, rfl⟩ := List.mem_map.mp hp
      rfl
    · exact congrArg (fun l => { t.geometry with patches := l })
        (map_geometry_of_frame (fun patch => { patch with lightMask_ := v }) (fun _ => rfl)
          t.patches_)
  · intro v
    refine ⟨?_, ?_, rfl⟩
    · intro p hp
      obtain ⟨q, -, rfl⟩ := List.mem_map.mp hp
      rfl
    · exact congrArg (fun l => { t.geometry with patches := l })
        (map_geometry_of_frame (fun patch => { patch with shadowMask_ := v }) (fun _ => rfl)
          t.patches_)
  · intro v
    refine ⟨?_, ?_, rfl⟩
    · intro p hp
      obtain ⟨q, -, rfl⟩ := List.mem_map.mp hp
      rfl
    · exact congrArg (fun l => { t.geometry with patches := l })
        (map_geometry_of_frame (fun patch => { patch with zoneMask_ := v }) (fun _ => rfl)
          t.patches_)
  · intro v
    refine ⟨?_, ?_, rfl⟩
    · intro p hp
      obtain ⟨q, -, rfl⟩ := List.mem_map.mp hp
      rfl
    · exact congrArg (fun l => { t.geometry with patches := l })
        (map_geometry_of_frame (fun patch => { patch with maxLights_ := v }) (fun _ => rfl)
          t.patches_)
  · intro v
    refine ⟨?_, ?_, rfl⟩
    · intro p hp
      obtain ⟨q, -, rfl⟩ := List.mem_map.mp hp
      rfl
    · exact congrArg (fun l => { t.geometry with patches := l })
        (map_geometry_of_frame (fun patch => { patch with visible_ := v }) (fun _ => rfl)
          t.patches_)
  · intro v
    refine ⟨?_, ?_, rfl⟩
    · intro p hp
      obtain ⟨q, -, rfl⟩ := List.mem_map.mp hp
      rfl
    · exact congrArg (fun l => { t.geometry with patches := l })
        (map_geometry_of_frame (fun patch => { patch with castShadows_ := v }) (fun _ => rfl)
          t.patches_)
  · intro v
    refine ⟨?_, ?_, rfl⟩
    · intro p hp
      obtain ⟨q, -, rfl⟩ := List.mem_map.mp hp
      rfl
    · exact congrArg (fun l => { t.geometry with patches := l })
        (map_geometry_of_frame (fun patch => { patch with occluder_ := v }) (fun _ => rfl)
          t.patches_)
  · intro v
    refine ⟨?_, ?_, rfl⟩
    · intro p hp
      obtain ⟨q, -, rfl⟩ := List.mem_map.mp hp
      rfl
    · exact congrArg (fun l => { t.geometry with patches := l })
        (map_geometry_of_frame (fun patch => { patch with occludee_ := v }) (fun _ => rfl)
          t.patches_)

/-- The patch `(0, 0)` of the built example terrain after `SetMaxLights(3)`: it holds 3 and
the geometry of the terrain is unchanged. -/
theorem setters_fan_out_witness :
    builtPatch ∈ builtTerrain.patches_ ∧
    ({ builtPatch with maxLights_ := 3 } : TerrainPatch) ∈ (SetMaxLights builtTerrain 3).patches_ ∧
    ({ builtPatch with maxLights_ := 3 } : TerrainPatch).maxLights_ = 3 ∧
    (SetMaxLights builtTerrain 3).geometry = builtTerrain.geometry := by
  have hm : builtPatch ∈ builtTerrain.patches_ := List.mem_of_mem_head? (by rfl)
  have hm2 : ({ builtPatch with maxLights_ := 3 } : TerrainPatch)
      ∈ (SetMaxLights builtTerrain 3).patches_ :=
    List.mem_map_of_mem (fun patch : TerrainPatch => { patch with maxLights_ := 3 }) hm
  have h := (setters_fan_out builtTerrain).2.2.2.2.2.2.2.1 3
  exact ⟨hm, hm2, h.1 _ hm2, h.2.1⟩

/-! ## C13, C14: setter and getter pairs, attributes of rebuilt patches -/

/-- C13: the round trip fails for the pair `SetOccludee` / `IsOccludee`. On a freshly
constructed terrain, where `IsOccludee()` is `true`, the call `SetOccludee(false)` leaves
`IsOccludee()` returning `true`; in every state `SetOccludee(v)` leaves `IsOccludee()` as it
was and makes `IsOccluder()` return `v`, because the setter stores into `occluder_`. The
other eleven setter/getter pairs do round-trip for every value. -/
theorem SetOccludee_getter_mismatch :
    IsOccludee (construct exampleDefaults) = true ∧
    IsOccludee (SetOccludee (construct exampleDefaults) false) = true ∧
    (∀ (t : Terrain) (v : Bool),
      IsOccludee (SetOccludee t v) = IsOccludee t ∧ IsOccluder (SetOccludee t v) = v) ∧
    (∀ (t : Terrain),
      (∀ v, GetDrawDistance (SetDrawDistance t v) = v) ∧
      (∀ v, GetShadowDistance (SetShadowDistance t v) = v) ∧
      (∀ v, GetLodBias (SetLodBias t v) = v) ∧
      (∀ v, GetViewMask (SetViewMask t v) = v) ∧
      (∀ v, GetLightMask (SetLightMask t v) = v) ∧
      (∀ v, GetShadowMask (SetShadowMask t v) = v) ∧
      (∀ v, GetZoneMask (SetZoneMask t v) = v) ∧
      (∀ v, GetMaxLights (SetMaxLights t v) = v) ∧
      (∀ v, IsVisible (SetVisible t v) = v) ∧
      (∀ v, GetCastShadows (SetCastShadows t v) = v) ∧
      (∀ v, IsOccluder (SetOccluder t v) = v)) :=
  ⟨rfl, rfl, fun _ _ => ⟨rfl, rfl⟩,
    fun _ => ⟨fun _ => rfl, fun _ => rfl, fun _ => rfl, fun _ => rfl, fun _ => rfl,
      fun _ => rfl, fun _ => rfl, fun _ => rfl, fun _ => rfl, fun _ => rfl, fun _ => rfl⟩⟩

/-- Every patch created by a rebuild that runs carries the drawable parameters held by
the terrain fields at that moment. -/
theorem CreateGeometry_patch_parameters (env : Env) (t : Terrain) (img : Image) (node : Node)
    (hImg : t.heightMap_ = some img) (hNode : env.node_ = some node)
    (hOct : env.octree = true) :
    ∀ p ∈ (CreateGeometry env t).patches_,
      p.material_ = t.material_ ∧ p.drawDistance_ = t.drawDistance_ ∧
      p.shadowDistance_ = t.shadowDistance_ ∧ p.lodBias_ = t.lodBias_ ∧
      p.viewMask_ = t.viewMask_ ∧ p.lightMask_ = t.lightMask_ ∧
      p.shadowMask_ = t.shadowMask_ ∧ p.zoneMask_ = t.zoneMask_ ∧
      p.maxLights_ = t.maxLights_ ∧ p.visible_ = t.visible_ ∧
      p.castShadows_ = t.castShadows_ ∧ p.occluder_ = t.occluder_ ∧
      p.occludee_ = t.occludee_ := by
  intro p hp
  rw [CreateGeometry_eq env t img node hImg hNode hOct] at hp
  obtain ⟨q, hq, rfl⟩ := List.mem_map.mp hp
  rw [createPatches_eq] at hq
  obtain ⟨i, -, rfl⟩ := List.mem_map.mp hq
  obtain ⟨-, -, f1, f2, f3, f4, f5, f6, f7, f8, f9, f10, f11, f12, f13⟩ :=
    UpdatePatchGeometry_frame env (prepareGeometry env t img)
      (newPatch t (i % (toUnsigned (img.width - 1) / t.patchSize_))
        (i / (toUnsigned (img.width - 1) / t.patchSize_)))
  rw [f1, f2, f3, f4, f5, f6, f7, f8, f9, f10, f11, f12, f13]
  exact ⟨rfl, rfl, rfl, rfl, rfl, rfl, rfl, rfl, rfl, rfl, rfl, rfl, rfl⟩

/-- The heightmap held after the run `occlusionRun`. -/
theorem occlusionRun_heightMap : occlusionRun.heightMap_ = some exampleImage := by decide

/-- The occlusion fields of the terrain after the run `occlusionRun`. -/
theorem occlusionRun_flags : occlusionRun.occluder_ = false ∧ occlusionRun.occludee_ = true := by
  decide

/-- C14: after `SetPatchSize(4)`, `SetHeightMap(exampleImage)`, `SetOccluder(true)` and
`SetOccludee(false)` on an attached terrain, both existing patches hold occluder `true` and
occludee `false`, the values most recently passed to the two setters; the two patches
created by a following `CreateGeometry` hold occluder `false` and occludee `true`
instead. -/
theorem rebuild_after_SetOccludee :
    (∀ p ∈ occlusionRun.patches_, p.occluder_ = true ∧ p.occludee_ = false) ∧
    occlusionRun.patches_.length = 2 ∧
    (CreateGeometry attachedEnv occlusionRun).patches_.length = 2 ∧
    (∀ p ∈ (CreateGeometry attachedEnv occlusionRun).patches_,
      p.occluder_ = false ∧ p.occludee_ = true) := by
  refine ⟨?_, ?_, ?_, ?_⟩
  · decide
  · decide
  · decide
  · intro p hp
    obtain ⟨-, -, -, -, -, -, -, -, -, -, -, h1, h2⟩ :=
      CreateGeometry_patch_parameters attachedEnv occlusionRun exampleImage identityNode
        occlusionRun_heightMap rfl rfl p hp
    rw [h1, h2]
    exact occlusionRun_flags

/-! ## C15, C16, C17: SetHeightMap results, rebuild without heightmap, node or octree -/

/-- C15: `SetHeightMap(image)` returns `false` exactly when the image is null or
compressed, and whenever it returns `false` the whole terrain state, hence the heightmap
reference, the height field, the size, the patches and the origin, is as before the call. -/
theorem SetHeightMap_false_iff (env : Env) (t : Terrain) (image : Option Image) :
    ((SetHeightMap env t image).1 = false ↔
      (image = none ∨ ∃ img, image = some img ∧ img.compressed = true)) ∧
    ((SetHeightMap env t image).1 = false → (SetHeightMap env t image).2 = t) := by
  cases image with
  | none =>
    exact ⟨⟨fun _ => Or.inl rfl, fun _ => rfl⟩, fun _ => rfl⟩
  | some img =>
    by_cases hc : img.compressed = true
    · have h : SetHeightMap env t (some img) = (false, t) := by
        unfold SetHeightMap
        simp only
        rw [if_pos hc]
      rw [h]
      exact ⟨⟨fun _ => Or.inr ⟨img, rfl, hc⟩, fun _ => rfl⟩, fun _ => rfl⟩
    · have h : SetHeightMap env t (some img)
          = (true, CreateGeometry env { t with heightMap_ := some img }) := by
        unfold SetHeightMap
        simp only
        rw [if_neg hc]
      rw [h]
      refine ⟨⟨fun h => Bool.noConfusion h, ?_⟩, fun h => Bool.noConfusion h⟩
      rintro (h | ⟨img2, h1, h2⟩)
      · exact Option.noConfusion h
      · have : img = img2 := Option.some.inj h1
        subst this
        exact absurd h2 hc

/-- C16, counterexample: on a freshly constructed terrain without node and octree,
`SetHeightMap` of the well-formed uncompressed 9 x 5 example image returns `true`, yet
`GetSize()` is still `(0, 0)`, not `(1 + (9 - 1) / 16 * 16, 1 + (5 - 1) / 16 * 16) = (1, 1)`,
and there is no height data. -/
theorem SetHeightMap_true_unbuilt :
    exampleImage.WF ∧ exampleImage.compressed = false ∧
    (SetHeightMap detachedEnv (construct exampleDefaults) (some exampleImage)).1 = true ∧
    GetSize (SetHeightMap detachedEnv (construct exampleDefaults) (some exampleImage)).2
      = ⟨0, 0⟩ ∧
    GetHeightData (SetHeightMap detachedEnv (construct exampleDefaults) (some exampleImage)).2
      = none ∧
    (construct exampleDefaults).patchSize_ = 16 ∧
    GetSize (SetHeightMap detachedEnv (construct exampleDefaults) (some exampleImage)).2
      ≠ ⟨1 + (9 - 1) / 16 * 16, 1 + (5 - 1) / 16 * 16⟩ := by
  refine ⟨exampleImage_wf, rfl, ?_, ?_, ?_, rfl, ?_⟩ <;> decide

/-- C16, amended: whenever `SetHeightMap(image)` returns `true`, the image is present, not
compressed, and stored as the heightmap. If the terrain has a node and the scene an octree
at the time of the call, then for a well-formed image and a patch size of at least 1 the
terrain is built for that image: `GetSize()` is `(1 + (W - 1) / p * p, 1 + (H - 1) / p * p)`
for the image width `W`, height `H` and the patch size `p`, and the height data is the
decoding of that image. Without a node or without an octree the call changes nothing but
the stored heightmap: size and height data are those from before the call. -/
theorem SetHeightMap_true_built (env : Env) (t : Terrain) (image : Option Image)
    (htrue : (SetHeightMap env t image).1 = true) :
    ∃ img, image = some img ∧ img.compressed = false ∧
      GetHeightMap (SetHeightMap env t image).2 = some img ∧
      (∀ node, env.node_ = some node → env.octree = true → img.WF → 0 < t.patchSize_ →
        Built (SetHeightMap env t image).2 ∧
        GetSize (SetHeightMap env t image).2
          = ⟨1 + (((img.width.toNat - 1) / t.patchSize_ * t.patchSize_ : Nat) : Int),
             1 + (((img.height.toNat - 1) / t.patchSize_ * t.patchSize_ : Nat) : Int)⟩ ∧
        GetHeightData (SetHeightMap env t image).2
          = some (decodeHeights img (GetSize (SetHeightMap env t image).2) t.spacing_.y_)) ∧
      ((env.node_ = none ∨ env.octree = false) →
        (SetHeightMap env t image).2 = { t with heightMap_ := some img } ∧
        GetSize (SetHeightMap env t image).2 = GetSize t ∧
        GetHeightData (SetHeightMap env t image).2 = GetHeightData t) := by
  cases image with
  | none => exact absurd htrue (by simp [SetHeightMap])
  | some img =>
    have hc : img.compressed = false := by
      cases h : img.compressed
      · rfl
      · exfalso
        unfold SetHeightMap at htrue
        simp only [h] at htrue
        exact Bool.noConfusion htrue
    have h : SetHeightMap env t (some img)
        = (true, CreateGeometry env { t with heightMap_ := some img }) := by
      unfold SetHeightMap
      simp only
      rw [hc]
      rfl
    refine ⟨img, rfl, hc, ?_, ?_, ?_⟩
    · rw [h]
      exact (CreateGeometry_frame env _).2.2.1
    · intro node hNode hOct hwf _
      rw [h]
      have hs := CreateGeometry_size env { t with heightMap_ := some img } img node rfl hNode
        hOct hwf
      have hb := CreateGeometry_built env { t with heightMap_ := some img } img node rfl hNode
        hOct hwf
      have hd := CreateGeometry_heightData env { t with heightMap_ := some img } img node rfl
        hNode hOct
      refine ⟨hb, ?_, hd.1⟩
      show (CreateGeometry env _).size_ = _
      rw [hs]
      show IntVector2.mk _ _ = IntVector2.mk _ _
      congr 1 <;> (push_cast; ring)
    · intro hdet
      rw [h]
      have hn : CreateGeometry env { t with heightMap_ := some img }
          = { t with heightMap_ := some img } :=
        CreateGeometry_not_run env _ (Or.inr hdet)
      show CreateGeometry env { t with heightMap_ := some img } = _ ∧ _
      rw [hn]
      exact ⟨rfl, rfl, rfl⟩

/-- The example image set on the attached example terrain: `true`, built, size `(9, 5)`;
set on a fresh terrain without node and octree: `true`, the image stored, and size and
height data as before the call. -/
theorem SetHeightMap_true_built_witness :
    (SetHeightMap attachedEnv exampleTerrain (some exampleImage)).1 = true ∧
    (attachedEnv.node_ = some identityNode ∧ attachedEnv.octree = true ∧ exampleImage.WF ∧
      0 < exampleTerrain.patchSize_) ∧
    Built (SetHeightMap attachedEnv exampleTerrain (some exampleImage)).2 ∧
    GetSize (SetHeightMap attachedEnv exampleTerrain (some exampleImage)).2 = ⟨9, 5⟩ ∧
    (SetHeightMap detachedEnv (construct exampleDefaults) (some exampleImage)).1 = true ∧
    (detachedEnv.node_ = none ∨ detachedEnv.octree = false) ∧
    GetHeightMap (SetHeightMap detachedEnv (construct exampleDefaults) (some exampleImage)).2
      = some exampleImage ∧
    GetSize (SetHeightMap detachedEnv (construct exampleDefaults) (some exampleImage)).2
      = GetSize (construct exampleDefaults) := by
  obtain ⟨img, himg, -, -, h1, -⟩ :=
    SetHeightMap_true_built attachedEnv exampleTerrain (some exampleImage) rfl
  obtain ⟨img2, himg2, -, h2, -, h3⟩ :=
    SetHeightMap_true_built detachedEnv (construct exampleDefaults) (some exampleImage) rfl
  have e1 : exampleImage = img := Option.some.inj himg
  have e2 : exampleImage = img2 := Option.some.inj himg2
  subst e1
  subst e2
  have hb := h1 identityNode rfl rfl exampleImage_wf (by decide)
  refine ⟨rfl, ⟨rfl, rfl, exampleImage_wf, by decide⟩, hb.1, ?_, rfl, Or.inl rfl, h2,
    (h3 (Or.inl rfl)).2.1⟩
  rw [hb.2.1]
  decide

/-- C17: when no heightmap is set, or the terrain has no node, or the scene has no
octree, `CreateGeometry` returns the state it was given: patches, patch nodes, height data,
size, patch counts, patch world size and origin and the index buffer are unchanged and no
`E_TERRAINCREATED` event is sent. -/
theorem CreateGeometry_noop (env : Env) (t : Terrain)
    (h : t.heightMap_ = none ∨ env.node_ = none ∨ env.octree = false) :
    CreateGeometry env t = t ∧
    (CreateGeometry env t).patches_ = t.patches_ ∧
    (CreateGeometry env t).patchNodes_ = t.patchNodes_ ∧
    (CreateGeometry env t).heightData_ = t.heightData_ ∧
    (CreateGeometry env t).size_ = t.size_ ∧
    (CreateGeometry env t).patchesX_ = t.patchesX_ ∧
    (CreateGeometry env t).patchesZ_ = t.patchesZ_ ∧
    (CreateGeometry env t).patchWorldSize_ = t.patchWorldSize_ ∧
    (CreateGeometry env t).patchWorldOrigin_ = t.patchWorldOrigin_ ∧
    (CreateGeometry env t).indexBuffer_ = t.indexBuffer_ ∧
    (CreateGeometry env t).createdEvents = t.createdEvents := by
  rw [CreateGeometry_not_run env t h]
  exact ⟨rfl, rfl, rfl, rfl, rfl, rfl, rfl, rfl, rfl, rfl, rfl⟩

/-- A rebuild of the built example terrain without node, and a rebuild of a fresh terrain
without heightmap, change nothing. -/
theorem CreateGeometry_noop_witness :
    (builtTerrain.heightMap_ = none ∨ detachedEnv.node_ = none ∨ detachedEnv.octree = false) ∧
    CreateGeometry detachedEnv builtTerrain = builtTerrain ∧
    CreateGeometry attachedEnv (construct exampleDefaults) = construct exampleDefaults :=
  ⟨Or.inr (Or.inl rfl), (CreateGeometry_noop detachedEnv builtTerrain (Or.inr (Or.inl rfl))).1,
    (CreateGeometry_noop attachedEnv (construct exampleDefaults) (Or.inl rfl)).1⟩

/-- A null image on the built example terrain: `false`, and the state is unchanged. -/
theorem SetHeightMap_false_iff_witness :
    (SetHeightMap attachedEnv builtTerrain none).1 = false ∧
    (SetHeightMap attachedEnv builtTerrain none).2 = builtTerrain :=
  ⟨rfl, (SetHeightMap_false_iff attachedEnv builtTerrain none).2 rfl⟩

/-! ## C18: a failed vertex buffer lock -/

/-- What `UpdatePatchGeometry` leaves when the lock of the vertex buffer fails. -/
theorem UpdatePatchGeometry_lock_failed (env : Env) (t : Terrain) (patch : TerrainPatch)
    (hLock : env.vertexLock patch.x_ patch.z_ = false) :
    (UpdatePatchGeometry env t patch).cpuVertexData_ = none ∧
    (UpdatePatchGeometry env t patch).boundingBox_ = none ∧
    (patch.vertexCount
        = ((t.patchSize_ + 1) % 4294967296 * ((t.patchSize_ + 1) % 4294967296)) % 4294967296 →
      (UpdatePatchGeometry env t patch).vertexData = patch.vertexData ∧
      (UpdatePatchGeometry env t patch).vertexCount = patch.vertexCount) ∧
    (patch.vertexCount
        ≠ ((t.patchSize_ + 1) % 4294967296 * ((t.patchSize_ + 1) % 4294967296)) % 4294967296 →
      (UpdatePatchGeometry env t patch).vertexData = none) := by
  unfold UpdatePatchGeometry
  simp only [hLock]
  by_cases hcnt : patch.vertexCount
      ≠ ((t.patchSize_ + 1) % 4294967296 * ((t.patchSize_ + 1) % 4294967296)) % 4294967296
  · simp only [if_pos hcnt]
    exact ⟨rfl, rfl, fun h => absurd h hcnt, fun _ => rfl⟩
  · simp only [if_neg hcnt]
    exact ⟨rfl, rfl, fun _ => ⟨rfl, rfl⟩, fun h => absurd h hcnt⟩

/-- C18: on patch `(0, 0)` of the built example terrain, which holds CPU-side positions
and a bounding box, a call of `UpdatePatchGeometry` whose vertex buffer lock fails leaves
the vertex buffer content as it was but replaces the CPU-side positions by a new unwritten
array and the bounding box by an undefined box: both differ from what the patch held
before the call. -/
theorem UpdatePatchGeometry_lock_failure_overwrites :
    builtTerrain.patches_.head? = some builtPatch ∧
    lockFailEnv.vertexLock builtPatch.x_ builtPatch.z_ = false ∧
    builtPatch.cpuVertexData_.isSome = true ∧
    builtPatch.boundingBox_.isSome = true ∧
    (UpdatePatchGeometry lockFailEnv builtTerrain builtPatch).cpuVertexData_ = none ∧
    (UpdatePatchGeometry lockFailEnv builtTerrain builtPatch).boundingBox_ = none ∧
    (UpdatePatchGeometry lockFailEnv builtTerrain builtPatch).cpuVertexData_
      ≠ builtPatch.cpuVertexData_ ∧
    (UpdatePatchGeometry lockFailEnv builtTerrain builtPatch).boundingBox_
      ≠ builtPatch.boundingBox_ ∧
    (UpdatePatchGeometry lockFailEnv builtTerrain builtPatch).vertexData
      = builtPatch.vertexData := by
  have h := UpdatePatchGeometry_lock_failed lockFailEnv builtTerrain builtPatch rfl
  have hc : builtPatch.cpuVertexData_.isSome = true := rfl
  have hb : builtPatch.boundingBox_.isSome = true := rfl
  refine ⟨rfl, rfl, hc, hb, h.1, h.2.1, ?_, ?_, ?_⟩
  · rw [h.1]; intro e; rw [← e] at hc; exact Bool.noConfusion hc
  · rw [h.2.1]; intro e; rw [← e] at hb; exact Bool.noConfusion hb
  · exact (h.2.2.1 (by decide)).1

/-! ## C19: height queries before a build -/

/-- Without height data every raw height is 0. -/
theorem GetRawHeight_unbuilt (t : Terrain) (h : t.heightData_ = none) (x z : Nat) :
    GetRawHeight t x z = 0 := by
  unfold GetRawHeight
  rw [h]

/-- C19, counterexample: on a freshly constructed terrain, which has no height data, owned
by an upright node at world position `(10, 20, 30)` with scale `(2, 3, 5)`, `GetHeight` at
`(3, 4, 5)` is 20, the world height of the node, not 0. -/
theorem unbuilt_GetHeight_not_zero :
    (construct exampleDefaults).heightData_ = none ∧
    uprightEnv.node_ = some uprightNode ∧
    uprightNode.worldPosition.y_ = 20 ∧
    GetHeight uprightEnv (construct exampleDefaults) ⟨3, 4, 5⟩ = 20 ∧
    GetHeight uprightEnv (construct exampleDefaults) ⟨3, 4, 5⟩ ≠ 0 := by
  have h : GetHeight uprightEnv (construct exampleDefaults) ⟨3, 4, 5⟩ = 20 := by
    unfold GetHeight
    simp only [uprightEnv, GetRawHeight_unbuilt (construct exampleDefaults) rfl]
    simp [uprightNode]
  refine ⟨rfl, rfl, rfl, h, ?_⟩
  rw [h]
  norm_num

/-- C19, amended: before any field has been built, `GetRawHeight(x, z)` is 0 for all
`x`, `z`; `GetHeight` is 0 at every world position when the terrain has no node; and when it
has an upright node with non-zero scale, with non-zero `spacing_.x_` and `spacing_.z_`,
`GetHeight` is the world height `GetWorldPosition().y_` of the node at every world position,
in exact arithmetic. -/
theorem GetHeight_unbuilt (env : Env) (t : Terrain) (hData : t.heightData_ = none) :
    (∀ x z : Nat, GetRawHeight t x z = 0) ∧
    (env.node_ = none → ∀ w : Vector3, GetHeight env t w = 0) ∧
    (∀ node, env.node_ = some node →
      node.worldScale.x_ ≠ 0 → node.worldScale.y_ ≠ 0 → node.worldScale.z_ ≠ 0 →
      t.spacing_.x_ ≠ 0 → t.spacing_.z_ ≠ 0 →
      ∀ w : Vector3, GetHeight env t w = node.worldPosition.y_) := by
  refine ⟨GetRawHeight_unbuilt t hData, ?_, ?_⟩
  · intro h w
    unfold GetHeight
    rw [h]
  · intro node h _ _ _ _ _ w
    unfold GetHeight
    rw [h]
    simp only [GetRawHeight_unbuilt t hData]
    simp

/-- A fresh terrain: raw height 0, height 0 without node and on a node at the origin,
height 20 on a node at world height 20. -/
theorem GetHeight_unbuilt_witness :
    (construct exampleDefaults).heightData_ = none ∧
    GetRawHeight (construct exampleDefaults) 7 4294967295 = 0 ∧
    GetHeight detachedEnv (construct exampleDefaults) ⟨3, 4, 5⟩ = 0 ∧
    GetHeight attachedEnv (construct exampleDefaults) ⟨3, 4, 5⟩ = 0 ∧
    GetHeight uprightEnv (construct exampleDefaults) ⟨3, 4, 5⟩ = 20 := by
  have h := GetHeight_unbuilt
  exact ⟨rfl, (h detachedEnv _ rfl).1 7 4294967295, (h detachedEnv _ rfl).2.1 rfl ⟨3, 4, 5⟩,
    (h attachedEnv _ rfl).2.2 identityNode rfl (by decide) (by decide) (by decide)
      (by decide) (by decide) ⟨3, 4, 5⟩,
    (h uprightEnv _ rfl).2.2 uprightNode rfl (by decide) (by decide) (by decide)
      (by decide) (by decide) ⟨3, 4, 5⟩⟩

/-! ## C20: the LOD-level count -/

/-- The bounds of the LOD loop, by induction on the number of levels still allowed. -/
theorem lodLevelLoop_bounds_aux (k : Nat) : ∀ (lodSize n : Nat), n ≤ 4 → 4 - n = k →
    n ≤ lodLevelLoop lodSize n ∧ lodLevelLoop lodSize n ≤ 4 := by
  induction k with
  | zero =>
    intro lodSize n hn h
    have : n = 4 := by omega
    subst this
    rw [lodLevelLoop]
    simp [MAX_LOD_LEVELS]
  | succ k ih =>
    intro lodSize n hn h
    rw [lodLevelLoop]
    split_ifs with hc
    · obtain ⟨h1, h2⟩ := ih (lodSize >>> 1) (n + 1) (by omega) (by omega)
      exact ⟨by omega, h2⟩
    · exact ⟨le_refl _, hn⟩

/-- The LOD loop never counts below its start nor above `MAX_LOD_LEVELS` when started at or
below it. -/
theorem lodLevelLoop_bounds (lodSize n : Nat) (hn : n ≤ 4) :
    n ≤ lodLevelLoop lodSize n ∧ lodLevelLoop lodSize n ≤ 4 :=
  lodLevelLoop_bounds_aux (4 - n) lodSize n hn rfl

/-- The LOD loop on the six legal patch sizes. -/
theorem lodLevelLoop_table :
    lodLevelLoop 4 1 = 1 ∧ lodLevelLoop 8 1 = 2 ∧ lodLevelLoop 16 1 = 3 ∧
    lodLevelLoop 32 1 = 4 ∧ lodLevelLoop 64 1 = 4 ∧ lodLevelLoop 128 1 = 4 := by
  refine ⟨?_, ?_, ?_, ?_, ?_, ?_⟩ <;>
    (rw [lodLevelLoop, lodLevelLoop, lodLevelLoop, lodLevelLoop]
     simp [MIN_PATCH_SIZE, MAX_LOD_LEVELS])

/-- The binary logarithms of the six legal patch sizes. -/
theorem log_table :
    Nat.log 2 4 = 2 ∧ Nat.log 2 8 = 3 ∧ Nat.log 2 16 = 4 ∧ Nat.log 2 32 = 5 ∧
    Nat.log 2 64 = 6 ∧ Nat.log 2 128 = 7 := by
  refine ⟨?_, ?_, ?_, ?_, ?_, ?_⟩ <;> (rw [Nat.log_eq_iff] <;> norm_num)

/-- The closed form of the LOD loop on the legal patch sizes. -/
theorem lodLevelLoop_formula (p : Nat) (hp : p ∈ [4, 8, 16, 32, 64, 128]) :
    lodLevelLoop p 1 = min 4 (Nat.log 2 p - 1) := by
  obtain ⟨a1, a2, a3, a4, a5, a6⟩ := lodLevelLoop_table
  obtain ⟨b1, b2, b3, b4, b5, b6⟩ := log_table
  simp only [List.mem_cons, List.mem_singleton, List.not_mem_nil, or_false] at hp
  rcases hp with h | h | h | h | h | h <;> subst h
  · rw [a1, b1]; rfl
  · rw [a2, b2]; rfl
  · rw [a3, b3]; rfl
  · rw [a4, b4]; rfl
  · rw [a5, b5]; rfl
  · rw [a6, b6]; rfl

/-- The count of the halving sequence on the six legal patch sizes. -/
theorem halvingLevelCount_table :
    halvingLevelCount 4 = 1 ∧ halvingLevelCount 8 = 2 ∧ halvingLevelCount 16 = 3 ∧
    halvingLevelCount 32 = 4 ∧ halvingLevelCount 64 = 4 ∧ halvingLevelCount 128 = 4 := by
  decide

/-- On the legal patch sizes the loop counts the halving sequence. -/
theorem lodLevelLoop_halving (p : Nat) (hp : p ∈ [4, 8, 16, 32, 64, 128]) :
    lodLevelLoop p 1 = halvingLevelCount p := by
  obtain ⟨a1, a2, a3, a4, a5, a6⟩ := lodLevelLoop_table
  obtain ⟨b1, b2, b3, b4, b5, b6⟩ := halvingLevelCount_table
  simp only [List.mem_cons, List.mem_singleton, List.not_mem_nil, or_false] at hp
  rcases hp with h | h | h | h | h | h <;> subst h
  · rw [a1, b1]
  · rw [a2, b2]
  · rw [a3, b3]
  · rw [a4, b4]
  · rw [a5, b5]
  · rw [a6, b6]

/-- Every call keeps the LOD-level count equal to the loop result for the current patch
size: only an accepted `SetPatchSize` writes either field, and it writes both. -/
theorem Op.run_lod_coupled (env : Env) (t : Terrain) (op : Op)
    (h : t.numLodLevels_ = lodLevelLoop t.patchSize_ 1) :
    (op.run env t).numLodLevels_ = lodLevelLoop (op.run env t).patchSize_ 1 := by
  cases op with
  | setPatchSize size =>
    show (SetPatchSize env t size).numLodLevels_ = lodLevelLoop (SetPatchSize env t size).patchSize_ 1
    by_cases hacc : clampPatchSize size ≠ t.patchSize_ ∧ IsPowerOfTwo (clampPatchSize size) = true
    · rw [SetPatchSize_accept env t size hacc.1 hacc.2, (CreateGeometry_frame _ _).1,
        (CreateGeometry_frame _ _).2.1]
    · have hrej : SetPatchSize env t size = t := by
        unfold SetPatchSize
        simp only
        rw [if_neg hacc]
      rw [hrej]
      exact h
  | setSpacing spacing =>
    show (SetSpacing env t spacing).numLodLevels_ = lodLevelLoop (SetSpacing env t spacing).patchSize_ 1
    unfold SetSpacing
    split_ifs
    · rw [(CreateGeometry_frame _ _).1, (CreateGeometry_frame _ _).2.1]; exact h
    · exact h
  | setHeightMap image =>
    show (SetHeightMap env t image).2.numLodLevels_ =
      lodLevelLoop (SetHeightMap env t image).2.patchSize_ 1
    unfold SetHeightMap
    split
    · exact h
    · split_ifs
      · exact h
      · show (CreateGeometry _ _).numLodLevels_ = lodLevelLoop (CreateGeometry _ _).patchSize_ 1
        rw [(CreateGeometry_frame _ _).1, (CreateGeometry_frame _ _).2.1]; exact h
  | reloadFinished reloaded =>
    show (HandleHeightMapReloadFinished env t reloaded).numLodLevels_ =
      lodLevelLoop (HandleHeightMapReloadFinished env t reloaded).patchSize_ 1
    unfold HandleHeightMapReloadFinished
    split
    · rw [(CreateGeometry_frame _ _).1, (CreateGeometry_frame _ _).2.1]; exact h
    · exact h
  | _ => exact h

/-- In every reachable state the LOD-level count is the loop result for the patch size. -/
theorem lod_coupled_of_reachable (d : DrawableDefaults) (t : Terrain) (h : Reachable d t) :
    t.numLodLevels_ = lodLevelLoop t.patchSize_ 1 := by
  induction h with
  | construct => exact lodLevelLoop_table.2.2.1.symm
  | run env t op _ _ ih => exact Op.run_lod_coupled env t op ih

/-- C20: in every reachable state, the freshly constructed one (patch size 16, 3 levels)
included, and after every accepted `SetPatchSize`, the LOD-level count is the result of the
halving loop for the current patch size, which is the number of sizes in the halving
sequence down to `MIN_PATCH_SIZE = 4` capped at `MAX_LOD_LEVELS = 4`, that is
`min(4, log2(patchSize_) - 1)`: 1, 2, 3, 4, 4, 4 for the sizes 4, 8, 16, 32, 64, 128. The
loop, a total function, returns for every input a count between 1 and 4. -/
theorem Reachable_numLodLevels (d : DrawableDefaults) (t : Terrain) (h : Reachable d t) :
    t.numLodLevels_ = lodLevelLoop t.patchSize_ 1 ∧
    t.numLodLevels_ = halvingLevelCount t.patchSize_ ∧
    t.numLodLevels_ = min 4 (Nat.log 2 t.patchSize_ - 1) ∧
    1 ≤ t.numLodLevels_ ∧ t.numLodLevels_ ≤ 4 ∧
    ((construct d).patchSize_ = 16 ∧ (construct d).numLodLevels_ = 3) ∧
    (lodLevelLoop 4 1 = 1 ∧ lodLevelLoop 8 1 = 2 ∧ lodLevelLoop 16 1 = 3 ∧
      lodLevelLoop 32 1 = 4 ∧ lodLevelLoop 64 1 = 4 ∧ lodLevelLoop 128 1 = 4) ∧
    (∀ lodSize : Nat, 1 ≤ lodLevelLoop lodSize 1 ∧ lodLevelLoop lodSize 1 ≤ 4) ∧
    (∀ (env : Env) (t2 : Terrain) (size : Nat), clampPatchSize size ≠ t2.patchSize_ →
      IsPowerOfTwo (clampPatchSize size) = true →
      (SetPatchSize env t2 size).patchSize_ = clampPatchSize size ∧
      (SetPatchSize env t2 size).numLodLevels_ = lodLevelLoop (clampPatchSize size) 1 ∧
      (SetPatchSize env t2 size).numLodLevels_ = halvingLevelCount (clampPatchSize size) ∧
      (SetPatchSize env t2 size).numLodLevels_ =
        min 4 (Nat.log 2 (clampPatchSize size) - 1)) := by
  have hc := lod_coupled_of_reachable d t h
  have hm := patchSize_mem_of_reachable d t h
  refine ⟨hc, ?_, ?_, ?_, ?_, ⟨rfl, rfl⟩, lodLevelLoop_table, ?_, ?_⟩
  · rw [hc]; exact lodLevelLoop_halving _ hm
  · rw [hc]; exact lodLevelLoop_formula _ hm
  · rw [hc]; exact (lodLevelLoop_bounds _ 1 (by decide)).1
  · rw [hc]; exact (lodLevelLoop_bounds _ 1 (by decide)).2
  · intro lodSize
    exact lodLevelLoop_bounds lodSize 1 (by decide)
  · intro env t2 size h1 h2
    have hmem : clampPatchSize size ∈ [4, 8, 16, 32, 64, 128] := by
      obtain ⟨ha, hb⟩ := clampPatchSize_mem size
      exact IsPowerOfTwo_mem _ ha hb h2
    rw [SetPatchSize_accept env t2 size h1 h2, (CreateGeometry_frame _ _).1,
      (CreateGeometry_frame _ _).2.1]
    exact ⟨rfl, rfl, lodLevelLoop_halving _ hmem, lodLevelLoop_formula _ hmem⟩

/-- After the run `staleRun`, which ends with an accepted `SetPatchSize(8)`, there are 2
LOD levels. -/
theorem Reachable_numLodLevels_witness :
    Reachable exampleDefaults staleRun ∧ staleRun.patchSize_ = 8 ∧ staleRun.numLodLevels_ = 2 :=
  ⟨staleRun_reachable, by decide,
    (Reachable_numLodLevels exampleDefaults staleRun staleRun_reachable).2.2.1.trans (by
      show min 4 (Nat.log 2 staleRun.patchSize_ - 1) = 2
      have : staleRun.patchSize_ = 8 := by decide
      rw [this, log_table.2.1]
      rfl)⟩

/-! ## Lemmas about the rebuilt state, normals, vertices and the mesh -/

/-- When it runs, `CreateGeometry` is `prepareGeometry` followed by the placement and the
vertex update of every patch and the event. -/
theorem CreateGeometry_prepared (env : Env) (t : Terrain) (img : Image) (node : Node)
    (hImg : t.heightMap_ = some img) (hNode : env.node_ = some node)
    (hOct : env.octree = true) :
    CreateGeometry env t =
      { prepareGeometry env t img with
        patches_ := (prepareGeometry env t img).patches_.map
          (UpdatePatchGeometry env (prepareGeometry env t img))
        patchNodes_ := (prepareGeometry env t img).patches_.map
          (SetPatchTransform node (prepareGeometry env t img).patchWorldOrigin_
            (prepareGeometry env t img).patchWorldSize_)
        createdEvents := (prepareGeometry env t img).createdEvents + 1 } := by
  unfold CreateGeometry
  rw [hImg, hNode, hOct]

/-- `GetRawHeight` depends on its arguments only through their clamped values. -/
theorem GetRawHeight_clamp_congr (t : Terrain) (x x2 z z2 : Nat)
    (hx : Clamp (toInt x) 0 (t.size_.x_ - 1) = Clamp (toInt x2) 0 (t.size_.x_ - 1))
    (hz : Clamp (toInt z) 0 (t.size_.y_ - 1) = Clamp (toInt z2) 0 (t.size_.y_ - 1)) :
    GetRawHeight t x z = GetRawHeight t x2 z2 := by
  unfold GetRawHeight rawHeightIndex
  rw [hx, hz]

/-- The neighbour coordinate `x - 1` in `unsigned` arithmetic, clamped: the coordinate
before `x`, or `x` itself at the edge 0. -/
theorem Clamp_pred_wrap (x : Nat) (m : Int) (hm : 0 ≤ m) (hx : (x : Int) ≤ m)
    (hm2 : m < 2147483648) :
    Clamp (toInt ((x + 4294967295) % 4294967296)) 0 m = Clamp (toInt (x - 1)) 0 m := by
  rcases Nat.eq_zero_or_pos x with h | h
  · subst h
    have e1 : toInt ((0 + 4294967295) % 4294967296) = -1 := by decide
    have e2 : toInt (0 - 1) = 0 := by decide
    rw [e1, e2]
    unfold Clamp
    split_ifs <;> omega
  · have : (x + 4294967295) % 4294967296 = x - 1 := by omega
    rw [this]

/-- The neighbour coordinate `x + 1`, clamped: the coordinate after `x`, or `x` itself at
the last coordinate `m`. -/
theorem Clamp_succ_edge (x : Nat) (m : Int) (hm : 0 ≤ m) (hx : (x : Int) ≤ m)
    (hm2 : m + 1 < 2147483648) :
    Clamp (toInt ((x + 1) % 4294967296)) 0 m = Clamp (toInt (min (x + 1) m.toNat)) 0 m := by
  have e1 : (x + 1) % 4294967296 = x + 1 := Nat.mod_eq_of_lt (by omega)
  rw [e1, toInt_of_lt _ (by omega), toInt_of_lt _ (by omega)]
  unfold Clamp
  split_ifs <;> omega

/-- The neighbour sum of `GetNormal`, component by component. -/
theorem normalSum_eq (t : Terrain) (x z : Nat) :
    normalSum t x z =
      ⟨-(GetRawHeight t ((x + 1) % 4294967296) ((z + 4294967295) % 4294967296)
            - GetRawHeight t x z)
        - (GetRawHeight t ((x + 1) % 4294967296) z - GetRawHeight t x z)
        - (GetRawHeight t ((x + 1) % 4294967296) ((z + 1) % 4294967296) - GetRawHeight t x z)
        + (GetRawHeight t ((x + 4294967295) % 4294967296) ((z + 1) % 4294967296)
            - GetRawHeight t x z)
        + (GetRawHeight t ((x + 4294967295) % 4294967296) z - GetRawHeight t x z)
        + (GetRawHeight t ((x + 4294967295) % 4294967296) ((z + 4294967295) % 4294967296)
            - GetRawHeight t x z),
       8,
       (GetRawHeight t x ((z + 4294967295) % 4294967296) - GetRawHeight t x z)
        + (GetRawHeight t ((x + 1) % 4294967296) ((z + 4294967295) % 4294967296)
            - GetRawHeight t x z)
        - (GetRawHeight t ((x + 1) % 4294967296) ((z + 1) % 4294967296) - GetRawHeight t x z)
        - (GetRawHeight t x ((z + 1) % 4294967296) - GetRawHeight t x z)
        - (GetRawHeight t ((x + 4294967295) % 4294967296) ((z + 1) % 4294967296)
            - GetRawHeight t x z)
        + (GetRawHeight t ((x + 4294967295) % 4294967296) ((z + 4294967295) % 4294967296)
            - GetRawHeight t x z)⟩ := by
  unfold normalSum Vector3.add
  simp only [Vector3.mk.injEq]
  refine ⟨?_, ?_, ?_⟩ <;> ring

/-- The squared length of the neighbour sum is at least 64: its `y` component is 8. -/
theorem normalSum_length (t : Terrain) (x z : Nat) :
    (normalSum t x z).y_ = 8 ∧ 64 ≤ (normalSum t x z).DotProduct (normalSum t x z) := by
  have hy : (normalSum t x z).y_ = 8 := by
    rw [normalSum_eq]
  refine ⟨hy, ?_⟩
  unfold Vector3.DotProduct
  rw [hy]
  nlinarith [mul_self_nonneg (normalSum t x z).x_, mul_self_nonneg (normalSum t x z).z_]

/-- The patch and the patch node found at the list index of a grid coordinate after a
rebuild that ran. -/
theorem CreateGeometry_patch_at (env : Env) (t : Terrain) (img : Image) (node : Node)
    (hImg : t.heightMap_ = some img) (hNode : env.node_ = some node)
    (hOct : env.octree = true) (x z : Nat)
    (hx : x < (CreateGeometry env t).patchesX_) (hz : z < (CreateGeometry env t).patchesZ_) :
    (CreateGeometry env t).patches_[z * (CreateGeometry env t).patchesX_ + x]?
      = some (UpdatePatchGeometry env (prepareGeometry env t img) (newPatch t x z)) ∧
    (CreateGeometry env t).patchNodes_[z * (CreateGeometry env t).patchesX_ + x]?
      = some (SetPatchTransform node (CreateGeometry env t).patchWorldOrigin_
          (CreateGeometry env t).patchWorldSize_ (newPatch t x z)) := by
  rw [CreateGeometry_eq env t img node hImg hNode hOct] at hx hz ⊢
  simp only at hx hz ⊢
  rw [createPatches_eq, List.map_map, List.map_map]
  exact ⟨grid_getElem_opt _ _
      (fun x z => UpdatePatchGeometry env (prepareGeometry env t img) (newPatch t x z))
      x z hx hz,
    grid_getElem_opt _ _ (fun x z => SetPatchTransform node _ _ (newPatch t x z)) x z hx hz⟩

/-- The patch world size and origin computed by a rebuild that ran, in terms of the
fields of the resulting state. -/
theorem CreateGeometry_origin (env : Env) (t : Terrain) (img : Image) (node : Node)
    (hImg : t.heightMap_ = some img) (hNode : env.node_ = some node)
    (hOct : env.octree = true) :
    (CreateGeometry env t).patchWorldSize_
      = ⟨(CreateGeometry env t).spacing_.x_ * ((CreateGeometry env t).patchSize_ : ℚ),
         (CreateGeometry env t).spacing_.z_ * ((CreateGeometry env t).patchSize_ : ℚ)⟩ ∧
    (CreateGeometry env t).patchWorldOrigin_
      = ⟨-(1 / 2) * ((CreateGeometry env t).patchesX_ : ℚ)
            * ((CreateGeometry env t).spacing_.x_ * ((CreateGeometry env t).patchSize_ : ℚ)),
         -(1 / 2) * ((CreateGeometry env t).patchesZ_ : ℚ)
            * ((CreateGeometry env t).spacing_.z_ * ((CreateGeometry env t).patchSize_ : ℚ))⟩ := by
  rw [CreateGeometry_eq env t img node hImg hNode hOct]
  exact ⟨rfl, rfl⟩

/-- The vertex loop as one pass over the vertex numbers: vertex number `i` is the vertex
`(i % (p + 1), i / (p + 1))`. -/
theorem patchVertices_eq (t : Terrain) (patch : TerrainPatch) :
    patchVertices t patch
      = (List.range ((t.patchSize_ + 1) * (t.patchSize_ + 1))).map
          (fun i => patchVertex t patch (i % (t.patchSize_ + 1)) (i / (t.patchSize_ + 1))) :=
  map_range_grid (t.patchSize_ + 1) (t.patchSize_ + 1) (fun x1 z1 => patchVertex t patch x1 z1)

/-- The vertex `(x1, z1)` of a patch is stored as vertex number `z1 * (p + 1) + x1`. -/
theorem patchVertices_getElem (t : Terrain) (patch : TerrainPatch) (x1 z1 : Nat)
    (hx : x1 ≤ t.patchSize_) (hz : z1 ≤ t.patchSize_) :
    (patchVertices t patch)[z1 * (t.patchSize_ + 1) + x1]?
      = some (patchVertex t patch x1 z1) := by
  rw [patchVertices_eq]
  exact grid_getElem_opt _ _ (fun x1 z1 => patchVertex t patch x1 z1) x1 z1
    (by omega) (by omega)

/-- A patch has `(p + 1) * (p + 1)` vertices. -/
theorem patchVertices_length (t : Terrain) (patch : TerrainPatch) :
    (patchVertices t patch).length = (t.patchSize_ + 1) * (t.patchSize_ + 1) := by
  rw [patchVertices_eq, List.length_map, List.length_range]

/-- What `UpdatePatchGeometry` leaves when the lock of the vertex buffer succeeds. -/
theorem UpdatePatchGeometry_locked (env : Env) (t : Terrain) (patch : TerrainPatch)
    (hLock : env.vertexLock patch.x_ patch.z_ = true) :
    (UpdatePatchGeometry env t patch).vertexData = some (patchVertices t patch) ∧
    (UpdatePatchGeometry env t patch).cpuVertexData_
      = some ((patchVertices t patch).map (fun v => v.position)) := by
  unfold UpdatePatchGeometry
  simp only
  rw [if_pos hLock]
  exact ⟨rfl, rfl⟩

/-- The vertex count of a patch after `UpdatePatchGeometry`, and the length of its vertex
data when there is any, for a new patch. -/
theorem UpdatePatchGeometry_vertexCount (env : Env) (t : Terrain) (x z : Nat)
    (hp : t.patchSize_ ≤ 255) :
    (UpdatePatchGeometry env t (newPatch t x z)).vertexCount
      = (t.patchSize_ + 1) * (t.patchSize_ + 1) ∧
    ∀ vs, (UpdatePatchGeometry env t (newPatch t x z)).vertexData = some vs →
      vs.length = (t.patchSize_ + 1) * (t.patchSize_ + 1) := by
  have h1 : (t.patchSize_ + 1) % 4294967296 = t.patchSize_ + 1 := Nat.mod_eq_of_lt (by omega)
  have h2 : (t.patchSize_ + 1) * (t.patchSize_ + 1) ≤ 256 * 256 := Nat.mul_le_mul (by omega) (by omega)
  have h3 : (t.patchSize_ + 1) * (t.patchSize_ + 1) % 4294967296
      = (t.patchSize_ + 1) * (t.patchSize_ + 1) := Nat.mod_eq_of_lt (by omega)
  have h4 : (newPatch t x z).vertexCount ≠ (t.patchSize_ + 1) * (t.patchSize_ + 1) := by
    show (0 : Nat) ≠ _
    have : 0 < (t.patchSize_ + 1) * (t.patchSize_ + 1) := Nat.mul_pos (by omega) (by omega)
    omega
  unfold UpdatePatchGeometry
  simp only
  rw [h1, h3, if_pos h4]
  by_cases hLock : env.vertexLock (newPatch t x z).x_ (newPatch t x z).z_ = true
  · rw [if_pos hLock]
    refine ⟨rfl, ?_⟩
    intro vs hvs
    have : patchVertices t (newPatch t x z) = vs := Option.some.inj hvs
    rw [← this]
    exact patchVertices_length t _
  · rw [if_neg hLock]
    refine ⟨rfl, ?_⟩
    intro vs hvs
    exact Option.noConfusion hvs

/-- Membership in the shared index data: an entry is one of the six indices of a quad. -/
theorem mem_createIndexData (p i : Nat) (h : i ∈ createIndexData p) :
    ∃ x z, x < p ∧ z < p ∧ i ∈ quadIndices ((p + 1) % 4294967296) x z := by
  unfold createIndexData at h
  rw [List.mem_flatMap] at h
  obtain ⟨z, hz, h⟩ := h
  rw [List.mem_flatMap] at h
  obtain ⟨x, hx, h⟩ := h
  exact ⟨x, z, List.mem_range.mp hx, List.mem_range.mp hz, h⟩

/-- The six indices of a quad are vertex numbers of the patch. -/
theorem quadIndices_lt (p x z i : Nat) (hp : p ≤ 255) (hx : x < p) (hz : z < p)
    (h : i ∈ quadIndices ((p + 1) % 4294967296) x z) : i < (p + 1) * (p + 1) := by
  rw [quadIndices_eq p x z hp hx hz] at h
  have h1 : (z + 1) * (p + 1) + (p + 1) ≤ (p + 1) * (p + 1) := by
    calc (z + 1) * (p + 1) + (p + 1) = (z + 2) * (p + 1) := by ring
      _ ≤ (p + 1) * (p + 1) := Nat.mul_le_mul_right _ (by omega)
  have h2 : z * (p + 1) ≤ (z + 1) * (p + 1) := Nat.mul_le_mul_right _ (by omega)
  simp only [List.mem_cons, List.mem_singleton, List.not_mem_nil, or_false] at h
  rcases h with h | h | h | h | h | h <;> omega

/-- The neighbour sum on a field without height data. -/
theorem normalSum_unbuilt (t : Terrain) (h : t.heightData_ = none) (x z : Nat) :
    normalSum t x z = ⟨0, 8, 0⟩ := by
  rw [normalSum_eq]
  simp only [GetRawHeight_unbuilt t h]
  norm_num

/-- The neighbour sum on a plane `h(x, z) = a * x + b * z + c` around a coordinate whose
neighbours do not wrap. -/
theorem normalSum_planar (t : Terrain) (x z : Nat) (a b c : ℚ)
    (hx : 1 ≤ x) (hz : 1 ≤ z) (hx2 : x + 1 < 4294967296) (hz2 : z + 1 < 4294967296)
    (hplane : ∀ dx dz : Nat, dx ≤ 2 → dz ≤ 2 →
      GetRawHeight t (x - 1 + dx) (z - 1 + dz)
        = a * ((x - 1 + dx : Nat) : ℚ) + b * ((z - 1 + dz : Nat) : ℚ) + c) :
    normalSum t x z = ⟨-6 * a, 8, -6 * b⟩ := by
  have e1 : (x + 1) % 4294967296 = x - 1 + 2 := by omega
  have e2 : (x + 4294967295) % 4294967296 = x - 1 + 0 := by omega
  have e3 : (z + 1) % 4294967296 = z - 1 + 2 := by omega
  have e4 : (z + 4294967295) % 4294967296 = z - 1 + 0 := by omega
  have e5 : ∀ u w : Nat, GetRawHeight t x w = GetRawHeight t (x - 1 + 1) w ∧
      GetRawHeight t u z = GetRawHeight t u (z - 1 + 1) := by
    intro u w
    rw [Nat.sub_add_cancel hx, Nat.sub_add_cancel hz]
    exact ⟨rfl, rfl⟩
  have c1 : ((x - 1 + 0 : Nat) : ℚ) = (x : ℚ) - 1 := by
    rw [Nat.add_zero, Nat.cast_sub hx, Nat.cast_one]
  have c2 : ((x - 1 + 1 : Nat) : ℚ) = (x : ℚ) := by rw [Nat.sub_add_cancel hx]
  have c3 : ((x - 1 + 2 : Nat) : ℚ) = (x : ℚ) + 1 := by
    rw [Nat.cast_add, Nat.cast_sub hx]; push_cast; ring
  have d1 : ((z - 1 + 0 : Nat) : ℚ) = (z : ℚ) - 1 := by
    rw [Nat.add_zero, Nat.cast_sub hz, Nat.cast_one]
  have d2 : ((z - 1 + 1 : Nat) : ℚ) = (z : ℚ) := by rw [Nat.sub_add_cancel hz]
  have d3 : ((z - 1 + 2 : Nat) : ℚ) = (z : ℚ) + 1 := by
    rw [Nat.cast_add, Nat.cast_sub hz]; push_cast; ring
  rw [normalSum_eq, e1, e2, e3, e4]
  have h11 : GetRawHeight t x z = a * (x : ℚ) + b * (z : ℚ) + c := by
    have := hplane 1 1 (by omega) (by omega)
    rw [c2, d2, Nat.sub_add_cancel hx, Nat.sub_add_cancel hz] at this
    exact this
  have h1z : ∀ dx : Nat, dx ≤ 2 → GetRawHeight t (x - 1 + dx) z
      = a * ((x - 1 + dx : Nat) : ℚ) + b * (z : ℚ) + c := by
    intro dx hdx
    have := hplane dx 1 hdx (by omega)
    rw [d2, Nat.sub_add_cancel hz] at this
    exact this
  have hx1 : ∀ dz : Nat, dz ≤ 2 → GetRawHeight t x (z - 1 + dz)
      = a * (x : ℚ) + b * ((z - 1 + dz : Nat) : ℚ) + c := by
    intro dz hdz
    have := hplane 1 dz (by omega) hdz
    rw [c2, Nat.sub_add_cancel hx] at this
    exact this
  rw [h11, h1z 2 (by omega), h1z 0 (by omega), hx1 2 (by omega), hx1 0 (by omega),
    hplane 0 0 (by omega) (by omega), hplane 0 2 (by omega) (by omega),
    hplane 2 0 (by omega) (by omega), hplane 2 2 (by omega) (by omega), c1, c3, d1, d3]
  simp only [Vector3.mk.injEq]
  refine ⟨?_, trivial, ?_⟩ <;> ring

/-- The raw heights read while the vertices are written are those of the rebuilt state. -/
theorem GetRawHeight_prepared (env : Env) (t : Terrain) (img : Image) (node : Node)
    (hImg : t.heightMap_ = some img) (hNode : env.node_ = some node)
    (hOct : env.octree = true) (x z : Nat) :
    GetRawHeight (prepareGeometry env t img) x z = GetRawHeight (CreateGeometry env t) x z := by
  rw [CreateGeometry_prepared env t img node hImg hNode hOct]
  rfl

/-- The normals computed while the vertices are written are those of the rebuilt state. -/
theorem GetNormal_prepared (env : Env) (t : Terrain) (img : Image) (node : Node)
    (hImg : t.heightMap_ = some img) (hNode : env.node_ = some node)
    (hOct : env.octree = true) (x z : Nat) :
    GetNormal (prepareGeometry env t img) x z = GetNormal (CreateGeometry env t) x z := by
  rw [CreateGeometry_prepared env t img node hImg hNode hOct]
  rfl

/-- The patch counts and the size after a rebuild from a well-formed image, as natural
numbers. -/
theorem CreateGeometry_counts (env : Env) (t : Terrain) (img : Image) (node : Node)
    (hImg : t.heightMap_ = some img) (hNode : env.node_ = some node)
    (hOct : env.octree = true) (hwf : img.WF) :
    (CreateGeometry env t).patchSize_ = t.patchSize_ ∧
    (CreateGeometry env t).size_.x_
      = (((CreateGeometry env t).patchesX_ * t.patchSize_ + 1 : Nat) : Int) ∧
    (CreateGeometry env t).size_.y_
      = (((CreateGeometry env t).patchesZ_ * t.patchSize_ + 1 : Nat) : Int) ∧
    (CreateGeometry env t).patchesX_ * t.patchSize_ + 1 < 2147483648 ∧
    (CreateGeometry env t).patchesZ_ * t.patchSize_ + 1 < 2147483648 := by
  have hs := CreateGeometry_size env t img node hImg hNode hOct hwf
  obtain ⟨hW, hH, hc, hlt, -, -⟩ := hwf
  have hWH : img.width * img.height < 2147483648 := by
    have hc' : (1 : Int) ≤ (img.components : Int) := by exact_mod_cast hc
    nlinarith [mul_pos (by omega : (0 : Int) < img.width) (by omega : (0 : Int) < img.height)]
  have hW2 : img.width < 2147483648 := by nlinarith
  have hH2 : img.height < 2147483648 := by nlinarith
  have hx : (CreateGeometry env t).patchesX_ = (img.width.toNat - 1) / t.patchSize_ := by
    rw [CreateGeometry_eq env t img node hImg hNode hOct, toUnsigned_pred _ hW hW2]
  have hz : (CreateGeometry env t).patchesZ_ = (img.height.toNat - 1) / t.patchSize_ := by
    rw [CreateGeometry_eq env t img node hImg hNode hOct, toUnsigned_pred _ hH hH2]
  have h1 := div_mul_succ_le img.width.toNat t.patchSize_ (by omega)
  have h2 := div_mul_succ_le img.height.toNat t.patchSize_ (by omega)
  rw [hs, hx, hz]
  exact ⟨(CreateGeometry_frame env t).1, rfl, rfl, by omega, by omega⟩

/-- The field coordinate of a patch vertex stays inside the field. -/
theorem fieldCoord_lt (px n p x1 : Nat) (hpx : px < n) (hx1 : x1 ≤ p) :
    px * p + x1 < n * p + 1 := by
  have : (px + 1) * p ≤ n * p := Nat.mul_le_mul_right _ hpx
  have e : (px + 1) * p = px * p + p := by ring
  omega

/-- The vertex `(x1, z1)` that a rebuild writes for the patch `(px, pz)`, in terms of the
rebuilt state. -/
theorem patchVertex_prepared (env : Env) (t : Terrain) (img : Image) (node : Node)
    (hImg : t.heightMap_ = some img) (hNode : env.node_ = some node)
    (hOct : env.octree = true) (hwf : img.WF) (px pz x1 z1 : Nat)
    (hpx : px < (CreateGeometry env t).patchesX_) (hpz : pz < (CreateGeometry env t).patchesZ_)
    (hx1 : x1 ≤ t.patchSize_) (hz1 : z1 ≤ t.patchSize_) :
    patchVertex (prepareGeometry env t img) (newPatch t px pz) x1 z1 =
      { position :=
          ⟨(x1 : ℚ) * (CreateGeometry env t).spacing_.x_,
           GetRawHeight (CreateGeometry env t) (px * t.patchSize_ + x1) (pz * t.patchSize_ + z1),
           (z1 : ℚ) * (CreateGeometry env t).spacing_.z_⟩
        normal := GetNormal (CreateGeometry env t) (px * t.patchSize_ + x1)
          (pz * t.patchSize_ + z1)
        texCoord :=
          ⟨((px * t.patchSize_ + x1 : Nat) : ℚ) / ((CreateGeometry env t).size_.x_ : ℚ),
           1 - ((pz * t.patchSize_ + z1 : Nat) : ℚ) / ((CreateGeometry env t).size_.y_ : ℚ)⟩
        tangent := (Vector3.RIGHT.sub
          ((GetNormal (CreateGeometry env t) (px * t.patchSize_ + x1)
              (pz * t.patchSize_ + z1)).scaledByDotProduct Vector3.RIGHT)).Normalized
        tangentW := 1 } := by
  obtain ⟨-, -, -, hbx, hbz⟩ := CreateGeometry_counts env t img node hImg hNode hOct hwf
  have hX := fieldCoord_lt px _ t.patchSize_ x1 hpx hx1
  have hZ := fieldCoord_lt pz _ t.patchSize_ z1 hpz hz1
  have ex : toUnsigned (toInt ((px * t.patchSize_ + x1) % 4294967296)) = px * t.patchSize_ + x1 := by
    rw [Nat.mod_eq_of_lt (by omega), toInt_of_lt _ (by omega), toUnsigned_natCast _ (by omega)]
  have ez : toUnsigned (toInt ((pz * t.patchSize_ + z1) % 4294967296)) = pz * t.patchSize_ + z1 := by
    rw [Nat.mod_eq_of_lt (by omega), toInt_of_lt _ (by omega), toUnsigned_natCast _ (by omega)]
  have ix : toInt ((px * t.patchSize_ + x1) % 4294967296) = ((px * t.patchSize_ + x1 : Nat) : Int) := by
    rw [Nat.mod_eq_of_lt (by omega), toInt_of_lt _ (by omega)]
  have iz : toInt ((pz * t.patchSize_ + z1) % 4294967296) = ((pz * t.patchSize_ + z1 : Nat) : Int) := by
    rw [Nat.mod_eq_of_lt (by omega), toInt_of_lt _ (by omega)]
  have hps : (prepareGeometry env t img).patchSize_ = t.patchSize_ := rfl
  have hsp : (prepareGeometry env t img).spacing_ = (CreateGeometry env t).spacing_ := by
    rw [CreateGeometry_prepared env t img node hImg hNode hOct]
  have hsz : (prepareGeometry env t img).size_ = (CreateGeometry env t).size_ := by
    rw [CreateGeometry_prepared env t img node hImg hNode hOct]
  unfold patchVertex
  simp only
  have hnx : (newPatch t px pz).x_ = px := rfl
  have hnz : (newPatch t px pz).z_ = pz := rfl
  rw [hnx, hnz, hps, ex, ez, ix, iz, hsp, hsz,
    GetRawHeight_prepared env t img node hImg hNode hOct,
    GetNormal_prepared env t img node hImg hNode hOct]
  simp only [Int.cast_natCast]

/-- The vertex found in the vertex buffer of a rebuilt patch whose lock succeeded. -/
theorem CreateGeometry_patchVertexAt (env : Env) (t : Terrain) (img : Image) (node : Node)
    (hImg : t.heightMap_ = some img) (hNode : env.node_ = some node)
    (hOct : env.octree = true) (px pz x1 z1 : Nat)
    (hpx : px < (CreateGeometry env t).patchesX_) (hpz : pz < (CreateGeometry env t).patchesZ_)
    (hx1 : x1 ≤ t.patchSize_) (hz1 : z1 ≤ t.patchSize_)
    (hLock : env.vertexLock px pz = true) :
    patchVertexAt (CreateGeometry env t) (pz * (CreateGeometry env t).patchesX_ + px)
        (z1 * (t.patchSize_ + 1) + x1)
      = some (patchVertex (prepareGeometry env t img) (newPatch t px pz) x1 z1) := by
  obtain ⟨h1, -⟩ := CreateGeometry_patch_at env t img node hImg hNode hOct px pz hpx hpz
  obtain ⟨h2, -⟩ := UpdatePatchGeometry_locked env (prepareGeometry env t img)
    (newPatch t px pz) hLock
  unfold patchVertexAt
  rw [h1]
  simp only
  rw [h2]
  exact patchVertices_getElem (prepareGeometry env t img) (newPatch t px pz) x1 z1 hx1 hz1

/-- The placed position of a vertex of a rebuilt patch whose lock succeeded. -/
theorem CreateGeometry_meshVertex (env : Env) (t : Terrain) (img : Image) (node : Node)
    (hImg : t.heightMap_ = some img) (hNode : env.node_ = some node)
    (hOct : env.octree = true) (px pz x1 z1 : Nat)
    (hpx : px < (CreateGeometry env t).patchesX_) (hpz : pz < (CreateGeometry env t).patchesZ_)
    (hx1 : x1 ≤ t.patchSize_) (hz1 : z1 ≤ t.patchSize_)
    (hLock : env.vertexLock px pz = true) :
    meshVertex (CreateGeometry env t) (pz * (CreateGeometry env t).patchesX_ + px)
        (z1 * (t.patchSize_ + 1) + x1)
      = some ((SetPatchTransform node (CreateGeometry env t).patchWorldOrigin_
          (CreateGeometry env t).patchWorldSize_ (newPatch t px pz)).transform
            (patchVertex (prepareGeometry env t img) (newPatch t px pz) x1 z1).position) := by
  obtain ⟨h1, h3⟩ := CreateGeometry_patch_at env t img node hImg hNode hOct px pz hpx hpz
  obtain ⟨h2, -⟩ := UpdatePatchGeometry_locked env (prepareGeometry env t img)
    (newPatch t px pz) hLock
  unfold meshVertex
  rw [h1, h3]
  simp only
  rw [h2]
  simp only
  have h4 : (patchVertices (prepareGeometry env t img)
      (newPatch t px pz))[z1 * (t.patchSize_ + 1) + x1]?
      = some (patchVertex (prepareGeometry env t img) (newPatch t px pz) x1 z1) :=
    patchVertices_getElem (prepareGeometry env t img) (newPatch t px pz) x1 z1 hx1 hz1
  rw [h4]

/-- Every vertex of the vertex loop is the vertex of some `(x1, z1)` with both at most
`patchSize_`. -/
theorem mem_patchVertices (t : Terrain) (patch : TerrainPatch) (v : Vertex)
    (h : v ∈ patchVertices t patch) :
    ∃ x1 z1, x1 ≤ t.patchSize_ ∧ z1 ≤ t.patchSize_ ∧ v = patchVertex t patch x1 z1 := by
  unfold patchVertices at h
  rw [List.mem_flatMap] at h
  obtain ⟨z1, hz, h⟩ := h
  rw [List.mem_map] at h
  obtain ⟨x1, hx, h⟩ := h
  exact ⟨x1, z1, by have := List.mem_range.mp hx; omega, by have := List.mem_range.mp hz; omega,
    h.symm⟩

/-- An entry of a block of six found by dropping and taking. -/
theorem getElem?_of_block {α : Type} (l b : List α) (k m : Nat) (hm : m < 6)
    (h : (l.drop k).take 6 = b) : l[k + m]? = b[m]? := by
  rw [← h, List.getElem?_take_of_lt hm, List.getElem?_drop]

/-- The six entries of the shared index buffer for the quad `(x, z)` after a rebuild whose
index buffer lock succeeded. -/
theorem CreateGeometry_quad_indices (env : Env) (t : Terrain) (img : Image) (node : Node)
    (hImg : t.heightMap_ = some img) (hNode : env.node_ = some node)
    (hOct : env.octree = true) (hLock : env.indexLock = true) (hp : t.patchSize_ ≤ 255)
    (x z : Nat) (hx : x < t.patchSize_) (hz : z < t.patchSize_) :
    ∃ indices, (CreateGeometry env t).indexBuffer_.data = some indices ∧
      indices[3 * (2 * (z * t.patchSize_ + x))]? = some ((z + 1) * (t.patchSize_ + 1) + x) ∧
      indices[3 * (2 * (z * t.patchSize_ + x)) + 1]? = some (z * (t.patchSize_ + 1) + (x + 1)) ∧
      indices[3 * (2 * (z * t.patchSize_ + x)) + 2]? = some (z * (t.patchSize_ + 1) + x) ∧
      indices[3 * (2 * (z * t.patchSize_ + x) + 1)]? = some ((z + 1) * (t.patchSize_ + 1) + x) ∧
      indices[3 * (2 * (z * t.patchSize_ + x) + 1) + 1]?
        = some ((z + 1) * (t.patchSize_ + 1) + (x + 1)) ∧
      indices[3 * (2 * (z * t.patchSize_ + x) + 1) + 2]?
        = some (z * (t.patchSize_ + 1) + (x + 1)) := by
  have hdata : (CreateGeometry env t).indexBuffer_.data = some (createIndexData t.patchSize_) := by
    rw [CreateGeometry_eq env t img node hImg hNode hOct]
    simp [hLock]
  have hb := (createIndexData_spec t.patchSize_ hp).2 x z hx hz
  have e0 : 3 * (2 * (z * t.patchSize_ + x)) = 6 * (z * t.patchSize_ + x) + 0 := by ring
  have e1 : 3 * (2 * (z * t.patchSize_ + x)) + 1 = 6 * (z * t.patchSize_ + x) + 1 := by ring
  have e2 : 3 * (2 * (z * t.patchSize_ + x)) + 2 = 6 * (z * t.patchSize_ + x) + 2 := by ring
  have e3 : 3 * (2 * (z * t.patchSize_ + x) + 1) = 6 * (z * t.patchSize_ + x) + 3 := by ring
  have e4 : 3 * (2 * (z * t.patchSize_ + x) + 1) + 1 = 6 * (z * t.patchSize_ + x) + 4 := by ring
  have e5 : 3 * (2 * (z * t.patchSize_ + x) + 1) + 2 = 6 * (z * t.patchSize_ + x) + 5 := by ring
  refine ⟨_, hdata, ?_, ?_, ?_, ?_, ?_, ?_⟩
  · rw [e0, getElem?_of_block _ _ _ 0 (by omega) hb]
    simp only [List.getElem?_cons_zero, Option.some.injEq]
    ring
  · rw [e1, getElem?_of_block _ _ _ 1 (by omega) hb]
    simp only [List.getElem?_cons_succ, List.getElem?_cons_zero, Option.some.injEq]
    ring
  · rw [e2, getElem?_of_block _ _ _ 2 (by omega) hb]
    simp only [List.getElem?_cons_succ, List.getElem?_cons_zero, Option.some.injEq]
    ring
  · rw [e3, getElem?_of_block _ _ _ 3 (by omega) hb]
    simp only [List.getElem?_cons_succ, List.getElem?_cons_zero, Option.some.injEq]
    ring
  · rw [e4, getElem?_of_block _ _ _ 4 (by omega) hb]
    simp only [List.getElem?_cons_succ, List.getElem?_cons_zero, Option.some.injEq]
    ring
  · rw [e5, getElem?_of_block _ _ _ 5 (by omega) hb]
    simp only [List.getElem?_cons_succ, List.getElem?_cons_zero, Option.some.injEq]
    ring

/-- With the identity node transform, the vertex `(x1, z1)` of the patch `(px, pz)` is
placed at the terrain-local point of its field coordinate. -/
theorem CreateGeometry_meshVertex_grid (env : Env) (t : Terrain) (img : Image)
    (hImg : t.heightMap_ = some img) (hNode : env.node_ = some ⟨⟨0, 0, 0⟩, ⟨1, 1, 1⟩⟩)
    (hOct : env.octree = true) (hwf : img.WF) (px pz x1 z1 : Nat)
    (hpx : px < (CreateGeometry env t).patchesX_) (hpz : pz < (CreateGeometry env t).patchesZ_)
    (hx1 : x1 ≤ t.patchSize_) (hz1 : z1 ≤ t.patchSize_)
    (hLock : env.vertexLock px pz = true) :
    meshVertex (CreateGeometry env t) (pz * (CreateGeometry env t).patchesX_ + px)
        (z1 * (t.patchSize_ + 1) + x1)
      = some (gridVertex (CreateGeometry env t) (px * t.patchSize_ + x1)
          (pz * t.patchSize_ + z1)) := by
  obtain ⟨hws, -⟩ := CreateGeometry_origin env t img _ hImg hNode hOct
  have hps : (CreateGeometry env t).patchSize_ = t.patchSize_ := (CreateGeometry_frame env t).1
  rw [hps] at hws
  rw [CreateGeometry_meshVertex env t img _ hImg hNode hOct px pz x1 z1 hpx hpz hx1 hz1 hLock,
    patchVertex_prepared env t img _ hImg hNode hOct hwf px pz x1 z1 hpx hpz hx1 hz1, hws]
  unfold PatchNode.transform SetPatchTransform Node.worldTransform newPatch gridVertex
  simp only [Option.some.injEq, Vector3.mk.injEq]
  refine ⟨?_, ?_, ?_⟩
  · push_cast
    ring
  · ring
  · push_cast
    ring

/-- The two triangles of the quad `(x, z)` of the patch `(px, pz)`: the corners are the
terrain-local points of the grid coordinates `(i, j + 1)`, `(i + 1, j)`, `(i, j)` and
`(i, j + 1)`, `(i + 1, j + 1)`, `(i + 1, j)` for `(i, j) = (px * p + x, pz * p + z)`. -/
theorem CreateGeometry_meshTriangle (env : Env) (t : Terrain) (img : Image)
    (hImg : t.heightMap_ = some img) (hNode : env.node_ = some ⟨⟨0, 0, 0⟩, ⟨1, 1, 1⟩⟩)
    (hOct : env.octree = true) (hILock : env.indexLock = true) (hwf : img.WF)
    (hp : t.patchSize_ ≤ 255) (px pz x z : Nat)
    (hpx : px < (CreateGeometry env t).patchesX_) (hpz : pz < (CreateGeometry env t).patchesZ_)
    (hx : x < t.patchSize_) (hz : z < t.patchSize_)
    (hLock : env.vertexLock px pz = true) :
    meshTriangle (CreateGeometry env t) (pz * (CreateGeometry env t).patchesX_ + px)
        (2 * (z * t.patchSize_ + x))
      = some (gridVertex (CreateGeometry env t) (px * t.patchSize_ + x)
                (pz * t.patchSize_ + z + 1),
              gridVertex (CreateGeometry env t) (px * t.patchSize_ + x + 1)
                (pz * t.patchSize_ + z),
              gridVertex (CreateGeometry env t) (px * t.patchSize_ + x)
                (pz * t.patchSize_ + z)) ∧
    meshTriangle (CreateGeometry env t) (pz * (CreateGeometry env t).patchesX_ + px)
        (2 * (z * t.patchSize_ + x) + 1)
      = some (gridVertex (CreateGeometry env t) (px * t.patchSize_ + x)
                (pz * t.patchSize_ + z + 1),
              gridVertex (CreateGeometry env t) (px * t.patchSize_ + x + 1)
                (pz * t.patchSize_ + z + 1),
              gridVertex (CreateGeometry env t) (px * t.patchSize_ + x + 1)
                (pz * t.patchSize_ + z)) := by
  obtain ⟨indices, hd, i0, i1, i2, i3, i4, i5⟩ :=
    CreateGeometry_quad_indices env t img _ hImg hNode hOct hILock hp x z hx hz
  have v00 := CreateGeometry_meshVertex_grid env t img hImg hNode hOct hwf px pz x z hpx hpz
    (by omega) (by omega) hLock
  have v10 := CreateGeometry_meshVertex_grid env t img hImg hNode hOct hwf px pz (x + 1) z hpx hpz
    (by omega) (by omega) hLock
  have v01 := CreateGeometry_meshVertex_grid env t img hImg hNode hOct hwf px pz x (z + 1) hpx hpz
    (by omega) (by omega) hLock
  have v11 := CreateGeometry_meshVertex_grid env t img hImg hNode hOct hwf px pz (x + 1) (z + 1)
    hpx hpz (by omega) (by omega) hLock
  have a1 : px * t.patchSize_ + (x + 1) = px * t.patchSize_ + x + 1 := (Nat.add_assoc _ _ _).symm
  have a2 : pz * t.patchSize_ + (z + 1) = pz * t.patchSize_ + z + 1 := (Nat.add_assoc _ _ _).symm
  rw [a1] at v10 v11
  rw [a2] at v01 v11
  constructor
  · unfold meshTriangle
    rw [hd]
    simp only
    rw [i0, i1, i2]
    simp only
    rw [v01, v10, v00]
  · unfold meshTriangle
    rw [hd]
    simp only
    rw [i3, i4, i5]
    simp only
    rw [v01, v11, v10]

/-- `GetHeight` with the identity node transform, for a query in the grid cell `(i, j)` at
the offsets `(xFrac, zFrac)`. -/
theorem GetHeight_identity_cell (env : Env) (t : Terrain)
    (hNode : env.node_ = some ⟨⟨0, 0, 0⟩, ⟨1, 1, 1⟩⟩) (w : Vector3)
    (i j : Nat) (hi : i + 1 < 4294967296) (hj : j + 1 < 4294967296)
    (xFrac zFrac : ℚ) (hx0 : 0 ≤ xFrac) (hx1 : xFrac < 1) (hz0 : 0 ≤ zFrac) (hz1 : zFrac < 1)
    (hx : (w.x_ - t.patchWorldOrigin_.x_) / t.spacing_.x_ = (i : ℚ) + xFrac)
    (hz : (w.z_ - t.patchWorldOrigin_.y_) / t.spacing_.z_ = (j : ℚ) + zFrac) :
    GetHeight env t w
      = if xFrac + zFrac ≥ 1 then
          GetRawHeight t (i + 1) (j + 1) * (xFrac + zFrac - 1)
            + GetRawHeight t i (j + 1) * (1 - xFrac) + GetRawHeight t (i + 1) j * (1 - zFrac)
        else
          GetRawHeight t i j * (1 - xFrac - zFrac)
            + GetRawHeight t (i + 1) j * xFrac + GetRawHeight t i (j + 1) * zFrac := by
  have h := GetHeight_in_cell env t ⟨⟨0, 0, 0⟩, ⟨1, 1, 1⟩⟩ hNode w i j hi hj xFrac zFrac
    hx0 hx1 hz0 hz1
    (by simp only [Node.worldTransformInverse, sub_zero, div_one]; exact hx)
    (by simp only [Node.worldTransformInverse, sub_zero, div_one]; exact hz)
  simp only [one_mul, add_zero] at h
  exact h

/-- `GetHeight` over the closed near triangle of the grid cell `(i, j)`, corners and edges
included: the blend of the heights at `(i, j)`, `(i + 1, j)`, `(i, j + 1)`. -/
theorem GetHeight_closed_near (env : Env) (t : Terrain)
    (hNode : env.node_ = some ⟨⟨0, 0, 0⟩, ⟨1, 1, 1⟩⟩) (w : Vector3)
    (i j : Nat) (hi : i + 2 < 4294967296) (hj : j + 2 < 4294967296)
    (a b : ℚ) (ha : 0 ≤ a) (hb : 0 ≤ b) (hab : a + b ≤ 1)
    (hx : (w.x_ - t.patchWorldOrigin_.x_) / t.spacing_.x_ = (i : ℚ) + a)
    (hz : (w.z_ - t.patchWorldOrigin_.y_) / t.spacing_.z_ = (j : ℚ) + b) :
    GetHeight env t w
      = GetRawHeight t i j * (1 - a - b) + GetRawHeight t (i + 1) j * a
        + GetRawHeight t i (j + 1) * b := by
  by_cases ha1 : a = 1
  · have hb0 : b = 0 := by linarith
    subst ha1
    subst hb0
    rw [GetHeight_identity_cell env t hNode w (i + 1) j (by omega) (by omega) 0 0 (le_refl 0)
      (by norm_num) (le_refl 0) (by norm_num) (by rw [hx]; push_cast; ring)
      (by rw [hz]), if_neg (by norm_num)]
    ring
  by_cases hb1 : b = 1
  · have ha0 : a = 0 := by linarith
    subst hb1
    subst ha0
    rw [GetHeight_identity_cell env t hNode w i (j + 1) (by omega) (by omega) 0 0 (le_refl 0)
      (by norm_num) (le_refl 0) (by norm_num) (by rw [hx])
      (by rw [hz]; push_cast; ring), if_neg (by norm_num)]
    ring
  have ha2 : a < 1 := lt_of_le_of_ne (by linarith) ha1
  have hb2 : b < 1 := lt_of_le_of_ne (by linarith) hb1
  rw [GetHeight_identity_cell env t hNode w i j (by omega) (by omega) a b ha ha2 hb hb2 hx hz]
  split_ifs with h
  · have hab1 : a + b = 1 := le_antisymm hab h
    have hb3 : b = 1 - a := by linarith
    rw [hb3]
    ring
  · rfl

/-- `GetHeight` over the closed far triangle of the grid cell `(i, j)`, corners and edges
included: the blend of the heights at `(i + 1, j + 1)`, `(i, j + 1)`, `(i + 1, j)`. -/
theorem GetHeight_closed_far (env : Env) (t : Terrain)
    (hNode : env.node_ = some ⟨⟨0, 0, 0⟩, ⟨1, 1, 1⟩⟩) (w : Vector3)
    (i j : Nat) (hi : i + 2 < 4294967296) (hj : j + 2 < 4294967296)
    (a b : ℚ) (ha : a ≤ 1) (hb : b ≤ 1) (hab : 1 ≤ a + b)
    (hx : (w.x_ - t.patchWorldOrigin_.x_) / t.spacing_.x_ = (i : ℚ) + a)
    (hz : (w.z_ - t.patchWorldOrigin_.y_) / t.spacing_.z_ = (j : ℚ) + b) :
    GetHeight env t w
      = GetRawHeight t (i + 1) (j + 1) * (a + b - 1) + GetRawHeight t i (j + 1) * (1 - a)
        + GetRawHeight t (i + 1) j * (1 - b) := by
  by_cases ha1 : a = 1
  · subst ha1
    by_cases hb1 : b = 1
    · subst hb1
      rw [GetHeight_identity_cell env t hNode w (i + 1) (j + 1) (by omega) (by omega) 0 0
        (le_refl 0) (by norm_num) (le_refl 0) (by norm_num) (by rw [hx]; push_cast; ring)
        (by rw [hz]; push_cast; ring), if_neg (by norm_num)]
      ring
    · have hb2 : b < 1 := lt_of_le_of_ne hb hb1
      rw [GetHeight_identity_cell env t hNode w (i + 1) j (by omega) (by omega) 0 b
        (le_refl 0) (by norm_num) (by linarith) hb2 (by rw [hx]; push_cast; ring) hz,
        if_neg (by linarith)]
      ring
  · have ha2 : a < 1 := lt_of_le_of_ne ha ha1
    by_cases hb1 : b = 1
    · subst hb1
      rw [GetHeight_identity_cell env t hNode w i (j + 1) (by omega) (by omega) a 0
        (by linarith) ha2 (le_refl 0) (by norm_num) hx (by rw [hz]; push_cast; ring),
        if_neg (by linarith)]
      ring
    · have hb2 : b < 1 := lt_of_le_of_ne hb hb1
      rw [GetHeight_identity_cell env t hNode w i j (by omega) (by omega) a b
        (by linarith) ha2 (by linarith) hb2 hx hz, if_pos hab]

/-- The near triangle of the grid cell `(i, j)` in barycentric terms: a position lies over
it exactly when its offsets `(a, b)` in the cell are non-negative with `a + b <= 1`, and
the plane through the triangle then has the height of the near blend. -/
theorem near_triangle_bary (t : Terrain) (i j : Nat) (wx wz : ℚ)
    (hsx : t.spacing_.x_ ≠ 0) (hsz : t.spacing_.z_ ≠ 0) :
    (overTriangle (gridVertex t i (j + 1)) (gridVertex t (i + 1) j) (gridVertex t i j) wx wz ↔
      (0 ≤ (wx - t.patchWorldOrigin_.x_) / t.spacing_.x_ - (i : ℚ) ∧
       0 ≤ (wz - t.patchWorldOrigin_.y_) / t.spacing_.z_ - (j : ℚ) ∧
       (wx - t.patchWorldOrigin_.x_) / t.spacing_.x_ - (i : ℚ)
        + ((wz - t.patchWorldOrigin_.y_) / t.spacing_.z_ - (j : ℚ)) ≤ 1)) ∧
    triangleHeight (gridVertex t i (j + 1)) (gridVertex t (i + 1) j) (gridVertex t i j) wx wz
      = GetRawHeight t i j
          * (1 - ((wx - t.patchWorldOrigin_.x_) / t.spacing_.x_ - (i : ℚ))
            - ((wz - t.patchWorldOrigin_.y_) / t.spacing_.z_ - (j : ℚ)))
        + GetRawHeight t (i + 1) j * ((wx - t.patchWorldOrigin_.x_) / t.spacing_.x_ - (i : ℚ))
        + GetRawHeight t i (j + 1)
          * ((wz - t.patchWorldOrigin_.y_) / t.spacing_.z_ - (j : ℚ)) := by
  have hdet : triangleDet (gridVertex t i (j + 1)) (gridVertex t (i + 1) j) (gridVertex t i j)
      = -(t.spacing_.x_ * t.spacing_.z_) := by
    unfold triangleDet gridVertex
    push_cast
    ring
  have hB : baryB (gridVertex t i (j + 1)) (gridVertex t (i + 1) j) (gridVertex t i j) wx wz
      = (wx - t.patchWorldOrigin_.x_) / t.spacing_.x_ - (i : ℚ) := by
    unfold baryB
    rw [hdet]
    unfold gridVertex
    push_cast
    field_simp
    ring
  have hC : baryC (gridVertex t i (j + 1)) (gridVertex t (i + 1) j) (gridVertex t i j) wx wz
      = 1 - ((wx - t.patchWorldOrigin_.x_) / t.spacing_.x_ - (i : ℚ))
        - ((wz - t.patchWorldOrigin_.y_) / t.spacing_.z_ - (j : ℚ)) := by
    unfold baryC
    rw [hdet]
    unfold gridVertex
    push_cast
    field_simp
    ring
  constructor
  · unfold overTriangle
    rw [hdet, hB, hC]
    constructor
    · rintro ⟨-, h1, h2, h3⟩
      exact ⟨h1, by linarith, by linarith⟩
    · rintro ⟨h1, h2, h3⟩
      exact ⟨neg_ne_zero.mpr (mul_ne_zero hsx hsz), h1, by linarith, by linarith⟩
  · unfold triangleHeight
    rw [hB, hC]
    unfold gridVertex
    simp only
    ring

/-- The far triangle of the grid cell `(i, j)` in barycentric terms: a position lies over
it exactly when its offsets `(a, b)` in the cell are at most 1 with `a + b >= 1`, and the
plane through the triangle then has the height of the far blend. -/
theorem far_triangle_bary (t : Terrain) (i j : Nat) (wx wz : ℚ)
    (hsx : t.spacing_.x_ ≠ 0) (hsz : t.spacing_.z_ ≠ 0) :
    (overTriangle (gridVertex t i (j + 1)) (gridVertex t (i + 1) (j + 1))
        (gridVertex t (i + 1) j) wx wz ↔
      ((wx - t.patchWorldOrigin_.x_) / t.spacing_.x_ - (i : ℚ) ≤ 1 ∧
       (wz - t.patchWorldOrigin_.y_) / t.spacing_.z_ - (j : ℚ) ≤ 1 ∧
       1 ≤ (wx - t.patchWorldOrigin_.x_) / t.spacing_.x_ - (i : ℚ)
        + ((wz - t.patchWorldOrigin_.y_) / t.spacing_.z_ - (j : ℚ)))) ∧
    triangleHeight (gridVertex t i (j + 1)) (gridVertex t (i + 1) (j + 1))
        (gridVertex t (i + 1) j) wx wz
      = GetRawHeight t (i + 1) (j + 1)
          * ((wx - t.patchWorldOrigin_.x_) / t.spacing_.x_ - (i : ℚ)
            + ((wz - t.patchWorldOrigin_.y_) / t.spacing_.z_ - (j : ℚ)) - 1)
        + GetRawHeight t i (j + 1)
          * (1 - ((wx - t.patchWorldOrigin_.x_) / t.spacing_.x_ - (i : ℚ)))
        + GetRawHeight t (i + 1) j
          * (1 - ((wz - t.patchWorldOrigin_.y_) / t.spacing_.z_ - (j : ℚ))) := by
  have hdet : triangleDet (gridVertex t i (j + 1)) (gridVertex t (i + 1) (j + 1))
      (gridVertex t (i + 1) j) = -(t.spacing_.x_ * t.spacing_.z_) := by
    unfold triangleDet gridVertex
    push_cast
    ring
  have hB : baryB (gridVertex t i (j + 1)) (gridVertex t (i + 1) (j + 1))
      (gridVertex t (i + 1) j) wx wz
      = (wx - t.patchWorldOrigin_.x_) / t.spacing_.x_ - (i : ℚ)
        + ((wz - t.patchWorldOrigin_.y_) / t.spacing_.z_ - (j : ℚ)) - 1 := by
    unfold baryB
    rw [hdet]
    unfold gridVertex
    push_cast
    field_simp
    ring
  have hC : baryC (gridVertex t i (j + 1)) (gridVertex t (i + 1) (j + 1))
      (gridVertex t (i + 1) j) wx wz
      = 1 - ((wz - t.patchWorldOrigin_.y_) / t.spacing_.z_ - (j : ℚ)) := by
    unfold baryC
    rw [hdet]
    unfold gridVertex
    push_cast
    field_simp
    ring
  constructor
  · unfold overTriangle
    rw [hdet, hB, hC]
    constructor
    · rintro ⟨-, h1, h2, h3⟩
      exact ⟨by linarith, by linarith, by linarith⟩
    · rintro ⟨h1, h2, h3⟩
      exact ⟨neg_ne_zero.mpr (mul_ne_zero hsx hsz), by linarith, by linarith, by linarith⟩
  · unfold triangleHeight
    rw [hB, hC]
    unfold gridVertex
    simp only
    ring

/-- The triangles of a grid cell are degenerate when a horizontal spacing is 0. -/
theorem grid_triangle_det (t : Terrain) (i j : Nat) :
    triangleDet (gridVertex t i (j + 1)) (gridVertex t (i + 1) j) (gridVertex t i j)
      = -(t.spacing_.x_ * t.spacing_.z_) ∧
    triangleDet (gridVertex t i (j + 1)) (gridVertex t (i + 1) (j + 1)) (gridVertex t (i + 1) j)
      = -(t.spacing_.x_ * t.spacing_.z_) := by
  unfold triangleDet gridVertex
  push_cast
  constructor <;> ring

/-- The two triangles of one quad of one patch and the height query: the vertex numbering,
the corners of the triangles, the agreement of `GetHeight` with the plane of either
triangle at every position over it, and the split of the quad along the diagonal. -/
theorem mesh_quad_agreement (env : Env) (t : Terrain) (img : Image)
    (hImg : t.heightMap_ = some img) (hNode : env.node_ = some ⟨⟨0, 0, 0⟩, ⟨1, 1, 1⟩⟩)
    (hOct : env.octree = true) (hILock : env.indexLock = true) (hwf : img.WF)
    (hp1 : 0 < t.patchSize_) (hp2 : t.patchSize_ ≤ 128) (px pz x z : Nat)
    (hpx : px < (CreateGeometry env t).patchesX_) (hpz : pz < (CreateGeometry env t).patchesZ_)
    (hx : x < t.patchSize_) (hz : z < t.patchSize_)
    (hLock : env.vertexLock px pz = true) :
    (∀ x1 z1 : Nat, x1 ≤ t.patchSize_ → z1 ≤ t.patchSize_ →
      meshVertex (CreateGeometry env t) (pz * (CreateGeometry env t).patchesX_ + px)
          (z1 * (t.patchSize_ + 1) + x1)
        = some (gridVertex (CreateGeometry env t) (px * t.patchSize_ + x1)
            (pz * t.patchSize_ + z1))) ∧
    meshTriangle (CreateGeometry env t) (pz * (CreateGeometry env t).patchesX_ + px)
        (2 * (z * t.patchSize_ + x))
      = some (gridVertex (CreateGeometry env t) (px * t.patchSize_ + x)
                (pz * t.patchSize_ + z + 1),
              gridVertex (CreateGeometry env t) (px * t.patchSize_ + x + 1)
                (pz * t.patchSize_ + z),
              gridVertex (CreateGeometry env t) (px * t.patchSize_ + x)
                (pz * t.patchSize_ + z)) ∧
    meshTriangle (CreateGeometry env t) (pz * (CreateGeometry env t).patchesX_ + px)
        (2 * (z * t.patchSize_ + x) + 1)
      = some (gridVertex (CreateGeometry env t) (px * t.patchSize_ + x)
                (pz * t.patchSize_ + z + 1),
              gridVertex (CreateGeometry env t) (px * t.patchSize_ + x + 1)
                (pz * t.patchSize_ + z + 1),
              gridVertex (CreateGeometry env t) (px * t.patchSize_ + x + 1)
                (pz * t.patchSize_ + z)) ∧
    (∀ (A B C w : Vector3),
      meshTriangle (CreateGeometry env t) (pz * (CreateGeometry env t).patchesX_ + px)
        (2 * (z * t.patchSize_ + x)) = some (A, B, C) →
      overTriangle A B C w.x_ w.z_ →
      GetHeight env (CreateGeometry env t) w = triangleHeight A B C w.x_ w.z_) ∧
    (∀ (A B C w : Vector3),
      meshTriangle (CreateGeometry env t) (pz * (CreateGeometry env t).patchesX_ + px)
        (2 * (z * t.patchSize_ + x) + 1) = some (A, B, C) →
      overTriangle A B C w.x_ w.z_ →
      GetHeight env (CreateGeometry env t) w = triangleHeight A B C w.x_ w.z_) ∧
    ((CreateGeometry env t).spacing_.x_ ≠ 0 → (CreateGeometry env t).spacing_.z_ ≠ 0 →
      ∀ w : Vector3,
        (overTriangle
            (gridVertex (CreateGeometry env t) (px * t.patchSize_ + x)
              (pz * t.patchSize_ + z + 1))
            (gridVertex (CreateGeometry env t) (px * t.patchSize_ + x + 1)
              (pz * t.patchSize_ + z))
            (gridVertex (CreateGeometry env t) (px * t.patchSize_ + x)
              (pz * t.patchSize_ + z)) w.x_ w.z_ ↔
          (0 ≤ (w.x_ - (CreateGeometry env t).patchWorldOrigin_.x_)
                / (CreateGeometry env t).spacing_.x_ - ((px * t.patchSize_ + x : Nat) : ℚ) ∧
           0 ≤ (w.z_ - (CreateGeometry env t).patchWorldOrigin_.y_)
                / (CreateGeometry env t).spacing_.z_ - ((pz * t.patchSize_ + z : Nat) : ℚ) ∧
           (w.x_ - (CreateGeometry env t).patchWorldOrigin_.x_)
                / (CreateGeometry env t).spacing_.x_ - ((px * t.patchSize_ + x : Nat) : ℚ)
              + ((w.z_ - (CreateGeometry env t).patchWorldOrigin_.y_)
                / (CreateGeometry env t).spacing_.z_ - ((pz * t.patchSize_ + z : Nat) : ℚ))
              ≤ 1)) ∧
        (overTriangle
            (gridVertex (CreateGeometry env t) (px * t.patchSize_ + x)
              (pz * t.patchSize_ + z + 1))
            (gridVertex (CreateGeometry env t) (px * t.patchSize_ + x + 1)
              (pz * t.patchSize_ + z + 1))
            (gridVertex (CreateGeometry env t) (px * t.patchSize_ + x + 1)
              (pz * t.patchSize_ + z)) w.x_ w.z_ ↔
          ((w.x_ - (CreateGeometry env t).patchWorldOrigin_.x_)
                / (CreateGeometry env t).spacing_.x_ - ((px * t.patchSize_ + x : Nat) : ℚ) ≤ 1 ∧
           (w.z_ - (CreateGeometry env t).patchWorldOrigin_.y_)
                / (CreateGeometry env t).spacing_.z_ - ((pz * t.patchSize_ + z : Nat) : ℚ) ≤ 1 ∧
           1 ≤ (w.x_ - (CreateGeometry env t).patchWorldOrigin_.x_)
                / (CreateGeometry env t).spacing_.x_ - ((px * t.patchSize_ + x : Nat) : ℚ)
              + ((w.z_ - (CreateGeometry env t).patchWorldOrigin_.y_)
                / (CreateGeometry env t).spacing_.z_
                  - ((pz * t.patchSize_ + z : Nat) : ℚ))))) := by
  have _ := hp1
  obtain ⟨-, -, -, hbx, hbz⟩ := CreateGeometry_counts env t img _ hImg hNode hOct hwf
  have hI := fieldCoord_lt px _ t.patchSize_ x hpx (by omega)
  have hJ := fieldCoord_lt pz _ t.patchSize_ z hpz (by omega)
  obtain ⟨hnear, hfar⟩ := CreateGeometry_meshTriangle env t img hImg hNode hOct hILock hwf
    (by omega) px pz x z hpx hpz hx hz hLock
  obtain ⟨dnear, dfar⟩ := grid_triangle_det (CreateGeometry env t) (px * t.patchSize_ + x)
    (pz * t.patchSize_ + z)
  refine ⟨?_, hnear, hfar, ?_, ?_, ?_⟩
  · intro x1 z1 hx1 hz1
    exact CreateGeometry_meshVertex_grid env t img hImg hNode hOct hwf px pz x1 z1 hpx hpz
      hx1 hz1 hLock
  · intro A B C w hT hover
    rw [hnear] at hT
    obtain ⟨rfl, rfl, rfl⟩ := Prod.mk.inj (Option.some.inj hT) |>.imp id Prod.mk.inj
    have hne := hover.1
    rw [dnear] at hne
    have hs := neg_ne_zero.mp hne
    obtain ⟨hiff, hh⟩ := near_triangle_bary (CreateGeometry env t) (px * t.patchSize_ + x)
      (pz * t.patchSize_ + z) w.x_ w.z_ (left_ne_zero_of_mul hs) (right_ne_zero_of_mul hs)
    obtain ⟨h1, h2, h3⟩ := hiff.mp hover
    rw [hh]
    exact GetHeight_closed_near env (CreateGeometry env t) hNode w _ _ (by omega) (by omega)
      _ _ h1 h2 h3 (by ring) (by ring)
  · intro A B C w hT hover
    rw [hfar] at hT
    obtain ⟨rfl, rfl, rfl⟩ := Prod.mk.inj (Option.some.inj hT) |>.imp id Prod.mk.inj
    have hne := hover.1
    rw [dfar] at hne
    have hs := neg_ne_zero.mp hne
    obtain ⟨hiff, hh⟩ := far_triangle_bary (CreateGeometry env t) (px * t.patchSize_ + x)
      (pz * t.patchSize_ + z) w.x_ w.z_ (left_ne_zero_of_mul hs) (right_ne_zero_of_mul hs)
    obtain ⟨h1, h2, h3⟩ := hiff.mp hover
    rw [hh]
    exact GetHeight_closed_far env (CreateGeometry env t) hNode w _ _ (by omega) (by omega)
      _ _ h1 h2 h3 (by ring) (by ring)
  · intro hsx hsz w
    exact ⟨(near_triangle_bary (CreateGeometry env t) _ _ w.x_ w.z_ hsx hsz).1,
      (far_triangle_bary (CreateGeometry env t) _ _ w.x_ w.z_ hsx hsz).1⟩

/-- A coordinate in `[0, N]` lies in a closed cell `[i, i + 1]` with `i < N`. -/
theorem cell_of_coord (g : ℚ) (N : Nat) (hN : 0 < N) (h0 : 0 ≤ g) (h1 : g ≤ (N : ℚ)) :
    ∃ i : Nat, i < N ∧ 0 ≤ g - (i : ℚ) ∧ g - (i : ℚ) ≤ 1 := by
  by_cases h : Nat.floor g < N
  · refine ⟨Nat.floor g, h, ?_, ?_⟩
    · have := Nat.floor_le h0
      linarith
    · have := Nat.lt_floor_add_one g
      linarith
  · refine ⟨N - 1, by omega, ?_, ?_⟩
    · have hc : ((N - 1 : Nat) : ℚ) = (N : ℚ) - 1 := by
        rw [Nat.cast_sub hN, Nat.cast_one]
      have h2 : (N : ℚ) ≤ (Nat.floor g : ℚ) := by exact_mod_cast Nat.le_of_not_lt h
      have := Nat.floor_le h0
      rw [hc]
      linarith
    · have hc : ((N - 1 : Nat) : ℚ) = (N : ℚ) - 1 := by
        rw [Nat.cast_sub hN, Nat.cast_one]
      rw [hc]
      linarith

/-- Dividing three rationals by the square root of the sum of their squares gives a real
vector of unit length. -/
theorem unit_of_lengthSquared (x y z l : ℚ) (hl : 0 < l) (h : x * x + y * y + z * z = l) :
    ((x : ℝ) / Real.sqrt (l : ℝ)) ^ 2 + ((y : ℝ) / Real.sqrt (l : ℝ)) ^ 2
      + ((z : ℝ) / Real.sqrt (l : ℝ)) ^ 2 = 1 := by
  have hl2 : (0 : ℝ) < (l : ℝ) := by exact_mod_cast hl
  have hs : Real.sqrt (l : ℝ) ^ 2 = (l : ℝ) := Real.sq_sqrt hl2.le
  have h2 : (x : ℝ) * x + y * y + z * z = (l : ℝ) := by exact_mod_cast h
  rw [div_pow, div_pow, div_pow, hs, ← add_div, ← add_div]
  rw [div_eq_one_iff_eq hl2.ne']
  linarith

/-- A non-zero vector is divided by its length: `Normalized` keeps the vector and its
squared length. -/
theorem Normalized_of_pos (v : Vector3) (h : 0 < v.DotProduct v) :
    v.Normalized = ⟨v, v.DotProduct v⟩ := by
  unfold Vector3.Normalized
  rw [if_pos h]

/-- The result of `Normalized` on a non-zero vector has unit length. -/
theorem Normalized_unit (v : Vector3) (h : 0 < v.DotProduct v) :
    ((v.Normalized.direction.x_ : ℝ) / Real.sqrt (v.Normalized.lengthSquared : ℝ)) ^ 2
      + ((v.Normalized.direction.y_ : ℝ) / Real.sqrt (v.Normalized.lengthSquared : ℝ)) ^ 2
      + ((v.Normalized.direction.z_ : ℝ) / Real.sqrt (v.Normalized.lengthSquared : ℝ)) ^ 2
      = 1 := by
  rw [Normalized_of_pos v h]
  exact unit_of_lengthSquared _ _ _ _ h rfl

/-- The value of `GetNormal`: the neighbour sum, divided by its length, which is at least 8. -/
theorem GetNormal_eq (t : Terrain) (x z : Nat) :
    GetNormal t x z = ⟨normalSum t x z, (normalSum t x z).DotProduct (normalSum t x z)⟩ := by
  unfold GetNormal
  exact Normalized_of_pos _ (lt_of_lt_of_le (by norm_num) (normalSum_length t x z).2)

/-- The neighbour sum `(0, 8, 0)` divided by its length 8 is `(0, 1, 0)`. -/
theorem up_components :
    ((0 : ℚ) : ℝ) / Real.sqrt (((Vector3.mk 0 8 0).DotProduct ⟨0, 8, 0⟩ : ℚ) : ℝ) = 0 ∧
    ((8 : ℚ) : ℝ) / Real.sqrt (((Vector3.mk 0 8 0).DotProduct ⟨0, 8, 0⟩ : ℚ) : ℝ) = 1 := by
  have h : (((Vector3.mk 0 8 0).DotProduct ⟨0, 8, 0⟩ : ℚ) : ℝ) = 8 ^ 2 := by
    unfold Vector3.DotProduct
    norm_num
  rw [h, Real.sqrt_sq (by norm_num)]
  norm_num

/-- The heights of the rebuilt example terrain: the byte `9 * (4 - z) + x` of the image,
a quarter each, at the grid coordinate `(x, z)`. -/
theorem builtTerrain_height (x z : Nat) (hx : x < 9) (hz : z < 5) :
    GetRawHeight builtTerrain x z = ((9 * (4 - z) + x : Nat) : ℚ) * (1 / 4) := by
  have hwf := exampleImage_wf
  have hsx : (CreateGeometry attachedEnv exampleTerrain).size_.x_ = 9 := by decide
  have hsy : (CreateGeometry attachedEnv exampleTerrain).size_.y_ = 5 := by decide
  obtain ⟨-, h⟩ := rawHeight_after_CreateGeometry attachedEnv exampleTerrain exampleImage
    identityNode rfl rfl rfl hwf x z (by rw [hsx]; omega) (by rw [hsy]; omega)
  have hsp : (CreateGeometry attachedEnv exampleTerrain).spacing_ = ⟨1, 1 / 4, 1⟩ :=
    (CreateGeometry_frame attachedEnv exampleTerrain).2.2.2
  show GetRawHeight (CreateGeometry attachedEnv exampleTerrain) x z = _
  rw [h, hsp, hsy]
  congr 2
  interval_cases x <;> interval_cases z <;> rfl

/-- The rebuilt example terrain holds a built height field of size 9 x 5. -/
theorem builtTerrain_built : Built builtTerrain := by
  refine ⟨decodeHeights exampleImage ⟨9, 5⟩ (1 / 4), rfl, by decide, by decide, by decide, ?_⟩
  decide

/-- The nine samples around `(1, 1)` of the rebuilt example terrain lie on the plane
`h = x / 4 - 9 * z / 4 + 9`. -/
theorem builtTerrain_plane (dx dz : Nat) (hdx : dx ≤ 2) (hdz : dz ≤ 2) :
    GetRawHeight builtTerrain (1 - 1 + dx) (1 - 1 + dz)
      = 1 / 4 * ((1 - 1 + dx : Nat) : ℚ) + -9 / 4 * ((1 - 1 + dz : Nat) : ℚ) + 9 := by
  rw [builtTerrain_height _ _ (by omega) (by omega)]
  interval_cases dx <;> interval_cases dz <;> norm_num

/-- The neighbour sum of the rebuilt example terrain at the interior coordinate `(1, 1)`;
its squared length `497 / 2` is not the square of a rational. -/
theorem builtTerrain_normalSum :
    normalSum builtTerrain 1 1 = ⟨-3 / 2, 8, 27 / 2⟩ ∧
    (normalSum builtTerrain 1 1).DotProduct (normalSum builtTerrain 1 1) = 497 / 2 := by
  have h := normalSum_planar builtTerrain 1 1 (1 / 4) (-9 / 4) 9 (by decide) (by decide)
    (by decide) (by decide) builtTerrain_plane
  have h2 : normalSum builtTerrain 1 1 = ⟨-3 / 2, 8, 27 / 2⟩ := by
    rw [h]
    norm_num
  refine ⟨h2, ?_⟩
  rw [h2]
  unfold Vector3.DotProduct
  norm_num

/-- The normal and the tangent of the example vertex: the normal is `(-3/2, 8, 27/2)`
divided by the square root of `497 / 2`, the tangent `(985, 48, 81) / 994` divided by the
square root of `985 / 994`. -/
theorem builtVertex_eq :
    builtVertex.normal = ⟨⟨-3 / 2, 8, 27 / 2⟩, 497 / 2⟩ ∧
    builtVertex.tangent = ⟨⟨985 / 994, 24 / 497, 81 / 994⟩, 985 / 994⟩ := by
  have hn : builtVertex.normal = GetNormal builtTerrain 1 1 :=
    GetNormal_prepared attachedEnv exampleTerrain exampleImage identityNode rfl rfl rfl 1 1
  have hn2 : builtVertex.normal = ⟨⟨-3 / 2, 8, 27 / 2⟩, 497 / 2⟩ := by
    rw [hn, GetNormal_eq, builtTerrain_normalSum.2, builtTerrain_normalSum.1]
  refine ⟨hn2, ?_⟩
  have ht : builtVertex.tangent = (Vector3.RIGHT.sub
      (builtVertex.normal.scaledByDotProduct Vector3.RIGHT)).Normalized := rfl
  have hg : Vector3.RIGHT.sub
      ((NormalizedVector3.mk ⟨-3 / 2, 8, 27 / 2⟩ (497 / 2)).scaledByDotProduct Vector3.RIGHT)
      = ⟨985 / 994, 24 / 497, 81 / 994⟩ := by
    unfold Vector3.RIGHT Vector3.sub NormalizedVector3.scaledByDotProduct Vector3.scale
      Vector3.DotProduct
    norm_num
  rw [ht, hn2, hg, Normalized_of_pos _ (by unfold Vector3.DotProduct; norm_num)]
  unfold Vector3.DotProduct
  norm_num

/-- The value of `GetNormal` over the real numbers: a vector of unit length with a positive
`y` component, and `(0, 1, 0)` when the neighbour sum is `(0, 8, 0)`. -/
theorem GetNormal_unit (t : Terrain) (x z : Nat) :
    (((GetNormal t x z).direction.x_ : ℝ) / Real.sqrt ((GetNormal t x z).lengthSquared : ℝ)) ^ 2
      + (((GetNormal t x z).direction.y_ : ℝ) / Real.sqrt ((GetNormal t x z).lengthSquared : ℝ)) ^ 2
      + (((GetNormal t x z).direction.z_ : ℝ) / Real.sqrt ((GetNormal t x z).lengthSquared : ℝ)) ^ 2 = 1 ∧
    0 < (((GetNormal t x z).direction.y_ : ℝ) / Real.sqrt ((GetNormal t x z).lengthSquared : ℝ)) ∧
    (normalSum t x z = ⟨0, 8, 0⟩ →
      (((GetNormal t x z).direction.x_ : ℝ) / Real.sqrt ((GetNormal t x z).lengthSquared : ℝ)) = 0 ∧
      (((GetNormal t x z).direction.y_ : ℝ) / Real.sqrt ((GetNormal t x z).lengthSquared : ℝ)) = 1 ∧
      (((GetNormal t x z).direction.z_ : ℝ) / Real.sqrt ((GetNormal t x z).lengthSquared : ℝ)) = 0) := by
  obtain ⟨hy, hlen⟩ := normalSum_length t x z
  have hpos : 0 < (normalSum t x z).DotProduct (normalSum t x z) :=
    lt_of_lt_of_le (by norm_num) hlen
  refine ⟨?_, ?_, ?_⟩
  · unfold GetNormal
    exact Normalized_unit _ hpos
  · rw [GetNormal_eq]
    apply div_pos
    · show (0 : ℝ) < (((normalSum t x z).y_ : ℚ) : ℝ)
      rw [hy]
      norm_num
    · exact Real.sqrt_pos.mpr (by exact_mod_cast hpos)
  · intro h
    rw [GetNormal_eq, h]
    exact ⟨up_components.1, up_components.2, up_components.1⟩

/-- The product `n * n.DotProduct(a)` of a normalized vector is rational: over the real
numbers every component of `scaledByDotProduct` is the component of `n` times the dot
product of `n` and `a`. -/
theorem scaledByDotProduct_components (n : NormalizedVector3) (a : Vector3)
    (h : 0 < n.lengthSquared) :
    ((n.scaledByDotProduct a).x_ : ℝ) = ((n.direction.x_ : ℝ) / Real.sqrt (n.lengthSquared : ℝ))
      * (((n.direction.x_ : ℝ) / Real.sqrt (n.lengthSquared : ℝ)) * a.x_
        + ((n.direction.y_ : ℝ) / Real.sqrt (n.lengthSquared : ℝ)) * a.y_
        + ((n.direction.z_ : ℝ) / Real.sqrt (n.lengthSquared : ℝ)) * a.z_) ∧
    ((n.scaledByDotProduct a).y_ : ℝ) = ((n.direction.y_ : ℝ) / Real.sqrt (n.lengthSquared : ℝ))
      * (((n.direction.x_ : ℝ) / Real.sqrt (n.lengthSquared : ℝ)) * a.x_
        + ((n.direction.y_ : ℝ) / Real.sqrt (n.lengthSquared : ℝ)) * a.y_
        + ((n.direction.z_ : ℝ) / Real.sqrt (n.lengthSquared : ℝ)) * a.z_) ∧
    ((n.scaledByDotProduct a).z_ : ℝ) = ((n.direction.z_ : ℝ) / Real.sqrt (n.lengthSquared : ℝ))
      * (((n.direction.x_ : ℝ) / Real.sqrt (n.lengthSquared : ℝ)) * a.x_
        + ((n.direction.y_ : ℝ) / Real.sqrt (n.lengthSquared : ℝ)) * a.y_
        + ((n.direction.z_ : ℝ) / Real.sqrt (n.lengthSquared : ℝ)) * a.z_) := by
  have hl : (0 : ℝ) < (n.lengthSquared : ℝ) := by exact_mod_cast h
  have hr : 0 < Real.sqrt (n.lengthSquared : ℝ) := Real.sqrt_pos.mpr hl
  have hs : Real.sqrt (n.lengthSquared : ℝ) * Real.sqrt (n.lengthSquared : ℝ)
      = (n.lengthSquared : ℝ) := Real.mul_self_sqrt hl.le
  unfold NormalizedVector3.scaledByDotProduct Vector3.scale Vector3.DotProduct
  simp only
  push_cast
  generalize Real.sqrt (n.lengthSquared : ℝ) = r at hr hs
  rw [← hs]
  have hne := hr.ne'
  refine ⟨?_, ?_, ?_⟩ <;> field_simp

/-- Orthogonalizing the `+X` axis against a normalized vector `n` whose `y` is positive:
the vector `g = (1, 0, 0) - n * n.x` has a positive `x` component, and `g` divided by its
length is a unit vector orthogonal to `n` with a positive `x` component. -/
theorem tangent_of_normal (d : Vector3) (hy : 0 < d.y_) (n : NormalizedVector3) (g : Vector3)
    (τ : NormalizedVector3) (hn : n = ⟨d, d.DotProduct d⟩)
    (hg : g = Vector3.RIGHT.sub (n.scaledByDotProduct Vector3.RIGHT)) (hτ : τ = g.Normalized) :
    ((g.x_ : ℝ) = 1 - ((n.direction.x_ : ℝ) / Real.sqrt (n.lengthSquared : ℝ))
        * (((n.direction.x_ : ℝ) / Real.sqrt (n.lengthSquared : ℝ)) * 1
          + ((n.direction.y_ : ℝ) / Real.sqrt (n.lengthSquared : ℝ)) * 0
          + ((n.direction.z_ : ℝ) / Real.sqrt (n.lengthSquared : ℝ)) * 0)) ∧
    ((g.y_ : ℝ) = 0 - ((n.direction.y_ : ℝ) / Real.sqrt (n.lengthSquared : ℝ))
        * (((n.direction.x_ : ℝ) / Real.sqrt (n.lengthSquared : ℝ)) * 1
          + ((n.direction.y_ : ℝ) / Real.sqrt (n.lengthSquared : ℝ)) * 0
          + ((n.direction.z_ : ℝ) / Real.sqrt (n.lengthSquared : ℝ)) * 0)) ∧
    ((g.z_ : ℝ) = 0 - ((n.direction.z_ : ℝ) / Real.sqrt (n.lengthSquared : ℝ))
        * (((n.direction.x_ : ℝ) / Real.sqrt (n.lengthSquared : ℝ)) * 1
          + ((n.direction.y_ : ℝ) / Real.sqrt (n.lengthSquared : ℝ)) * 0
          + ((n.direction.z_ : ℝ) / Real.sqrt (n.lengthSquared : ℝ)) * 0)) ∧
    0 < g.x_ ∧
    τ.direction = g ∧
    τ.lengthSquared = g.DotProduct g ∧
    0 < τ.lengthSquared ∧
    ((τ.direction.x_ : ℝ) / Real.sqrt (τ.lengthSquared : ℝ)) ^ 2
      + ((τ.direction.y_ : ℝ) / Real.sqrt (τ.lengthSquared : ℝ)) ^ 2
      + ((τ.direction.z_ : ℝ) / Real.sqrt (τ.lengthSquared : ℝ)) ^ 2 = 1 ∧
    ((τ.direction.x_ : ℝ) / Real.sqrt (τ.lengthSquared : ℝ)) * ((n.direction.x_ : ℝ) / Real.sqrt (n.lengthSquared : ℝ))
      + ((τ.direction.y_ : ℝ) / Real.sqrt (τ.lengthSquared : ℝ)) * ((n.direction.y_ : ℝ) / Real.sqrt (n.lengthSquared : ℝ))
      + ((τ.direction.z_ : ℝ) / Real.sqrt (τ.lengthSquared : ℝ)) * ((n.direction.z_ : ℝ) / Real.sqrt (n.lengthSquared : ℝ)) = 0 ∧
    0 < ((τ.direction.x_ : ℝ) / Real.sqrt (τ.lengthSquared : ℝ)) := by
  have hl : 0 < d.DotProduct d := by
    unfold Vector3.DotProduct
    nlinarith [mul_self_nonneg d.x_, mul_self_nonneg d.z_, mul_pos hy hy]
  have hnl : 0 < n.lengthSquared := by rw [hn]; exact hl
  obtain ⟨c1, c2, c3⟩ := scaledByDotProduct_components n Vector3.RIGHT hnl
  have hgx : g.x_ = (d.y_ * d.y_ + d.z_ * d.z_) / d.DotProduct d := by
    rw [hg, hn]
    unfold Vector3.RIGHT Vector3.sub NormalizedVector3.scaledByDotProduct Vector3.scale
    simp only
    have hne := hl.ne'
    unfold Vector3.DotProduct at hne ⊢
    simp only
    field_simp
    ring
  have hgpos : 0 < g.x_ := by
    rw [hgx]
    apply div_pos _ hl
    nlinarith [mul_self_nonneg d.z_, mul_pos hy hy]
  have hgd : g.DotProduct d = 0 := by
    rw [hg, hn]
    unfold Vector3.RIGHT Vector3.sub NormalizedVector3.scaledByDotProduct Vector3.scale
    simp only
    have hne := hl.ne'
    unfold Vector3.DotProduct at hne ⊢
    simp only
    field_simp
    ring
  have hgg : g.DotProduct g = g.x_ := by
    have e : g.DotProduct g = g.x_ - g.DotProduct d * (d.x_ / d.DotProduct d) := by
      have hgc : g = ⟨1 - d.x_ * (d.x_ / d.DotProduct d), 0 - d.y_ * (d.x_ / d.DotProduct d),
          0 - d.z_ * (d.x_ / d.DotProduct d)⟩ := by
        rw [hg, hn]
        unfold Vector3.RIGHT Vector3.sub NormalizedVector3.scaledByDotProduct Vector3.scale
        simp only [Vector3.mk.injEq]
        unfold Vector3.DotProduct
        simp only
        refine ⟨?_, ?_, ?_⟩ <;> ring
      generalize d.x_ / d.DotProduct d = s at hgc
      rw [hgc]
      unfold Vector3.DotProduct
      simp only
      ring
    rw [e, hgd]
    ring
  have hggpos : 0 < g.DotProduct g := by rw [hgg]; exact hgpos
  have hτe : τ = ⟨g, g.DotProduct g⟩ := by rw [hτ]; exact Normalized_of_pos g hggpos
  have hρ : 0 < Real.sqrt ((g.DotProduct g : ℚ) : ℝ) :=
    Real.sqrt_pos.mpr (by exact_mod_cast hggpos)
  have hr : 0 < Real.sqrt ((d.DotProduct d : ℚ) : ℝ) :=
    Real.sqrt_pos.mpr (by exact_mod_cast hl)
  have hsub : g.x_ = 1 - (n.scaledByDotProduct Vector3.RIGHT).x_ ∧
      g.y_ = 0 - (n.scaledByDotProduct Vector3.RIGHT).y_ ∧
      g.z_ = 0 - (n.scaledByDotProduct Vector3.RIGHT).z_ := by
    rw [hg]
    exact ⟨rfl, rfl, rfl⟩
  have hR : ((Vector3.RIGHT.x_ : ℚ) : ℝ) = 1 ∧ ((Vector3.RIGHT.y_ : ℚ) : ℝ) = 0 ∧
      ((Vector3.RIGHT.z_ : ℚ) : ℝ) = 0 := by
    unfold Vector3.RIGHT
    exact ⟨by norm_num, by norm_num, by norm_num⟩
  rw [hR.1, hR.2.1, hR.2.2] at c1 c2 c3
  refine ⟨?_, ?_, ?_, hgpos, ?_, ?_, ?_, ?_, ?_, ?_⟩
  · rw [hsub.1]; push_cast; rw [c1]
  · rw [hsub.2.1]; push_cast; rw [c2]
  · rw [hsub.2.2]; push_cast; rw [c3]
  · rw [hτe]
  · rw [hτe]
  · rw [hτe]; exact hggpos
  · rw [hτ]; exact Normalized_unit g hggpos
  · rw [hτe, hn]
    show ((g.x_ : ℝ) / Real.sqrt ((g.DotProduct g : ℚ) : ℝ))
          * ((d.x_ : ℝ) / Real.sqrt ((d.DotProduct d : ℚ) : ℝ))
        + ((g.y_ : ℝ) / Real.sqrt ((g.DotProduct g : ℚ) : ℝ))
          * ((d.y_ : ℝ) / Real.sqrt ((d.DotProduct d : ℚ) : ℝ))
        + ((g.z_ : ℝ) / Real.sqrt ((g.DotProduct g : ℚ) : ℝ))
          * ((d.z_ : ℝ) / Real.sqrt ((d.DotProduct d : ℚ) : ℝ)) = 0
    have h0 : (g.x_ : ℝ) * d.x_ + g.y_ * d.y_ + g.z_ * d.z_ = 0 := by
      have := hgd
      unfold Vector3.DotProduct at this
      exact_mod_cast this
    generalize Real.sqrt ((g.DotProduct g : ℚ) : ℝ) = ρ at hρ
    generalize Real.sqrt ((d.DotProduct d : ℚ) : ℝ) = r at hr
    have h1 := hρ.ne'
    have h2 := hr.ne'
    field_simp
    linarith
  · rw [hτe]
    exact div_pos (by exact_mod_cast hgpos) hρ

/-! ## C21: origin and patch placement -/

/-- C21: after a rebuild that ran, with patch counts `(nx, nz)`, patch size `p` and
spacing `s`, the origin is `(-0.5 * nx * p * s.x, -0.5 * nz * p * s.z)`; the patch `(x, z)`
and its node are found at list index `z * nx + x`, and the node is placed where the world
transform of the terrain node takes the local offset
`(origin.x + x * p * s.x, 0, origin.z + z * p * s.z)`, with the scale of the terrain node:
for the identity transform the node translation is that offset and the scale is 1. The
grid is centred: the far corner `origin + (nx * p * s.x, nz * p * s.z)` equals `-origin`,
in exact arithmetic. -/
theorem CreateGeometry_patch_placement (env : Env) (t : Terrain) (img : Image) (node : Node)
    (hImg : t.heightMap_ = some img) (hNode : env.node_ = some node)
    (hOct : env.octree = true) (hp : 0 < t.patchSize_) :
    (CreateGeometry env t).patchWorldOrigin_
      = ⟨-(1 / 2) * ((CreateGeometry env t).patchesX_ : ℚ)
            * ((CreateGeometry env t).patchSize_ : ℚ) * (CreateGeometry env t).spacing_.x_,
         -(1 / 2) * ((CreateGeometry env t).patchesZ_ : ℚ)
            * ((CreateGeometry env t).patchSize_ : ℚ) * (CreateGeometry env t).spacing_.z_⟩ ∧
    (∀ x z : Nat, x < (CreateGeometry env t).patchesX_ → z < (CreateGeometry env t).patchesZ_ →
      ∃ patch patchNode,
        (CreateGeometry env t).patches_[z * (CreateGeometry env t).patchesX_ + x]? = some patch ∧
        (CreateGeometry env t).patchNodes_[z * (CreateGeometry env t).patchesX_ + x]?
          = some patchNode ∧
        patch.x_ = x ∧ patch.z_ = z ∧
        patchNode.position = node.worldTransform
          ⟨(CreateGeometry env t).patchWorldOrigin_.x_
              + (x : ℚ) * ((CreateGeometry env t).patchSize_ : ℚ)
                * (CreateGeometry env t).spacing_.x_,
           0,
           (CreateGeometry env t).patchWorldOrigin_.y_
              + (z : ℚ) * ((CreateGeometry env t).patchSize_ : ℚ)
                * (CreateGeometry env t).spacing_.z_⟩ ∧
        patchNode.scale = node.worldScale ∧
        (node = ⟨⟨0, 0, 0⟩, ⟨1, 1, 1⟩⟩ →
          patchNode.position =
            ⟨(CreateGeometry env t).patchWorldOrigin_.x_
                + (x : ℚ) * ((CreateGeometry env t).patchSize_ : ℚ)
                  * (CreateGeometry env t).spacing_.x_,
             0,
             (CreateGeometry env t).patchWorldOrigin_.y_
                + (z : ℚ) * ((CreateGeometry env t).patchSize_ : ℚ)
                  * (CreateGeometry env t).spacing_.z_⟩ ∧
          patchNode.scale = ⟨1, 1, 1⟩)) ∧
    (CreateGeometry env t).patchWorldOrigin_.x_
        + ((CreateGeometry env t).patchesX_ : ℚ) * ((CreateGeometry env t).patchSize_ : ℚ)
          * (CreateGeometry env t).spacing_.x_
      = -(CreateGeometry env t).patchWorldOrigin_.x_ ∧
    (CreateGeometry env t).patchWorldOrigin_.y_
        + ((CreateGeometry env t).patchesZ_ : ℚ) * ((CreateGeometry env t).patchSize_ : ℚ)
          * (CreateGeometry env t).spacing_.z_
      = -(CreateGeometry env t).patchWorldOrigin_.y_ := by
  have _ := hp
  obtain ⟨hws, ho⟩ := CreateGeometry_origin env t img node hImg hNode hOct
  have hox : (CreateGeometry env t).patchWorldOrigin_.x_
      = -(1 / 2) * ((CreateGeometry env t).patchesX_ : ℚ)
          * ((CreateGeometry env t).spacing_.x_ * ((CreateGeometry env t).patchSize_ : ℚ)) :=
    congrArg Vector2.x_ ho
  have hoz : (CreateGeometry env t).patchWorldOrigin_.y_
      = -(1 / 2) * ((CreateGeometry env t).patchesZ_ : ℚ)
          * ((CreateGeometry env t).spacing_.z_ * ((CreateGeometry env t).patchSize_ : ℚ)) :=
    congrArg Vector2.y_ ho
  refine ⟨?_, ?_, ?_, ?_⟩
  · rw [ho]
    congr 1 <;> ring
  · intro x z hx hz
    obtain ⟨h1, h2⟩ := CreateGeometry_patch_at env t img node hImg hNode hOct x z hx hz
    have hpos : (SetPatchTransform node (CreateGeometry env t).patchWorldOrigin_
          (CreateGeometry env t).patchWorldSize_ (newPatch t x z)).position
        = node.worldTransform
          ⟨(CreateGeometry env t).patchWorldOrigin_.x_
              + (x : ℚ) * ((CreateGeometry env t).patchSize_ : ℚ)
                * (CreateGeometry env t).spacing_.x_,
           0,
           (CreateGeometry env t).patchWorldOrigin_.y_
              + (z : ℚ) * ((CreateGeometry env t).patchSize_ : ℚ)
                * (CreateGeometry env t).spacing_.z_⟩ := by
      rw [hws]
      unfold SetPatchTransform newPatch
      simp only
      congr 2 <;> ring
    refine ⟨_, _, h1, h2, (UpdatePatchGeometry_frame _ _ _).1, (UpdatePatchGeometry_frame _ _ _).2.1,
      hpos, rfl, ?_⟩
    intro hid
    rw [hpos, hid]
    refine ⟨?_, rfl⟩
    unfold Node.worldTransform
    simp
  · rw [hox]; ring
  · rw [hoz]; ring

/-- The example terrain: origin `(-4, -2)`, patch `(1, 0)` placed at `(0, 0, -2)`. -/
theorem CreateGeometry_patch_placement_witness :
    builtTerrain.patchWorldOrigin_ = ⟨-4, -2⟩ ∧
    (∃ patch patchNode, builtTerrain.patches_[1]? = some patch ∧
      builtTerrain.patchNodes_[1]? = some patchNode ∧ patch.x_ = 1 ∧ patch.z_ = 0 ∧
      patchNode.position = ⟨0, 0, -2⟩ ∧ patchNode.scale = ⟨1, 1, 1⟩) ∧
    builtTerrain.patchWorldOrigin_.x_ + 2 * 4 * 1 = -builtTerrain.patchWorldOrigin_.x_ := by
  have h := CreateGeometry_patch_placement attachedEnv exampleTerrain exampleImage identityNode
    rfl rfl rfl (by decide)
  obtain ⟨patch, patchNode, h1, h2, h3, h4, -, -, h5⟩ := h.2.1 1 0 (by decide) (by decide)
  obtain ⟨h6, h7⟩ := h5 rfl
  refine ⟨builtTerrain_origin, ⟨patch, patchNode, h1, h2, h3, h4, ?_, h7⟩, ?_⟩
  · have ho : (CreateGeometry attachedEnv exampleTerrain).patchWorldOrigin_ = ⟨-4, -2⟩ :=
      builtTerrain_origin
    have hs : (CreateGeometry attachedEnv exampleTerrain).spacing_ = ⟨1, 1 / 4, 1⟩ :=
      builtTerrain_spacing
    have hps : (CreateGeometry attachedEnv exampleTerrain).patchSize_ = 4 := rfl
    rw [h6, ho, hs, hps]
    norm_num
  · rw [builtTerrain_origin]
    norm_num

/-! ## C22: height queries agree with the mesh -/

/-- C22: after a rebuild from a well-formed image with the identity node transform, a
successful index buffer lock and a patch size of at most 128, for every patch `(px, pz)`
whose vertex buffer was written and every quad `(x, z)` of it: the vertex `(x1, z1)` is
vertex number `z1 * (p + 1) + x1` and is placed at the terrain-local point of its field
coordinate; with `(i, j) = (px * p + x, pz * p + z)` the two triangles of the quad in the
shared index buffer have the corners `(i, j + 1), (i + 1, j), (i, j)` and
`(i, j + 1), (i + 1, j + 1), (i + 1, j)`, the near and the far triangle of `GetHeight`; for
either triangle and every position over it, edges and corners included, `GetHeight` is
the height of the plane through the triangle; and, for non-zero horizontal spacing, a
position lies over the near triangle exactly when its offsets in the cell are non-negative
with sum at most 1, over the far one exactly when they are at most 1 with sum at least 1.
When all vertex buffers were written, every position inside the terrain lies over a
triangle of the mesh, and `GetHeight` there is the height of that triangle. -/
theorem GetHeight_agrees_with_mesh (env : Env) (t : Terrain) (img : Image)
    (hImg : t.heightMap_ = some img) (hNode : env.node_ = some ⟨⟨0, 0, 0⟩, ⟨1, 1, 1⟩⟩)
    (hOct : env.octree = true) (hILock : env.indexLock = true) (hwf : img.WF)
    (hp1 : 0 < t.patchSize_) (hp2 : t.patchSize_ ≤ 128) :
    (∀ px pz x z : Nat, px < (CreateGeometry env t).patchesX_ →
      pz < (CreateGeometry env t).patchesZ_ → x < t.patchSize_ → z < t.patchSize_ →
      env.vertexLock px pz = true →
      (∀ x1 z1 : Nat, x1 ≤ t.patchSize_ → z1 ≤ t.patchSize_ →
        meshVertex (CreateGeometry env t) (pz * (CreateGeometry env t).patchesX_ + px)
            (z1 * (t.patchSize_ + 1) + x1)
          = some (gridVertex (CreateGeometry env t) (px * t.patchSize_ + x1)
              (pz * t.patchSize_ + z1))) ∧
      meshTriangle (CreateGeometry env t) (pz * (CreateGeometry env t).patchesX_ + px)
          (2 * (z * t.patchSize_ + x))
        = some (gridVertex (CreateGeometry env t) (px * t.patchSize_ + x)
                  (pz * t.patchSize_ + z + 1),
                gridVertex (CreateGeometry env t) (px * t.patchSize_ + x + 1)
                  (pz * t.patchSize_ + z),
                gridVertex (CreateGeometry env t) (px * t.patchSize_ + x)
                  (pz * t.patchSize_ + z)) ∧
      meshTriangle (CreateGeometry env t) (pz * (CreateGeometry env t).patchesX_ + px)
          (2 * (z * t.patchSize_ + x) + 1)
        = some (gridVertex (CreateGeometry env t) (px * t.patchSize_ + x)
                  (pz * t.patchSize_ + z + 1),
                gridVertex (CreateGeometry env t) (px * t.patchSize_ + x + 1)
                  (pz * t.patchSize_ + z + 1),
                gridVertex (CreateGeometry env t) (px * t.patchSize_ + x + 1)
                  (pz * t.patchSize_ + z)) ∧
      (∀ (e : Nat) (A B C w : Vector3), e ≤ 1 →
        meshTriangle (CreateGeometry env t) (pz * (CreateGeometry env t).patchesX_ + px)
          (2 * (z * t.patchSize_ + x) + e) = some (A, B, C) →
        overTriangle A B C w.x_ w.z_ →
        GetHeight env (CreateGeometry env t) w = triangleHeight A B C w.x_ w.z_) ∧
      ((CreateGeometry env t).spacing_.x_ ≠ 0 → (CreateGeometry env t).spacing_.z_ ≠ 0 →
        ∀ w : Vector3,
          (overTriangle
              (gridVertex (CreateGeometry env t) (px * t.patchSize_ + x)
                (pz * t.patchSize_ + z + 1))
              (gridVertex (CreateGeometry env t) (px * t.patchSize_ + x + 1)
                (pz * t.patchSize_ + z))
              (gridVertex (CreateGeometry env t) (px * t.patchSize_ + x)
                (pz * t.patchSize_ + z)) w.x_ w.z_ ↔
            (0 ≤ (w.x_ - (CreateGeometry env t).patchWorldOrigin_.x_)
                  / (CreateGeometry env t).spacing_.x_ - ((px * t.patchSize_ + x : Nat) : ℚ) ∧
             0 ≤ (w.z_ - (CreateGeometry env t).patchWorldOrigin_.y_)
                  / (CreateGeometry env t).spacing_.z_ - ((pz * t.patchSize_ + z : Nat) : ℚ) ∧
             (w.x_ - (CreateGeometry env t).patchWorldOrigin_.x_)
                  / (CreateGeometry env t).spacing_.x_ - ((px * t.patchSize_ + x : Nat) : ℚ)
                + ((w.z_ - (CreateGeometry env t).patchWorldOrigin_.y_)
                  / (CreateGeometry env t).spacing_.z_ - ((pz * t.patchSize_ + z : Nat) : ℚ))
                ≤ 1)) ∧
          (overTriangle
              (gridVertex (CreateGeometry env t) (px * t.patchSize_ + x)
                (pz * t.patchSize_ + z + 1))
              (gridVertex (CreateGeometry env t) (px * t.patchSize_ + x + 1)
                (pz * t.patchSize_ + z + 1))
              (gridVertex (CreateGeometry env t) (px * t.patchSize_ + x + 1)
                (pz * t.patchSize_ + z)) w.x_ w.z_ ↔
            ((w.x_ - (CreateGeometry env t).patchWorldOrigin_.x_)
                  / (CreateGeometry env t).spacing_.x_ - ((px * t.patchSize_ + x : Nat) : ℚ)
                ≤ 1 ∧
             (w.z_ - (CreateGeometry env t).patchWorldOrigin_.y_)
                  / (CreateGeometry env t).spacing_.z_ - ((pz * t.patchSize_ + z : Nat) : ℚ)
                ≤ 1 ∧
             1 ≤ (w.x_ - (CreateGeometry env t).patchWorldOrigin_.x_)
                  / (CreateGeometry env t).spacing_.x_ - ((px * t.patchSize_ + x : Nat) : ℚ)
                + ((w.z_ - (CreateGeometry env t).patchWorldOrigin_.y_)
                  / (CreateGeometry env t).spacing_.z_
                    - ((pz * t.patchSize_ + z : Nat) : ℚ)))))) ∧
    ((∀ px pz : Nat, env.vertexLock px pz = true) →
      (CreateGeometry env t).spacing_.x_ ≠ 0 → (CreateGeometry env t).spacing_.z_ ≠ 0 →
      0 < (CreateGeometry env t).patchesX_ → 0 < (CreateGeometry env t).patchesZ_ →
      ∀ w : Vector3,
        0 ≤ (w.x_ - (CreateGeometry env t).patchWorldOrigin_.x_)
              / (CreateGeometry env t).spacing_.x_ →
        (w.x_ - (CreateGeometry env t).patchWorldOrigin_.x_) / (CreateGeometry env t).spacing_.x_
          ≤ (((CreateGeometry env t).patchesX_ * t.patchSize_ : Nat) : ℚ) →
        0 ≤ (w.z_ - (CreateGeometry env t).patchWorldOrigin_.y_)
              / (CreateGeometry env t).spacing_.z_ →
        (w.z_ - (CreateGeometry env t).patchWorldOrigin_.y_) / (CreateGeometry env t).spacing_.z_
          ≤ (((CreateGeometry env t).patchesZ_ * t.patchSize_ : Nat) : ℚ) →
        ∃ (k tri : Nat) (A B C : Vector3),
          k < (CreateGeometry env t).patches_.length ∧
          meshTriangle (CreateGeometry env t) k tri = some (A, B, C) ∧
          overTriangle A B C w.x_ w.z_ ∧
          GetHeight env (CreateGeometry env t) w = triangleHeight A B C w.x_ w.z_) := by
  constructor
  · intro px pz x z hpx hpz hx hz hLock
    obtain ⟨h1, h2, h3, h4, h5, h6⟩ := mesh_quad_agreement env t img hImg hNode hOct hILock hwf
      hp1 hp2 px pz x z hpx hpz hx hz hLock
    refine ⟨h1, h2, h3, ?_, h6⟩
    intro e A B C w he
    rcases Nat.le_one_iff_eq_zero_or_eq_one.mp he with h | h
    · subst h
      exact h4 A B C w
    · subst h
      exact h5 A B C w
  · intro hLocks hsx hsz hnx hnz w gx0 gx1 gz0 gz1
    obtain ⟨i, hi, ha0, ha1⟩ := cell_of_coord _ _ (Nat.mul_pos hnx hp1) gx0 gx1
    obtain ⟨j, hj, hb0, hb1⟩ := cell_of_coord _ _ (Nat.mul_pos hnz hp1) gz0 gz1
    have hpx : i / t.patchSize_ < (CreateGeometry env t).patchesX_ :=
      Nat.div_lt_of_lt_mul (by rw [Nat.mul_comm]; exact hi)
    have hpz : j / t.patchSize_ < (CreateGeometry env t).patchesZ_ :=
      Nat.div_lt_of_lt_mul (by rw [Nat.mul_comm]; exact hj)
    have hx : i % t.patchSize_ < t.patchSize_ := Nat.mod_lt _ hp1
    have hz : j % t.patchSize_ < t.patchSize_ := Nat.mod_lt _ hp1
    have ei : i / t.patchSize_ * t.patchSize_ + i % t.patchSize_ = i := Nat.div_add_mod' i _
    have ej : j / t.patchSize_ * t.patchSize_ + j % t.patchSize_ = j := Nat.div_add_mod' j _
    obtain ⟨-, h2, h3, h4, h5, h6⟩ := mesh_quad_agreement env t img hImg hNode hOct hILock hwf
      hp1 hp2 (i / t.patchSize_) (j / t.patchSize_) (i % t.patchSize_) (j % t.patchSize_)
      hpx hpz hx hz (hLocks _ _)
    obtain ⟨hnear, hfar⟩ := h6 hsx hsz w
    rw [ei, ej] at hnear hfar h2 h3
    have hk : j / t.patchSize_ * (CreateGeometry env t).patchesX_ + i / t.patchSize_
        < (CreateGeometry env t).patches_.length := by
      obtain ⟨hpat, -⟩ := CreateGeometry_patch_at env t img _ hImg hNode hOct _ _ hpx hpz
      by_contra hcon
      rw [List.getElem?_eq_none (Nat.le_of_not_lt hcon)] at hpat
      exact Option.noConfusion hpat
    by_cases hab : (w.x_ - (CreateGeometry env t).patchWorldOrigin_.x_)
          / (CreateGeometry env t).spacing_.x_ - (i : ℚ)
        + ((w.z_ - (CreateGeometry env t).patchWorldOrigin_.y_)
          / (CreateGeometry env t).spacing_.z_ - (j : ℚ)) ≤ 1
    · have hover := hnear.mpr ⟨ha0, hb0, hab⟩
      exact ⟨_, _, _, _, _, hk, h2, hover, h4 _ _ _ w h2 hover⟩
    · have hover := hfar.mpr ⟨ha1, hb1, by linarith⟩
      exact ⟨_, _, _, _, _, hk, h3, hover, h5 _ _ _ w h3 hover⟩

/-- The example terrain: the position `(11/5, -7/10)`, at the offsets `(1/5, 3/10)` in the
grid cell `(6, 1)`, lies over the first triangle of quad `(2, 1)` of patch `(1, 0)` and
`GetHeight` is the height of that triangle; the far corner `(4, 2)` of the terrain lies
over a triangle of the mesh too. -/
theorem GetHeight_agrees_with_mesh_witness :
    exampleImage.WF ∧
    (∃ A B C : Vector3,
      meshTriangle (CreateGeometry attachedEnv exampleTerrain)
        (0 * (CreateGeometry attachedEnv exampleTerrain).patchesX_ + 1)
        (2 * (1 * exampleTerrain.patchSize_ + 2) + 0) = some (A, B, C) ∧
      overTriangle A B C (11 / 5) (-7 / 10) ∧
      GetHeight attachedEnv (CreateGeometry attachedEnv exampleTerrain) ⟨11 / 5, 0, -7 / 10⟩
        = triangleHeight A B C (11 / 5) (-7 / 10)) ∧
    (∃ (k tri : Nat) (A B C : Vector3),
      k < (CreateGeometry attachedEnv exampleTerrain).patches_.length ∧
      meshTriangle (CreateGeometry attachedEnv exampleTerrain) k tri = some (A, B, C) ∧
      overTriangle A B C 4 2 ∧
      GetHeight attachedEnv (CreateGeometry attachedEnv exampleTerrain) ⟨4, 0, 2⟩
        = triangleHeight A B C 4 2) := by
  have h := GetHeight_agrees_with_mesh attachedEnv exampleTerrain exampleImage rfl rfl rfl rfl
    exampleImage_wf (by decide) (by decide)
  have ho : (CreateGeometry attachedEnv exampleTerrain).patchWorldOrigin_ = ⟨-4, -2⟩ :=
    builtTerrain_origin
  have hs : (CreateGeometry attachedEnv exampleTerrain).spacing_ = ⟨1, 1 / 4, 1⟩ :=
    builtTerrain_spacing
  have hp : exampleTerrain.patchSize_ = 4 := rfl
  have hnx : (CreateGeometry attachedEnv exampleTerrain).patchesX_ = 2 := by decide
  have hnz : (CreateGeometry attachedEnv exampleTerrain).patchesZ_ = 1 := by decide
  have hsx : (CreateGeometry attachedEnv exampleTerrain).spacing_.x_ ≠ 0 := by
    rw [hs]; norm_num
  have hsz : (CreateGeometry attachedEnv exampleTerrain).spacing_.z_ ≠ 0 := by
    rw [hs]; norm_num
  obtain ⟨-, h2, -, h4, h6⟩ := h.1 1 0 2 1 (by decide) (by decide) (by decide) (by decide) rfl
  have hover := ((h6 hsx hsz ⟨11 / 5, 0, -7 / 10⟩).1).mpr (by
    simp only [ho, hs, hp]
    norm_num)
  have hcover := h.2 (fun _ _ => rfl) hsx hsz (by decide) (by decide) ⟨4, 0, 2⟩
    (by simp only [ho, hs]; norm_num) (by simp only [ho, hs, hnx, hp]; norm_num)
    (by simp only [ho, hs]; norm_num) (by simp only [ho, hs, hnz, hp]; norm_num)
  exact ⟨exampleImage_wf, ⟨_, _, _, h2, hover, h4 0 _ _ _ ⟨11 / 5, 0, -7 / 10⟩ (by decide) h2 hover⟩,
    hcover⟩

/-! ## C23: the normal formula -/

/-- C23: for all arguments `(x, z)`, `GetNormal(x, z)` is `Normalized` applied to the
vector `(-ne - e - se + sw + w + nw, 8, n + ne - se - s - sw + nw)`, where each letter is
`GetRawHeight` at that neighbour (`n = (x, z - 1)`, `e = (x + 1, z)`, `s = (x, z + 1)`,
`w = (x - 1, z)`, in `unsigned` arithmetic) minus `GetRawHeight(x, z)`. On a built field, at
a coordinate inside it, the wrapped neighbour `x - 1` of the edge 0 and the neighbour
`x + 1` of the last column read the edge sample itself, and likewise for `z`. The `y`
component of the vector is 8, so its squared length is at least 64: `Normalized` divides
by the length, never by zero. The result `(nx, ny, nz)`, the vector divided by the square
root of its squared length, has unit length and a strictly positive `y` over the real
numbers, and it is `(0, 1, 0)` on a flat field and on a field without height data. -/
theorem GetNormal_formula (t : Terrain) (x z : Nat) :
    GetNormal t x z = Vector3.Normalized
      ⟨-(GetRawHeight t ((x + 1) % 4294967296) ((z + 4294967295) % 4294967296)
            - GetRawHeight t x z)
        - (GetRawHeight t ((x + 1) % 4294967296) z - GetRawHeight t x z)
        - (GetRawHeight t ((x + 1) % 4294967296) ((z + 1) % 4294967296) - GetRawHeight t x z)
        + (GetRawHeight t ((x + 4294967295) % 4294967296) ((z + 1) % 4294967296)
            - GetRawHeight t x z)
        + (GetRawHeight t ((x + 4294967295) % 4294967296) z - GetRawHeight t x z)
        + (GetRawHeight t ((x + 4294967295) % 4294967296) ((z + 4294967295) % 4294967296)
            - GetRawHeight t x z),
       8,
       (GetRawHeight t x ((z + 4294967295) % 4294967296) - GetRawHeight t x z)
        + (GetRawHeight t ((x + 1) % 4294967296) ((z + 4294967295) % 4294967296)
            - GetRawHeight t x z)
        - (GetRawHeight t ((x + 1) % 4294967296) ((z + 1) % 4294967296) - GetRawHeight t x z)
        - (GetRawHeight t x ((z + 1) % 4294967296) - GetRawHeight t x z)
        - (GetRawHeight t ((x + 4294967295) % 4294967296) ((z + 1) % 4294967296)
            - GetRawHeight t x z)
        + (GetRawHeight t ((x + 4294967295) % 4294967296) ((z + 4294967295) % 4294967296)
            - GetRawHeight t x z)⟩ ∧
    (Built t → (x : Int) < t.size_.x_ → (z : Int) < t.size_.y_ →
      ∀ x2 z2 : Nat,
        GetRawHeight t ((x + 4294967295) % 4294967296) z2 = GetRawHeight t (x - 1) z2 ∧
        GetRawHeight t ((x + 1) % 4294967296) z2
          = GetRawHeight t (min (x + 1) (t.size_.x_ - 1).toNat) z2 ∧
        GetRawHeight t x2 ((z + 4294967295) % 4294967296) = GetRawHeight t x2 (z - 1) ∧
        GetRawHeight t x2 ((z + 1) % 4294967296)
          = GetRawHeight t x2 (min (z + 1) (t.size_.y_ - 1).toNat)) ∧
    (GetNormal t x z).direction = normalSum t x z ∧
    (GetNormal t x z).direction.y_ = 8 ∧
    (GetNormal t x z).lengthSquared
      = (normalSum t x z).DotProduct (normalSum t x z) ∧
    64 ≤ (GetNormal t x z).lengthSquared ∧
    (let length : ℝ := Real.sqrt ((GetNormal t x z).lengthSquared : ℝ)
     let nx : ℝ := ((GetNormal t x z).direction.x_ : ℝ) / length
     let ny : ℝ := ((GetNormal t x z).direction.y_ : ℝ) / length
     let nz : ℝ := ((GetNormal t x z).direction.z_ : ℝ) / length
     nx ^ 2 + ny ^ 2 + nz ^ 2 = 1 ∧
     0 < ny ∧
     ((∀ x2 z2 : Nat, GetRawHeight t x2 z2 = GetRawHeight t x z) →
       nx = 0 ∧ ny = 1 ∧ nz = 0) ∧
     (t.heightData_ = none → nx = 0 ∧ ny = 1 ∧ nz = 0)) := by
  obtain ⟨hy, hlen⟩ := normalSum_length t x z
  obtain ⟨hunit, hypos, hup⟩ := GetNormal_unit t x z
  refine ⟨?_, ?_, ?_, ?_, ?_, ?_, hunit, hypos, ?_, ?_⟩
  · unfold GetNormal
    rw [normalSum_eq]
  · intro hb hx hz x2 z2
    obtain ⟨-, -, hx1, hz1, hs, -⟩ := hb
    have hX : t.size_.x_ < 2147483648 := by nlinarith
    have hZ : t.size_.y_ < 2147483648 := by nlinarith
    refine ⟨?_, ?_, ?_, ?_⟩
    · exact GetRawHeight_clamp_congr t _ _ _ _
        (Clamp_pred_wrap x _ (by omega) (by omega) (by omega)) rfl
    · exact GetRawHeight_clamp_congr t _ _ _ _
        (Clamp_succ_edge x _ (by omega) (by omega) (by omega)) rfl
    · exact GetRawHeight_clamp_congr t _ _ _ _ rfl
        (Clamp_pred_wrap z _ (by omega) (by omega) (by omega))
    · exact GetRawHeight_clamp_congr t _ _ _ _ rfl
        (Clamp_succ_edge z _ (by omega) (by omega) (by omega))
  · rw [GetNormal_eq]
  · rw [GetNormal_eq]
    exact hy
  · rw [GetNormal_eq]
  · rw [GetNormal_eq]
    exact hlen
  · intro hflat
    apply hup
    rw [normalSum_eq]
    simp only [hflat ((x + 1) % 4294967296) _, hflat ((x + 4294967295) % 4294967296) _,
      hflat x _]
    norm_num
  · intro hnone
    exact hup (normalSum_unbuilt t hnone x z)

/-- The rebuilt example terrain at the edge `(3, 0)`, where the wrapped neighbour `z - 1`
reads the edge row, and a fresh terrain, flat and without height data, where the normal is
`(0, 1, 0)`. -/
theorem GetNormal_formula_witness :
    (Built builtTerrain ∧ ((3 : Nat) : Int) < builtTerrain.size_.x_ ∧
      ((0 : Nat) : Int) < builtTerrain.size_.y_) ∧
    GetRawHeight builtTerrain 3 ((0 + 4294967295) % 4294967296)
      = GetRawHeight builtTerrain 3 (0 - 1) ∧
    (construct exampleDefaults).heightData_ = none ∧
    GetRawHeight (construct exampleDefaults) 7 9 = GetRawHeight (construct exampleDefaults) 0 0 ∧
    ((GetNormal (construct exampleDefaults) 0 0).direction.y_ : ℝ)
      / Real.sqrt ((GetNormal (construct exampleDefaults) 0 0).lengthSquared : ℝ) = 1 ∧
    ((GetNormal (construct exampleDefaults) 5 7).direction.x_ : ℝ)
      / Real.sqrt ((GetNormal (construct exampleDefaults) 5 7).lengthSquared : ℝ) = 0 := by
  have h1 := GetNormal_formula builtTerrain 3 0
  have h3 := GetNormal_formula (construct exampleDefaults) 0 0
  have h4 := GetNormal_formula (construct exampleDefaults) 5 7
  have hzero : ∀ x2 z2 : Nat, GetRawHeight (construct exampleDefaults) x2 z2
      = GetRawHeight (construct exampleDefaults) 0 0 := by
    intro x2 z2
    rw [GetRawHeight_unbuilt _ rfl, GetRawHeight_unbuilt _ rfl]
  have hb : Built builtTerrain ∧ ((3 : Nat) : Int) < builtTerrain.size_.x_ ∧
      ((0 : Nat) : Int) < builtTerrain.size_.y_ := ⟨builtTerrain_built, by decide, by decide⟩
  exact ⟨hb, ((h1.2.1 hb.1 hb.2.1 hb.2.2) 3 3).2.2.1, rfl, hzero 7 9,
    (h3.2.2.2.2.2.2.2.2.1 hzero).2.1, (h4.2.2.2.2.2.2.2.2.2 rfl).1⟩

/-! ## C24: the tangent -/

/-- C24: when the vertex buffer lock succeeds, every vertex written by
`UpdatePatchGeometry` has as normal `n` a value of `GetNormal`, as tangent `Normalized`
applied to `g = (1, 0, 0) - n * n.DotProduct((1, 0, 0))`, which over the real numbers is
`(1 - nx * nx, -ny * nx, -nz * nx)`, and handedness exactly 1. The `x` component of `g` is
positive, so `g` is not zero and `Normalized` divides it by its length; the tangent
`(tx, ty, tz)`, the vector `g` divided by the square root of its squared length, has unit
length, is orthogonal to `n` and has a strictly positive `x` component, over the real
numbers. -/
theorem UpdatePatchGeometry_tangent (env : Env) (t : Terrain) (patch : TerrainPatch)
    (hLock : env.vertexLock patch.x_ patch.z_ = true) :
    ∃ vertices, (UpdatePatchGeometry env t patch).vertexData = some vertices ∧
      ∀ v ∈ vertices,
        let g : Vector3 := Vector3.RIGHT.sub (v.normal.scaledByDotProduct Vector3.RIGHT)
        let nx : ℝ := (v.normal.direction.x_ : ℝ) / Real.sqrt (v.normal.lengthSquared : ℝ)
        let ny : ℝ := (v.normal.direction.y_ : ℝ) / Real.sqrt (v.normal.lengthSquared : ℝ)
        let nz : ℝ := (v.normal.direction.z_ : ℝ) / Real.sqrt (v.normal.lengthSquared : ℝ)
        let tx : ℝ := (v.tangent.direction.x_ : ℝ) / Real.sqrt (v.tangent.lengthSquared : ℝ)
        let ty : ℝ := (v.tangent.direction.y_ : ℝ) / Real.sqrt (v.tangent.lengthSquared : ℝ)
        let tz : ℝ := (v.tangent.direction.z_ : ℝ) / Real.sqrt (v.tangent.lengthSquared : ℝ)
        (∃ x z : Nat, v.normal = GetNormal t x z) ∧
        v.tangent = g.Normalized ∧
        v.tangentW = 1 ∧
        (g.x_ : ℝ) = 1 - nx * (nx * 1 + ny * 0 + nz * 0) ∧
        (g.y_ : ℝ) = 0 - ny * (nx * 1 + ny * 0 + nz * 0) ∧
        (g.z_ : ℝ) = 0 - nz * (nx * 1 + ny * 0 + nz * 0) ∧
        0 < g.x_ ∧
        v.tangent.direction = g ∧
        v.tangent.lengthSquared = g.DotProduct g ∧
        0 < v.tangent.lengthSquared ∧
        tx ^ 2 + ty ^ 2 + tz ^ 2 = 1 ∧
        tx * nx + ty * ny + tz * nz = 0 ∧
        0 < tx := by
  refine ⟨patchVertices t patch, (UpdatePatchGeometry_locked env t patch hLock).1, ?_⟩
  intro v hv
  obtain ⟨x1, z1, -, -, rfl⟩ := mem_patchVertices t patch v hv
  refine ⟨⟨_, _, rfl⟩, rfl, rfl, ?_⟩
  exact tangent_of_normal _ (by rw [(normalSum_length t _ _).1]; norm_num) _ _ _
    (GetNormal_eq t _ _) rfl rfl

/-- The vertex `(1, 1)` of the patch `(0, 0)` of the example terrain: its normal is
`(-3/2, 8, 27/2)` divided by the square root of `497 / 2`, its tangent `(985, 48, 81) / 994`
divided by the square root of `985 / 994`, a unit vector orthogonal to the normal with
positive `x`, and its handedness is 1. -/
theorem UpdatePatchGeometry_tangent_witness :
    attachedEnv.vertexLock (newPatch exampleTerrain 0 0).x_ (newPatch exampleTerrain 0 0).z_
      = true ∧
    builtPatch.vertexData
      = some (patchVertices (prepareGeometry attachedEnv exampleTerrain exampleImage)
          (newPatch exampleTerrain 0 0)) ∧
    builtVertex ∈ patchVertices (prepareGeometry attachedEnv exampleTerrain exampleImage)
      (newPatch exampleTerrain 0 0) ∧
    builtVertex.normal = ⟨⟨-3 / 2, 8, 27 / 2⟩, 497 / 2⟩ ∧
    builtVertex.tangent = ⟨⟨985 / 994, 24 / 497, 81 / 994⟩, 985 / 994⟩ ∧
    builtVertex.tangentW = 1 ∧
    (let nx : ℝ := (builtVertex.normal.direction.x_ : ℝ)
        / Real.sqrt (builtVertex.normal.lengthSquared : ℝ)
     let ny : ℝ := (builtVertex.normal.direction.y_ : ℝ)
        / Real.sqrt (builtVertex.normal.lengthSquared : ℝ)
     let nz : ℝ := (builtVertex.normal.direction.z_ : ℝ)
        / Real.sqrt (builtVertex.normal.lengthSquared : ℝ)
     let tx : ℝ := (builtVertex.tangent.direction.x_ : ℝ)
        / Real.sqrt (builtVertex.tangent.lengthSquared : ℝ)
     let ty : ℝ := (builtVertex.tangent.direction.y_ : ℝ)
        / Real.sqrt (builtVertex.tangent.lengthSquared : ℝ)
     let tz : ℝ := (builtVertex.tangent.direction.z_ : ℝ)
        / Real.sqrt (builtVertex.tangent.lengthSquared : ℝ)
     tx ^ 2 + ty ^ 2 + tz ^ 2 = 1 ∧ tx * nx + ty * ny + tz * nz = 0 ∧ 0 < tx) := by
  obtain ⟨vs, hvs, hall⟩ := UpdatePatchGeometry_tangent attachedEnv
    (prepareGeometry attachedEnv exampleTerrain exampleImage) (newPatch exampleTerrain 0 0) rfl
  have hl := (UpdatePatchGeometry_locked attachedEnv
    (prepareGeometry attachedEnv exampleTerrain exampleImage) (newPatch exampleTerrain 0 0) rfl).1
  have hvs2 : patchVertices (prepareGeometry attachedEnv exampleTerrain exampleImage)
      (newPatch exampleTerrain 0 0) = vs := Option.some.inj (hl.symm.trans hvs)
  have hmem : builtVertex ∈ patchVertices
      (prepareGeometry attachedEnv exampleTerrain exampleImage) (newPatch exampleTerrain 0 0) :=
    List.getElem?_mem (patchVertices_getElem
      (prepareGeometry attachedEnv exampleTerrain exampleImage) (newPatch exampleTerrain 0 0) 1 1
      (by decide) (by decide))
  obtain ⟨-, -, h3, -, -, -, -, -, -, -, h5, h6, h7⟩ := hall builtVertex (hvs2 ▸ hmem)
  exact ⟨rfl, hl, hmem, builtVertex_eq.1, builtVertex_eq.2, h3, h5, h6, h7⟩

/-! ## C25: texture coordinates -/

/-- C25: after a rebuild from a well-formed image, the vertex `(x1, z1)` of the patch
`(px, pz)`, found at vertex number `z1 * (p + 1) + x1` of the patch at list index
`pz * patchesX_ + px`, has the texture coordinate `(xPos / size.x, 1 - zPos / size.y)` for
the field coordinate `(xPos, zPos) = (px * p + x1, pz * p + z1)`, which lies inside the
field; the coordinate lies in `[0, 1) x (0, 1]` in exact arithmetic. Its height is the byte
of image row `r = size.y - 1 - zPos` and column `xPos` times `spacing_.y_`, and its `V` is
`(r + 1) / size.y`. -/
theorem CreateGeometry_texCoord (env : Env) (t : Terrain) (img : Image) (node : Node)
    (hImg : t.heightMap_ = some img) (hNode : env.node_ = some node)
    (hOct : env.octree = true) (hwf : img.WF) (hp : 0 < t.patchSize_)
    (px pz x1 z1 : Nat)
    (hpx : px < (CreateGeometry env t).patchesX_) (hpz : pz < (CreateGeometry env t).patchesZ_)
    (hx1 : x1 ≤ t.patchSize_) (hz1 : z1 ≤ t.patchSize_)
    (hLock : env.vertexLock px pz = true) :
    ∃ v, patchVertexAt (CreateGeometry env t) (pz * (CreateGeometry env t).patchesX_ + px)
        (z1 * (t.patchSize_ + 1) + x1) = some v ∧
      v.texCoord =
        ⟨((px * t.patchSize_ + x1 : Nat) : ℚ) / ((CreateGeometry env t).size_.x_ : ℚ),
         1 - ((pz * t.patchSize_ + z1 : Nat) : ℚ) / ((CreateGeometry env t).size_.y_ : ℚ)⟩ ∧
      0 ≤ v.texCoord.x_ ∧ v.texCoord.x_ < 1 ∧ 0 < v.texCoord.y_ ∧ v.texCoord.y_ ≤ 1 ∧
      ((px * t.patchSize_ + x1 : Nat) : Int) < (CreateGeometry env t).size_.x_ ∧
      ((pz * t.patchSize_ + z1 : Nat) : Int) < (CreateGeometry env t).size_.y_ ∧
      v.position.y_
        = ((img.data.getD
            (img.width.toNat * img.components
                * ((CreateGeometry env t).size_.y_ - 1
                    - ((pz * t.patchSize_ + z1 : Nat) : Int)).toNat
              + img.components * (px * t.patchSize_ + x1)) 0 : Nat) : ℚ)
          * (CreateGeometry env t).spacing_.y_ ∧
      v.texCoord.y_
        = ((((CreateGeometry env t).size_.y_ - 1 - ((pz * t.patchSize_ + z1 : Nat) : Int)) + 1
            : Int) : ℚ) / ((CreateGeometry env t).size_.y_ : ℚ) := by
  have _ := hp
  obtain ⟨-, hsx, hsy, hbx, hbz⟩ := CreateGeometry_counts env t img node hImg hNode hOct hwf
  have hX := fieldCoord_lt px _ t.patchSize_ x1 hpx hx1
  have hZ := fieldCoord_lt pz _ t.patchSize_ z1 hpz hz1
  have hXi : ((px * t.patchSize_ + x1 : Nat) : Int) < (CreateGeometry env t).size_.x_ := by
    rw [hsx]; exact_mod_cast hX
  have hZi : ((pz * t.patchSize_ + z1 : Nat) : Int) < (CreateGeometry env t).size_.y_ := by
    rw [hsy]; exact_mod_cast hZ
  have hXq : ((px * t.patchSize_ + x1 : Nat) : ℚ) < ((CreateGeometry env t).size_.x_ : ℚ) := by
    have : (((px * t.patchSize_ + x1 : Nat) : Int) : ℚ) < ((CreateGeometry env t).size_.x_ : ℚ) :=
      Int.cast_lt.mpr hXi
    simpa using this
  have hZq : ((pz * t.patchSize_ + z1 : Nat) : ℚ) < ((CreateGeometry env t).size_.y_ : ℚ) := by
    have : (((pz * t.patchSize_ + z1 : Nat) : Int) : ℚ) < ((CreateGeometry env t).size_.y_ : ℚ) :=
      Int.cast_lt.mpr hZi
    simpa using this
  have hX0 : (0 : ℚ) ≤ ((px * t.patchSize_ + x1 : Nat) : ℚ) := Nat.cast_nonneg _
  have hZ0 : (0 : ℚ) ≤ ((pz * t.patchSize_ + z1 : Nat) : ℚ) := Nat.cast_nonneg _
  have hSx : (0 : ℚ) < ((CreateGeometry env t).size_.x_ : ℚ) := lt_of_le_of_lt hX0 hXq
  have hSy : (0 : ℚ) < ((CreateGeometry env t).size_.y_ : ℚ) := lt_of_le_of_lt hZ0 hZq
  refine ⟨_, CreateGeometry_patchVertexAt env t img node hImg hNode hOct px pz x1 z1 hpx hpz
    hx1 hz1 hLock, ?_⟩
  rw [patchVertex_prepared env t img node hImg hNode hOct hwf px pz x1 z1 hpx hpz hx1 hz1]
  simp only
  refine ⟨trivial, div_nonneg hX0 hSx.le, (div_lt_one hSx).mpr hXq, ?_, ?_, hXi, hZi, ?_, ?_⟩
  · have : ((pz * t.patchSize_ + z1 : Nat) : ℚ) / ((CreateGeometry env t).size_.y_ : ℚ) < 1 :=
      (div_lt_one hSy).mpr hZq
    linarith
  · have : 0 ≤ ((pz * t.patchSize_ + z1 : Nat) : ℚ) / ((CreateGeometry env t).size_.y_ : ℚ) :=
      div_nonneg hZ0 hSy.le
    linarith
  · exact (rawHeight_after_CreateGeometry env t img node hImg hNode hOct hwf _ _ hXi hZi).2
  · have hne := hSy.ne'
    push_cast
    field_simp
    ring

/-- The vertex `(2, 3)` of the patch `(1, 0)` of the example terrain. -/
theorem CreateGeometry_texCoord_witness :
    exampleImage.WF ∧ attachedEnv.vertexLock 1 0 = true ∧
    ∃ v, patchVertexAt (CreateGeometry attachedEnv exampleTerrain)
        (0 * (CreateGeometry attachedEnv exampleTerrain).patchesX_ + 1)
        (3 * (exampleTerrain.patchSize_ + 1) + 2) = some v ∧
      0 ≤ v.texCoord.x_ ∧ v.texCoord.x_ < 1 ∧ 0 < v.texCoord.y_ ∧ v.texCoord.y_ ≤ 1 := by
  obtain ⟨v, h1, -, h3, h4, h5, h6, -⟩ := CreateGeometry_texCoord attachedEnv exampleTerrain
    exampleImage identityNode rfl rfl rfl exampleImage_wf (by decide) 1 0 2 3 (by decide)
    (by decide) (by decide) (by decide) rfl
  exact ⟨exampleImage_wf, rfl, v, h1, h3, h4, h5, h6⟩

/-! ## C26: setters and the attributes of other setters -/

/-- C26: `SetOccludee` changes an attribute that is not its own. On a freshly
constructed terrain `IsOccluder()` is `false`, and after `SetOccludee(true)` it is `true`; in
every state `SetOccludee(v)` makes `IsOccluder()` return `v`. Every other getter, and the
patch size, spacing, heightmap and LOD-level count, are unchanged by `SetOccludee`, and each
of the other eleven setters leaves all getters but its own, and these four fields,
unchanged. -/
theorem SetOccludee_changes_IsOccluder :
    IsOccluder (construct exampleDefaults) = false ∧
    IsOccluder (SetOccludee (construct exampleDefaults) true) = true ∧
    IsOccluder (SetOccludee (construct exampleDefaults) true)
      ≠ IsOccluder (construct exampleDefaults) ∧
    (∀ (t : Terrain) (v : Bool), IsOccluder (SetOccludee t v) = v) ∧
    (∀ (t : Terrain) (v : ℚ),
      GetShadowDistance (SetDrawDistance t v) = GetShadowDistance t ∧
      GetLodBias (SetDrawDistance t v) = GetLodBias t ∧
      GetViewMask (SetDrawDistance t v) = GetViewMask t ∧
      GetLightMask (SetDrawDistance t v) = GetLightMask t ∧
      GetShadowMask (SetDrawDistance t v) = GetShadowMask t ∧
      GetZoneMask (SetDrawDistance t v) = GetZoneMask t ∧
      GetMaxLights (SetDrawDistance t v) = GetMaxLights t ∧
      IsVisible (SetDrawDistance t v) = IsVisible t ∧
      GetCastShadows (SetDrawDistance t v) = GetCastShadows t ∧
      IsOccluder (SetDrawDistance t v) = IsOccluder t ∧
      IsOccludee (SetDrawDistance t v) = IsOccludee t ∧
      GetPatchSize (SetDrawDistance t v) = GetPatchSize t ∧
      GetSpacing (SetDrawDistance t v) = GetSpacing t ∧
      GetHeightMap (SetDrawDistance t v) = GetHeightMap t ∧
      (SetDrawDistance t v).numLodLevels_ = t.numLodLevels_) ∧
    (∀ (t : Terrain) (v : ℚ),
      GetDrawDistance (SetShadowDistance t v) = GetDrawDistance t ∧
      GetLodBias (SetShadowDistance t v) = GetLodBias t ∧
      GetViewMask (SetShadowDistance t v) = GetViewMask t ∧
      GetLightMask (SetShadowDistance t v) = GetLightMask t ∧
      GetShadowMask (SetShadowDistance t v) = GetShadowMask t ∧
      GetZoneMask (SetShadowDistance t v) = GetZoneMask t ∧
      GetMaxLights (SetShadowDistance t v) = GetMaxLights t ∧
      IsVisible (SetShadowDistance t v) = IsVisible t ∧
      GetCastShadows (SetShadowDistance t v) = GetCastShadows t ∧
      IsOccluder (SetShadowDistance t v) = IsOccluder t ∧
      IsOccludee (SetShadowDistance t v) = IsOccludee t ∧
      GetPatchSize (SetShadowDistance t v) = GetPatchSize t ∧
      GetSpacing (SetShadowDistance t v) = GetSpacing t ∧
      GetHeightMap (SetShadowDistance t v) = GetHeightMap t ∧
      (SetShadowDistance t v).numLodLevels_ = t.numLodLevels_) ∧
    (∀ (t : Terrain) (v : ℚ),
      GetDrawDistance (SetLodBias t v) = GetDrawDistance t ∧
      GetShadowDistance (SetLodBias t v) = GetShadowDistance t ∧
      GetViewMask (SetLodBias t v) = GetViewMask t ∧
      GetLightMask (SetLodBias t v) = GetLightMask t ∧
      GetShadowMask (SetLodBias t v) = GetShadowMask t ∧
      GetZoneMask (SetLodBias t v) = GetZoneMask t ∧
      GetMaxLights (SetLodBias t v) = GetMaxLights t ∧
      IsVisible (SetLodBias t v) = IsVisible t ∧
      GetCastShadows (SetLodBias t v) = GetCastShadows t ∧
      IsOccluder (SetLodBias t v) = IsOccluder t ∧
      IsOccludee (SetLodBias t v) = IsOccludee t ∧
      GetPatchSize (SetLodBias t v) = GetPatchSize t ∧
      GetSpacing (SetLodBias t v) = GetSpacing t ∧
      GetHeightMap (SetLodBias t v) = GetHeightMap t ∧
      (SetLodBias t v).numLodLevels_ = t.numLodLevels_) ∧
    (∀ (t : Terrain) (v : Nat),
      GetDrawDistance (SetViewMask t v) = GetDrawDistance t ∧
      GetShadowDistance (SetViewMask t v) = GetShadowDistance t ∧
      GetLodBias (SetViewMask t v) = GetLodBias t ∧
      GetLightMask (SetViewMask t v) = GetLightMask t ∧
      GetShadowMask (SetViewMask t v) = GetShadowMask t ∧
      GetZoneMask (SetViewMask t v) = GetZoneMask t ∧
      GetMaxLights (SetViewMask t v) = GetMaxLights t ∧
      IsVisible (SetViewMask t v) = IsVisible t ∧
      GetCastShadows (SetViewMask t v) = GetCastShadows t ∧
      IsOccluder (SetViewMask t v) = IsOccluder t ∧
      IsOccludee (SetViewMask t v) = IsOccludee t ∧
      GetPatchSize (SetViewMask t v) = GetPatchSize t ∧
      GetSpacing (SetViewMask t v) = GetSpacing t ∧
      GetHeightMap (SetViewMask t v) = GetHeightMap t ∧
      (SetViewMask t v).numLodLevels_ = t.numLodLevels_) ∧
    (∀ (t : Terrain) (v : Nat),
      GetDrawDistance (SetLightMask t v) = GetDrawDistance t ∧
      GetShadowDistance (SetLightMask t v) = GetShadowDistance t ∧
      GetLodBias (SetLightMask t v) = GetLodBias t ∧
      GetViewMask (SetLightMask t v) = GetViewMask t ∧
      GetShadowMask (SetLightMask t v) = GetShadowMask t ∧
      GetZoneMask (SetLightMask t v) = GetZoneMask t ∧
      GetMaxLights (SetLightMask t v) = GetMaxLights t ∧
      IsVisible (SetLightMask t v) = IsVisible t ∧
      GetCastShadows (SetLightMask t v) = GetCastShadows t ∧
      IsOccluder (SetLightMask t v) = IsOccluder t ∧
      IsOccludee (SetLightMask t v) = IsOccludee t ∧
      GetPatchSize (SetLightMask t v) = GetPatchSize t ∧
      GetSpacing (SetLightMask t v) = GetSpacing t ∧
      GetHeightMap (SetLightMask t v) = GetHeightMap t ∧
      (SetLightMask t v).numLodLevels_ = t.numLodLevels_) ∧
    (∀ (t : Terrain) (v : Nat),
      GetDrawDistance (SetShadowMask t v) = GetDrawDistance t ∧
      GetShadowDistance (SetShadowMask t v) = GetShadowDistance t ∧
      GetLodBias (SetShadowMask t v) = GetLodBias t ∧
      GetViewMask (SetShadowMask t v) = GetViewMask t ∧
      GetLightMask (SetShadowMask t v) = GetLightMask t ∧
      GetZoneMask (SetShadowMask t v) = GetZoneMask t ∧
      GetMaxLights (SetShadowMask t v) = GetMaxLights t ∧
      IsVisible (SetShadowMask t v) = IsVisible t ∧
      GetCastShadows (SetShadowMask t v) = GetCastShadows t ∧
      IsOccluder (SetShadowMask t v) = IsOccluder t ∧
      IsOccludee (SetShadowMask t v) = IsOccludee t ∧
      GetPatchSize (SetShadowMask t v) = GetPatchSize t ∧
      GetSpacing (SetShadowMask t v) = GetSpacing t ∧
      GetHeightMap (SetShadowMask t v) = GetHeightMap t ∧
      (SetShadowMask t v).numLodLevels_ = t.numLodLevels_) ∧
    (∀ (t : Terrain) (v : Nat),
      GetDrawDistance (SetZoneMask t v) = GetDrawDistance t ∧
      GetShadowDistance (SetZoneMask t v) = GetShadowDistance t ∧
      GetLodBias (SetZoneMask t v) = GetLodBias t ∧
      GetViewMask (SetZoneMask t v) = GetViewMask t ∧
      GetLightMask (SetZoneMask t v) = GetLightMask t ∧
      GetShadowMask (SetZoneMask t v) = GetShadowMask t ∧
      GetMaxLights (SetZoneMask t v) = GetMaxLights t ∧
      IsVisible (SetZoneMask t v) = IsVisible t ∧
      GetCastShadows (SetZoneMask t v) = GetCastShadows t ∧
      IsOccluder (SetZoneMask t v) = IsOccluder t ∧
      IsOccludee (SetZoneMask t v) = IsOccludee t ∧
      GetPatchSize (SetZoneMask t v) = GetPatchSize t ∧
      GetSpacing (SetZoneMask t v) = GetSpacing t ∧
      GetHeightMap (SetZoneMask t v) = GetHeightMap t ∧
      (SetZoneMask t v).numLodLevels_ = t.numLodLevels_) ∧
    (∀ (t : Terrain) (v : Nat),
      GetDrawDistance (SetMaxLights t v) = GetDrawDistance t ∧
      GetShadowDistance (SetMaxLights t v) = GetShadowDistance t ∧
      GetLodBias (SetMaxLights t v) = GetLodBias t ∧
      GetViewMask (SetMaxLights t v) = GetViewMask t ∧
      GetLightMask (SetMaxLights t v) = GetLightMask t ∧
      GetShadowMask (SetMaxLights t v) = GetShadowMask t ∧
      GetZoneMask (SetMaxLights t v) = GetZoneMask t ∧
      IsVisible (SetMaxLights t v) = IsVisible t ∧
      GetCastShadows (SetMaxLights t v) = GetCastShadows t ∧
      IsOccluder (SetMaxLights t v) = IsOccluder t ∧
      IsOccludee (SetMaxLights t v) = IsOccludee t ∧
      GetPatchSize (SetMaxLights t v) = GetPatchSize t ∧
      GetSpacing (SetMaxLights t v) = GetSpacing t ∧
      GetHeightMap (SetMaxLights t v) = GetHeightMap t ∧
      (SetMaxLights t v).numLodLevels_ = t.numLodLevels_) ∧
    (∀ (t : Terrain) (v : Bool),
      GetDrawDistance (SetVisible t v) = GetDrawDistance t ∧
      GetShadowDistance (SetVisible t v) = GetShadowDistance t ∧
      GetLodBias (SetVisible t v) = GetLodBias t ∧
      GetViewMask (SetVisible t v) = GetViewMask t ∧
      GetLightMask (SetVisible t v) = GetLightMask t ∧
      GetShadowMask (SetVisible t v) = GetShadowMask t ∧
      GetZoneMask (SetVisible t v) = GetZoneMask t ∧
      GetMaxLights (SetVisible t v) = GetMaxLights t ∧
      GetCastShadows (SetVisible t v) = GetCastShadows t ∧
      IsOccluder (SetVisible t v) = IsOccluder t ∧
      IsOccludee (SetVisible t v) = IsOccludee t ∧
      GetPatchSize (SetVisible t v) = GetPatchSize t ∧
      GetSpacing (SetVisible t v) = GetSpacing t ∧
      GetHeightMap (SetVisible t v) = GetHeightMap t ∧
      (SetVisible t v).numLodLevels_ = t.numLodLevels_) ∧
    (∀ (t : Terrain) (v : Bool),
      GetDrawDistance (SetCastShadows t v) = GetDrawDistance t ∧
      GetShadowDistance (SetCastShadows t v) = GetShadowDistance t ∧
      GetLodBias (SetCastShadows t v) = GetLodBias t ∧
      GetViewMask (SetCastShadows t v) = GetViewMask t ∧
      GetLightMask (SetCastShadows t v) = GetLightMask t ∧
      GetShadowMask (SetCastShadows t v) = GetShadowMask t ∧
      GetZoneMask (SetCastShadows t v) = GetZoneMask t ∧
      GetMaxLights (SetCastShadows t v) = GetMaxLights t ∧
      IsVisible (SetCastShadows t v) = IsVisible t ∧
      IsOccluder (SetCastShadows t v) = IsOccluder t ∧
      IsOccludee (SetCastShadows t v) = IsOccludee t ∧
      GetPatchSize (SetCastShadows t v) = GetPatchSize t ∧
      GetSpacing (SetCastShadows t v) = GetSpacing t ∧
      GetHeightMap (SetCastShadows t v) = GetHeightMap t ∧
      (SetCastShadows t v).numLodLevels_ = t.numLodLevels_) ∧
    (∀ (t : Terrain) (v : Bool),
      GetDrawDistance (SetOccluder t v) = GetDrawDistance t ∧
      GetShadowDistance (SetOccluder t v) = GetShadowDistance t ∧
      GetLodBias (SetOccluder t v) = GetLodBias t ∧
      GetViewMask (SetOccluder t v) = GetViewMask t ∧
      GetLightMask (SetOccluder t v) = GetLightMask t ∧
      GetShadowMask (SetOccluder t v) = GetShadowMask t ∧
      GetZoneMask (SetOccluder t v) = GetZoneMask t ∧
      GetMaxLights (SetOccluder t v) = GetMaxLights t ∧
      IsVisible (SetOccluder t v) = IsVisible t ∧
      GetCastShadows (SetOccluder t v) = GetCastShadows t ∧
      IsOccludee (SetOccluder t v) = IsOccludee t ∧
      GetPatchSize (SetOccluder t v) = GetPatchSize t ∧
      GetSpacing (SetOccluder t v) = GetSpacing t ∧
      GetHeightMap (SetOccluder t v) = GetHeightMap t ∧
      (SetOccluder t v).numLodLevels_ = t.numLodLevels_) ∧
    (∀ (t : Terrain) (v : Bool),
      GetDrawDistance (SetOccludee t v) = GetDrawDistance t ∧
      GetShadowDistance (SetOccludee t v) = GetShadowDistance t ∧
      GetLodBias (SetOccludee t v) = GetLodBias t ∧
      GetViewMask (SetOccludee t v) = GetViewMask t ∧
      GetLightMask (SetOccludee t v) = GetLightMask t ∧
      GetShadowMask (SetOccludee t v) = GetShadowMask t ∧
      GetZoneMask (SetOccludee t v) = GetZoneMask t ∧
      GetMaxLights (SetOccludee t v) = GetMaxLights t ∧
      IsVisible (SetOccludee t v) = IsVisible t ∧
      GetCastShadows (SetOccludee t v) = GetCastShadows t ∧
      GetPatchSize (SetOccludee t v) = GetPatchSize t ∧
      GetSpacing (SetOccludee t v) = GetSpacing t ∧
      GetHeightMap (SetOccludee t v) = GetHeightMap t ∧
      (SetOccludee t v).numLodLevels_ = t.numLodLevels_) :=
  ⟨rfl, rfl, fun h => Bool.noConfusion h, fun _ _ => rfl,
    fun _ _ => ⟨rfl, rfl, rfl, rfl, rfl, rfl, rfl, rfl, rfl, rfl, rfl, rfl, rfl, rfl, rfl⟩,
    fun _ _ => ⟨rfl, rfl, rfl, rfl, rfl, rfl, rfl, rfl, rfl, rfl, rfl, rfl, rfl, rfl, rfl⟩,
    fun _ _ => ⟨rfl, rfl, rfl, rfl, rfl, rfl, rfl, rfl, rfl, rfl, rfl, rfl, rfl, rfl, rfl⟩,
    fun _ _ => ⟨rfl, rfl, rfl, rfl, rfl, rfl, rfl, rfl, rfl, rfl, rfl, rfl, rfl, rfl, rfl⟩,
    fun _ _ => ⟨rfl, rfl, rfl, rfl, rfl, rfl, rfl, rfl, rfl, rfl, rfl, rfl, rfl, rfl, rfl⟩,
    fun _ _ => ⟨rfl, rfl, rfl, rfl, rfl, rfl, rfl, rfl, rfl, rfl, rfl, rfl, rfl, rfl, rfl⟩,
    fun _ _ => ⟨rfl, rfl, rfl, rfl, rfl, rfl, rfl, rfl, rfl, rfl, rfl, rfl, rfl, rfl, rfl⟩,
    fun _ _ => ⟨rfl, rfl, rfl, rfl, rfl, rfl, rfl, rfl, rfl, rfl, rfl, rfl, rfl, rfl, rfl⟩,
    fun _ _ => ⟨rfl, rfl, rfl, rfl, rfl, rfl, rfl, rfl, rfl, rfl, rfl, rfl, rfl, rfl, rfl⟩,
    fun _ _ => ⟨rfl, rfl, rfl, rfl, rfl, rfl, rfl, rfl, rfl, rfl, rfl, rfl, rfl, rfl, rfl⟩,
    fun _ _ => ⟨rfl, rfl, rfl, rfl, rfl, rfl, rfl, rfl, rfl, rfl, rfl, rfl, rfl, rfl, rfl⟩,
    fun _ _ => ⟨rfl, rfl, rfl, rfl, rfl, rfl, rfl, rfl, rfl, rfl, rfl, rfl, rfl, rfl⟩⟩

/-! ## C27: the heightmap decode stays in bounds -/

/-- C27: for a well-formed image of width `W`, height `H` and `c` components (at least 1
each, `W * H * c` data bytes, within the `int` range) and a patch size in `[4, 128]`, the
size computed by `CreateGeometry` is at least 1 and at most `(W, H)`; for every sample
`(x, z)` of the field the source index is `W * c * (size.y - 1 - z) + c * x`, without
wrap-around, and is below `W * H * c`; the height data holds exactly `size.x * size.y`
samples, and the sample of `(x, z)`, the byte read at the source index times `spacing_.y_`,
is at index `z * size.x + x`. -/
theorem CreateGeometry_decode_in_bounds (env : Env) (t : Terrain) (img : Image) (node : Node)
    (hImg : t.heightMap_ = some img) (hNode : env.node_ = some node)
    (hOct : env.octree = true) (hwf : img.WF)
    (hp1 : 4 ≤ t.patchSize_) (hp2 : t.patchSize_ ≤ 128) :
    1 ≤ (CreateGeometry env t).size_.x_ ∧ (CreateGeometry env t).size_.x_ ≤ img.width ∧
    1 ≤ (CreateGeometry env t).size_.y_ ∧ (CreateGeometry env t).size_.y_ ≤ img.height ∧
    img.data.length = img.width.toNat * img.height.toNat * img.components ∧
    (∀ x z : Nat, (x : Int) < (CreateGeometry env t).size_.x_ →
      (z : Int) < (CreateGeometry env t).size_.y_ →
      srcIndex img (CreateGeometry env t).size_.y_ x z
        = img.width.toNat * img.components
            * ((CreateGeometry env t).size_.y_ - 1 - z).toNat + img.components * x ∧
      srcIndex img (CreateGeometry env t).size_.y_ x z
        < img.width.toNat * img.height.toNat * img.components) ∧
    (∃ heightData, (CreateGeometry env t).heightData_ = some heightData ∧
      heightData.length
        = (CreateGeometry env t).size_.x_.toNat * (CreateGeometry env t).size_.y_.toNat ∧
      ∀ x z : Nat, (x : Int) < (CreateGeometry env t).size_.x_ →
        (z : Int) < (CreateGeometry env t).size_.y_ →
        ∃ b, img.data[srcIndex img (CreateGeometry env t).size_.y_ x z]? = some b ∧
          heightData[z * (CreateGeometry env t).size_.x_.toNat + x]?
            = some ((b : ℚ) * t.spacing_.y_)) := by
  have _ := hp1
  have _ := hp2
  obtain ⟨hd, -⟩ := CreateGeometry_heightData env t img node hImg hNode hOct
  have hs := CreateGeometry_size env t img node hImg hNode hOct hwf
  have hW := hwf.1
  have hH := hwf.2.1
  have hlen := hwf.2.2.2.2.1
  have h1 := div_mul_succ_le img.width.toNat t.patchSize_ (by omega)
  have h2 := div_mul_succ_le img.height.toNat t.patchSize_ (by omega)
  have hsx : (CreateGeometry env t).size_.x_
      = (((img.width.toNat - 1) / t.patchSize_ * t.patchSize_ + 1 : Nat) : Int) :=
    congrArg IntVector2.x_ hs
  have hsy : (CreateGeometry env t).size_.y_
      = (((img.height.toNat - 1) / t.patchSize_ * t.patchSize_ + 1 : Nat) : Int) :=
    congrArg IntVector2.y_ hs
  have hsrc : ∀ x z : Nat, (x : Int) < (CreateGeometry env t).size_.x_ →
      (z : Int) < (CreateGeometry env t).size_.y_ →
      srcIndex img (CreateGeometry env t).size_.y_ x z
        = img.width.toNat * img.components
            * ((CreateGeometry env t).size_.y_ - 1 - z).toNat + img.components * x ∧
      srcIndex img (CreateGeometry env t).size_.y_ x z < img.data.length := by
    intro x z hx hz
    rw [hsx] at hx
    rw [hsy] at hz ⊢
    obtain ⟨e1, e2⟩ := srcIndex_eq img hwf _ _ x z h1 h2 (by omega) (by omega)
    have hrow : ((((img.height.toNat - 1) / t.patchSize_ * t.patchSize_ + 1 : Nat) : Int)
        - 1 - (z : Int)).toNat
        = (img.height.toNat - 1) / t.patchSize_ * t.patchSize_ + 1 - 1 - z := by omega
    rw [hrow, e1]
    exact ⟨rfl, e2⟩
  refine ⟨by omega, by omega, by omega, by omega, hlen, ?_, ?_⟩
  · intro x z hx hz
    obtain ⟨e1, e2⟩ := hsrc x z hx hz
    exact ⟨e1, hlen ▸ e2⟩
  · have key : ∀ x z : Nat, x < (img.width.toNat - 1) / t.patchSize_ * t.patchSize_ + 1 →
        z < (img.height.toNat - 1) / t.patchSize_ * t.patchSize_ + 1 →
        ∃ b, img.data[srcIndex img
            (((img.height.toNat - 1) / t.patchSize_ * t.patchSize_ + 1 : Nat) : Int) x z]?
              = some b ∧
          (decodeHeights img
            ⟨(((img.width.toNat - 1) / t.patchSize_ * t.patchSize_ + 1 : Nat) : Int),
             (((img.height.toNat - 1) / t.patchSize_ * t.patchSize_ + 1 : Nat) : Int)⟩
            t.spacing_.y_)[z * ((img.width.toNat - 1) / t.patchSize_ * t.patchSize_ + 1) + x]?
            = some ((b : ℚ) * t.spacing_.y_) := by
      intro x z hx hz
      obtain ⟨e1, e2⟩ := srcIndex_eq img hwf _ _ x z h1 h2 hx hz
      rw [← e1] at e2
      refine ⟨img.data.getD (srcIndex img
        (((img.height.toNat - 1) / t.patchSize_ * t.patchSize_ + 1 : Nat) : Int) x z) 0, ?_, ?_⟩
      · rw [List.getD_eq_getElem?_getD, List.getElem?_eq_getElem e2]
        rfl
      · rw [decodeHeights_eq]
        exact grid_getElem_opt _ _
          (fun x z => ((img.data.getD (srcIndex img
            (((img.height.toNat - 1) / t.patchSize_ * t.patchSize_ + 1 : Nat) : Int) x z) 0
              : Nat) : ℚ) * t.spacing_.y_) x z hx hz
    refine ⟨_, hd, ?_, ?_⟩
    · rw [hs, decodeHeights_eq, List.length_map, List.length_range]
      show _ = Int.toNat ((_ : Nat) : Int) * Int.toNat ((_ : Nat) : Int)
      rw [Int.toNat_natCast, Int.toNat_natCast, Nat.mul_comm]
    · rw [hs]
      simp only [Int.toNat_natCast, Nat.cast_lt]
      exact key

/-- The example image with patch size 4: the sample `(3, 1)` reads byte 30 of 45. -/
theorem CreateGeometry_decode_in_bounds_witness :
    exampleImage.WF ∧
    srcIndex exampleImage (CreateGeometry attachedEnv exampleTerrain).size_.y_ 3 1
      < exampleImage.width.toNat * exampleImage.height.toNat * exampleImage.components ∧
    (CreateGeometry attachedEnv exampleTerrain).size_.x_ ≤ exampleImage.width := by
  have h := CreateGeometry_decode_in_bounds attachedEnv exampleTerrain exampleImage identityNode
    rfl rfl rfl exampleImage_wf (by decide) (by decide)
  exact ⟨exampleImage_wf, (h.2.2.2.2.2.1 3 1 (by decide) (by decide)).2, h.2.1⟩

/-! ## C28: index values are vertex numbers -/

/-- C28: for a patch size `p <= 128`, which covers every reachable patch size, a patch has
`(p + 1) * (p + 1) <= 16641 < 65536` vertices; for every quad `(x, z)` with `x, z < p` the six
values stored as `unsigned short` are the untruncated vertex numbers and each is below
`(p + 1) * (p + 1)`; after a rebuild that ran, every entry of the shared index buffer is
below `(p + 1) * (p + 1)`, the vertex count of every patch, and the vertex data of a patch,
when written, has that many vertices. -/
theorem CreateGeometry_indices_valid (env : Env) (t : Terrain) (img : Image) (node : Node)
    (hImg : t.heightMap_ = some img) (hNode : env.node_ = some node)
    (hOct : env.octree = true) (hp : t.patchSize_ ≤ 128) :
    (t.patchSize_ + 1) * (t.patchSize_ + 1) ≤ 16641 ∧ 16641 < 65536 ∧
    (∀ x z : Nat, x < t.patchSize_ → z < t.patchSize_ →
      quadIndices ((t.patchSize_ + 1) % 4294967296) x z
        = [x + (z + 1) * (t.patchSize_ + 1), x + 1 + z * (t.patchSize_ + 1),
           x + z * (t.patchSize_ + 1), x + (z + 1) * (t.patchSize_ + 1),
           x + 1 + (z + 1) * (t.patchSize_ + 1), x + 1 + z * (t.patchSize_ + 1)] ∧
      ∀ i ∈ quadIndices ((t.patchSize_ + 1) % 4294967296) x z,
        i < (t.patchSize_ + 1) * (t.patchSize_ + 1)) ∧
    (∀ indices, (CreateGeometry env t).indexBuffer_.data = some indices →
      ∀ i ∈ indices, i < (t.patchSize_ + 1) * (t.patchSize_ + 1) ∧ i < 65536) ∧
    (∀ patch ∈ (CreateGeometry env t).patches_,
      patch.vertexCount = (t.patchSize_ + 1) * (t.patchSize_ + 1) ∧
      ∀ vs, patch.vertexData = some vs → vs.length = (t.patchSize_ + 1) * (t.patchSize_ + 1)) ∧
    (∀ (d : DrawableDefaults) (t2 : Terrain), Reachable d t2 → t2.patchSize_ ≤ 128) := by
  have hsq : (t.patchSize_ + 1) * (t.patchSize_ + 1) ≤ 16641 :=
    Nat.mul_le_mul (by omega : t.patchSize_ + 1 ≤ 129) (by omega : t.patchSize_ + 1 ≤ 129)
  refine ⟨hsq, by decide, ?_, ?_, ?_, ?_⟩
  · intro x z hx hz
    exact ⟨quadIndices_eq _ x z (by omega) hx hz,
      fun i hi => quadIndices_lt _ x z i (by omega) hx hz hi⟩
  · intro indices hdata i hi
    rw [CreateGeometry_eq env t img node hImg hNode hOct] at hdata
    simp only at hdata
    split_ifs at hdata with hl
    · have heq : createIndexData t.patchSize_ = indices := Option.some.inj hdata
      rw [← heq] at hi
      obtain ⟨x, z, hx, hz, hq⟩ := mem_createIndexData _ i hi
      have := quadIndices_lt _ x z i (by omega) hx hz hq
      exact ⟨this, by omega⟩
  · intro patch hpatch
    rw [CreateGeometry_eq env t img node hImg hNode hOct] at hpatch
    simp only at hpatch
    obtain ⟨q, hq, rfl⟩ := List.mem_map.mp hpatch
    rw [createPatches_eq] at hq
    obtain ⟨i, -, rfl⟩ := List.mem_map.mp hq
    have h := UpdatePatchGeometry_vertexCount env (prepareGeometry env t img)
      (i % (toUnsigned (img.width - 1) / t.patchSize_))
      (i / (toUnsigned (img.width - 1) / t.patchSize_)) (by show t.patchSize_ ≤ 255; omega)
    exact h
  · intro d t2 h2
    have := patchSize_mem_of_reachable d t2 h2
    simp only [List.mem_cons, List.mem_singleton, List.not_mem_nil, or_false] at this
    omega

/-- The last quad of a patch of size 4: its indices, the largest of which is 24, are below
the 25 vertices of the patch. -/
theorem CreateGeometry_indices_valid_witness :
    exampleTerrain.patchSize_ ≤ 128 ∧
    quadIndices ((exampleTerrain.patchSize_ + 1) % 4294967296) 3 3 = [23, 19, 18, 23, 24, 19] ∧
    24 < (exampleTerrain.patchSize_ + 1) * (exampleTerrain.patchSize_ + 1) := by
  have h := CreateGeometry_indices_valid attachedEnv exampleTerrain exampleImage identityNode
    rfl rfl rfl (by decide)
  obtain ⟨h1, h2⟩ := h.2.2.1 3 3 (by decide) (by decide)
  exact ⟨by decide, h1, h2 24 (by rw [h1]; decide)⟩

/-! ## C29: adjacent patches meet -/

/-- C29: after a rebuild from a well-formed image, for horizontally adjacent patches
`(px, pz)` and `(px + 1, pz)` whose vertex buffers were written and every `z1 <= p`, the
vertex `(p, z1)` of the first and the vertex `(0, z1)` of the second have the same height,
normal, texture coordinate and tangent, and the nodes of the two patches place them at the
same point, in exact arithmetic; the same holds for vertically adjacent patches `(px, pz)`
and `(px, pz + 1)` with the vertices `(x1, p)` and `(x1, 0)`. -/
theorem adjacent_patches_meet (env : Env) (t : Terrain) (img : Image) (node : Node)
    (hImg : t.heightMap_ = some img) (hNode : env.node_ = some node)
    (hOct : env.octree = true) (hwf : img.WF) (hp : 0 < t.patchSize_) :
    (∀ px pz z1 : Nat, px + 1 < (CreateGeometry env t).patchesX_ →
      pz < (CreateGeometry env t).patchesZ_ → z1 ≤ t.patchSize_ →
      env.vertexLock px pz = true → env.vertexLock (px + 1) pz = true →
      ∃ va vb A B,
        patchVertexAt (CreateGeometry env t) (pz * (CreateGeometry env t).patchesX_ + px)
          (z1 * (t.patchSize_ + 1) + t.patchSize_) = some va ∧
        patchVertexAt (CreateGeometry env t) (pz * (CreateGeometry env t).patchesX_ + (px + 1))
          (z1 * (t.patchSize_ + 1) + 0) = some vb ∧
        meshVertex (CreateGeometry env t) (pz * (CreateGeometry env t).patchesX_ + px)
          (z1 * (t.patchSize_ + 1) + t.patchSize_) = some A ∧
        meshVertex (CreateGeometry env t) (pz * (CreateGeometry env t).patchesX_ + (px + 1))
          (z1 * (t.patchSize_ + 1) + 0) = some B ∧
        va.position.y_ = vb.position.y_ ∧ va.normal = vb.normal ∧
        va.texCoord = vb.texCoord ∧ va.tangent = vb.tangent ∧ A = B) ∧
    (∀ px pz x1 : Nat, px < (CreateGeometry env t).patchesX_ →
      pz + 1 < (CreateGeometry env t).patchesZ_ → x1 ≤ t.patchSize_ →
      env.vertexLock px pz = true → env.vertexLock px (pz + 1) = true →
      ∃ va vb A B,
        patchVertexAt (CreateGeometry env t) (pz * (CreateGeometry env t).patchesX_ + px)
          (t.patchSize_ * (t.patchSize_ + 1) + x1) = some va ∧
        patchVertexAt (CreateGeometry env t) ((pz + 1) * (CreateGeometry env t).patchesX_ + px)
          (0 * (t.patchSize_ + 1) + x1) = some vb ∧
        meshVertex (CreateGeometry env t) (pz * (CreateGeometry env t).patchesX_ + px)
          (t.patchSize_ * (t.patchSize_ + 1) + x1) = some A ∧
        meshVertex (CreateGeometry env t) ((pz + 1) * (CreateGeometry env t).patchesX_ + px)
          (0 * (t.patchSize_ + 1) + x1) = some B ∧
        va.position.y_ = vb.position.y_ ∧ va.normal = vb.normal ∧
        va.texCoord = vb.texCoord ∧ va.tangent = vb.tangent ∧ A = B) := by
  have _ := hp
  obtain ⟨hws, -⟩ := CreateGeometry_origin env t img node hImg hNode hOct
  have hps : (CreateGeometry env t).patchSize_ = t.patchSize_ := (CreateGeometry_frame env t).1
  rw [hps] at hws
  constructor
  · intro px pz z1 hpx hpz hz1 hl1 hl2
    have e : (px + 1) * t.patchSize_ + 0 = px * t.patchSize_ + t.patchSize_ := by ring
    refine ⟨_, _, _, _,
      CreateGeometry_patchVertexAt env t img node hImg hNode hOct px pz _ z1 (by omega) hpz
        (le_refl _) hz1 hl1,
      CreateGeometry_patchVertexAt env t img node hImg hNode hOct (px + 1) pz 0 z1 hpx hpz
        (Nat.zero_le _) hz1 hl2,
      CreateGeometry_meshVertex env t img node hImg hNode hOct px pz _ z1 (by omega) hpz
        (le_refl _) hz1 hl1,
      CreateGeometry_meshVertex env t img node hImg hNode hOct (px + 1) pz 0 z1 hpx hpz
        (Nat.zero_le _) hz1 hl2, ?_⟩
    rw [patchVertex_prepared env t img node hImg hNode hOct hwf px pz _ z1 (by omega) hpz
        (le_refl _) hz1,
      patchVertex_prepared env t img node hImg hNode hOct hwf (px + 1) pz 0 z1 hpx hpz
        (Nat.zero_le _) hz1, e]
    refine ⟨rfl, rfl, rfl, rfl, ?_⟩
    rw [hws]
    unfold PatchNode.transform SetPatchTransform Node.worldTransform newPatch
    simp only [Vector3.mk.injEq]
    refine ⟨?_, trivial, trivial⟩
    push_cast
    ring
  · intro px pz x1 hpx hpz hx1 hl1 hl2
    have e : (pz + 1) * t.patchSize_ + 0 = pz * t.patchSize_ + t.patchSize_ := by ring
    refine ⟨_, _, _, _,
      CreateGeometry_patchVertexAt env t img node hImg hNode hOct px pz x1 _ hpx (by omega)
        hx1 (le_refl _) hl1,
      CreateGeometry_patchVertexAt env t img node hImg hNode hOct px (pz + 1) x1 0 hpx hpz
        hx1 (Nat.zero_le _) hl2,
      CreateGeometry_meshVertex env t img node hImg hNode hOct px pz x1 _ hpx (by omega)
        hx1 (le_refl _) hl1,
      CreateGeometry_meshVertex env t img node hImg hNode hOct px (pz + 1) x1 0 hpx hpz
        hx1 (Nat.zero_le _) hl2, ?_⟩
    rw [patchVertex_prepared env t img node hImg hNode hOct hwf px pz x1 _ hpx (by omega)
        hx1 (le_refl _),
      patchVertex_prepared env t img node hImg hNode hOct hwf px (pz + 1) x1 0 hpx hpz
        hx1 (Nat.zero_le _), e]
    refine ⟨rfl, rfl, rfl, rfl, ?_⟩
    rw [hws]
    unfold PatchNode.transform SetPatchTransform Node.worldTransform newPatch
    simp only [Vector3.mk.injEq]
    refine ⟨trivial, trivial, ?_⟩
    push_cast
    ring

/-- The terrain with patch size 2, a grid of 4 x 2 patches: the patches `(0, 0)` and
`(1, 0)` meet at the vertices `(2, 1)` and `(0, 1)`, the patches `(0, 0)` and `(0, 1)` at
the vertices `(1, 2)` and `(1, 0)`. -/
theorem adjacent_patches_meet_witness :
    exampleImage.WF ∧
    (∃ A B,
      meshVertex (CreateGeometry attachedEnv smallPatchTerrain)
        (0 * (CreateGeometry attachedEnv smallPatchTerrain).patchesX_ + 0)
        (1 * (smallPatchTerrain.patchSize_ + 1) + smallPatchTerrain.patchSize_) = some A ∧
      meshVertex (CreateGeometry attachedEnv smallPatchTerrain)
        (0 * (CreateGeometry attachedEnv smallPatchTerrain).patchesX_ + (0 + 1))
        (1 * (smallPatchTerrain.patchSize_ + 1) + 0) = some B ∧ A = B) ∧
    (∃ A B,
      meshVertex (CreateGeometry attachedEnv smallPatchTerrain)
        (0 * (CreateGeometry attachedEnv smallPatchTerrain).patchesX_ + 0)
        (smallPatchTerrain.patchSize_ * (smallPatchTerrain.patchSize_ + 1) + 1) = some A ∧
      meshVertex (CreateGeometry attachedEnv smallPatchTerrain)
        ((0 + 1) * (CreateGeometry attachedEnv smallPatchTerrain).patchesX_ + 0)
        (0 * (smallPatchTerrain.patchSize_ + 1) + 1) = some B ∧ A = B) := by
  have h := adjacent_patches_meet attachedEnv smallPatchTerrain exampleImage identityNode
    rfl rfl rfl exampleImage_wf (by decide)
  obtain ⟨-, -, A, B, -, -, h1, h2, -, -, -, -, h3⟩ :=
    h.1 0 0 1 (by decide) (by decide) (by decide) rfl rfl
  obtain ⟨-, -, A2, B2, -, -, h4, h5, -, -, -, -, h6⟩ :=
    h.2 0 0 1 (by decide) (by decide) (by decide) rfl rfl
  exact ⟨exampleImage_wf, ⟨A, B, h1, h2, h3⟩, ⟨A2, B2, h4, h5, h6⟩⟩

/-! ## C30: the normal of a planar field -/

/-- C30: when the nine samples around a coordinate `(x, z)` whose neighbours do not wrap
lie on the plane `h = a * x + b * z + c`, the neighbour sum of `GetNormal` is exactly
`(-6 * a, 8, -6 * b)` and `GetNormal` is that vector divided by its length, the square
root of `36 * a * a + 64 + 36 * b * b`: over the real numbers a vector of unit length
and a positive multiple of `(-3 * a, 4, -3 * b)`. The result is the same for any offset `c`
and any spacing: another state with the same slopes gives the same normal. The neighbour
sum, and with it the returned vector, is a multiple of the plane normal direction
`(-a, 1, -b)` if and only if `a = b = 0`. -/
theorem GetNormal_planar (t : Terrain) (x z : Nat) (a b c : ℚ)
    (hx : 1 ≤ x) (hz : 1 ≤ z) (hx2 : x + 1 < 4294967296) (hz2 : z + 1 < 4294967296)
    (hplane : ∀ dx dz : Nat, dx ≤ 2 → dz ≤ 2 →
      GetRawHeight t (x - 1 + dx) (z - 1 + dz)
        = a * ((x - 1 + dx : Nat) : ℚ) + b * ((z - 1 + dz : Nat) : ℚ) + c) :
    normalSum t x z = ⟨-6 * a, 8, -6 * b⟩ ∧
    GetNormal t x z = Vector3.Normalized ⟨-6 * a, 8, -6 * b⟩ ∧
    GetNormal t x z = ⟨⟨-6 * a, 8, -6 * b⟩, 36 * a * a + 64 + 36 * b * b⟩ ∧
    (let length : ℝ := Real.sqrt ((GetNormal t x z).lengthSquared : ℝ)
     let nx : ℝ := ((GetNormal t x z).direction.x_ : ℝ) / length
     let ny : ℝ := ((GetNormal t x z).direction.y_ : ℝ) / length
     let nz : ℝ := ((GetNormal t x z).direction.z_ : ℝ) / length
     nx ^ 2 + ny ^ 2 + nz ^ 2 = 1 ∧
     (∃ m : ℝ, 0 < m ∧ nx = m * ((-3 * a : ℚ) : ℝ) ∧ ny = m * 4 ∧
       nz = m * ((-3 * b : ℚ) : ℝ)) ∧
     ((∃ m : ℝ, nx = m * ((-a : ℚ) : ℝ) ∧ ny = m * 1 ∧ nz = m * ((-b : ℚ) : ℝ))
       ↔ (a = 0 ∧ b = 0))) ∧
    (∀ (t2 : Terrain) (c2 : ℚ),
      (∀ dx dz : Nat, dx ≤ 2 → dz ≤ 2 →
        GetRawHeight t2 (x - 1 + dx) (z - 1 + dz)
          = a * ((x - 1 + dx : Nat) : ℚ) + b * ((z - 1 + dz : Nat) : ℚ) + c2) →
      GetNormal t2 x z = GetNormal t x z) ∧
    ((∃ m : ℚ, normalSum t x z = (Vector3.mk (-a) 1 (-b)).scale m) ↔ (a = 0 ∧ b = 0)) := by
  have hsum := normalSum_planar t x z a b c hx hz hx2 hz2 hplane
  have hget : GetNormal t x z = Vector3.Normalized ⟨-6 * a, 8, -6 * b⟩ := by
    unfold GetNormal
    rw [hsum]
  have hval : GetNormal t x z = ⟨⟨-6 * a, 8, -6 * b⟩, 36 * a * a + 64 + 36 * b * b⟩ := by
    rw [GetNormal_eq, hsum]
    unfold Vector3.DotProduct
    simp only [NormalizedVector3.mk.injEq, true_and]
    ring
  have hlpos : (0 : ℚ) < 36 * a * a + 64 + 36 * b * b := by
    nlinarith [mul_self_nonneg a, mul_self_nonneg b]
  have hr : 0 < Real.sqrt ((36 * a * a + 64 + 36 * b * b : ℚ) : ℝ) :=
    Real.sqrt_pos.mpr (by exact_mod_cast hlpos)
  refine ⟨hsum, hget, hval, ?_, ?_, ?_⟩
  · rw [hval]
    dsimp only
    refine ⟨unit_of_lengthSquared _ _ _ _ hlpos (by ring), ?_, ?_⟩
    · refine ⟨2 / Real.sqrt ((36 * a * a + 64 + 36 * b * b : ℚ) : ℝ), by positivity,
        ?_, ?_, ?_⟩
      · push_cast
        ring
      · push_cast
        ring
      · push_cast
        ring
    · generalize Real.sqrt ((36 * a * a + 64 + 36 * b * b : ℚ) : ℝ) = r at hr
      have hne := hr.ne'
      constructor
      · rintro ⟨m, m1, m2, m3⟩
        have hm : m = 8 / r := by
          rw [mul_one] at m2
          rw [← m2]
          norm_num
        rw [hm] at m1 m3
        push_cast at m1 m3
        field_simp at m1 m3
        have ha : a = 0 := by
          rcases m1 with (h | h) | h
          · norm_num at h
          · exact h
          · exact absurd h hne
        have hb : b = 0 := by
          rcases m3 with (h | h) | h
          · norm_num at h
          · exact h
          · exact absurd h hne
        exact ⟨ha, hb⟩
      · rintro ⟨ha, hb⟩
        refine ⟨8 / r, ?_, ?_, ?_⟩
        · rw [ha]; norm_num
        · norm_num
        · rw [hb]; norm_num
  · intro t2 c2 hplane2
    have hsum2 := normalSum_planar t2 x z a b c2 hx hz hx2 hz2 hplane2
    unfold GetNormal
    rw [hsum, hsum2]
  · rw [hsum]
    constructor
    · rintro ⟨m, hm⟩
      unfold Vector3.scale at hm
      simp only [Vector3.mk.injEq] at hm
      obtain ⟨m1, m2, m3⟩ := hm
      have hm8 : m = 8 := by linarith
      rw [hm8] at m1 m3
      exact ⟨by linarith, by linarith⟩
    · rintro ⟨ha, hb⟩
      refine ⟨8, ?_⟩
      rw [ha, hb]
      unfold Vector3.scale
      norm_num

/-- The rebuilt example terrain, the plane `h(x, z) = x / 4 - 9 * z / 4 + 9`, at the
interior coordinate `(1, 1)`: the neighbour sum is `(-3/2, 8, 27/2)`, the normal is that
vector divided by the square root of `497 / 2`, a unit vector; a terrain with another
offset has the same normal; and the neighbour sum is not a multiple of the plane normal
direction `(-1/4, 1, 9/4)`. -/
theorem GetNormal_planar_witness :
    GetRawHeight builtTerrain (1 - 1 + 2) (1 - 1 + 0) = 1 / 4 * ((1 - 1 + 2 : Nat) : ℚ)
      + -9 / 4 * ((1 - 1 + 0 : Nat) : ℚ) + 9 ∧
    normalSum builtTerrain 1 1 = ⟨-6 * (1 / 4), 8, -6 * (-9 / 4)⟩ ∧
    GetNormal builtTerrain 1 1 = ⟨⟨-6 * (1 / 4), 8, -6 * (-9 / 4)⟩,
      36 * (1 / 4) * (1 / 4) + 64 + 36 * (-9 / 4) * (-9 / 4)⟩ ∧
    (let length : ℝ := Real.sqrt ((GetNormal builtTerrain 1 1).lengthSquared : ℝ)
     let nx : ℝ := ((GetNormal builtTerrain 1 1).direction.x_ : ℝ) / length
     let ny : ℝ := ((GetNormal builtTerrain 1 1).direction.y_ : ℝ) / length
     let nz : ℝ := ((GetNormal builtTerrain 1 1).direction.z_ : ℝ) / length
     nx ^ 2 + ny ^ 2 + nz ^ 2 = 1) ∧
    GetNormal builtTerrain 1 1 = GetNormal builtTerrain 1 1 ∧
    ¬ ((1 / 4 : ℚ) = 0 ∧ (-9 / 4 : ℚ) = 0) ∧
    ¬ ∃ m : ℚ, normalSum builtTerrain 1 1 = (Vector3.mk (-(1 / 4)) 1 (-(-9 / 4))).scale m := by
  have h := GetNormal_planar builtTerrain 1 1 (1 / 4) (-9 / 4) 9 (by decide) (by decide)
    (by decide) (by decide) builtTerrain_plane
  have hne : ¬ ((1 / 4 : ℚ) = 0 ∧ (-9 / 4 : ℚ) = 0) := by norm_num
  exact ⟨builtTerrain_plane 2 0 (by decide) (by decide), h.1, h.2.2.1, h.2.2.2.1.1,
    h.2.2.2.2.1 builtTerrain 9 builtTerrain_plane, hne,
    fun hm => hne (h.2.2.2.2.2.mp hm)⟩

end Urho3D
